import Mathlib

/-!
# Dashboard validation and resume-path logic

A shallow embedding of `src/lib/validations/dashboard.js`, `src/lib/utils/dashboard.js`
and the page-level upload handler of `src/pages/Dashboard.jsx`.

JavaScript strings are sequences of UTF-16 code units, JavaScript numbers are either a
finite value (embedded in `ℚ`, which contains every finite double), `NaN`, or one of the
two infinities.  The zod combinators used by the schemas (`z.string`, `z.number`,
`z.enum`, `z.object`, `.optional`, `.partial`, `.refine`, `safeParse`) are embedded with
the status/issue discipline of zod 3: a failed type test aborts, a failed check only
marks the result dirty and parsing goes on.
-/

namespace Job

/-! ## JavaScript values -/

/-- A JavaScript string, as its list of UTF-16 code units (each below `65536`). -/
abbrev JsString := List Nat

/-- UTF-16 encoding of one Unicode scalar value. -/
def utf16Char (c : Char) : List Nat :=
  if c.toNat < 65536 then [c.toNat]
  else [55296 + (c.toNat - 65536) / 1024, 56320 + (c.toNat - 65536) % 1024]

/-- The JavaScript string denoted by a string literal of the source. -/
def utf16 (s : String) : JsString :=
  (s.toList.map utf16Char).flatten

/-- A JavaScript number. -/
inductive JsNumber where
  | finite (q : ℚ)
  | nan
  | posInf
  | negInf
deriving DecidableEq

namespace JsNumber

/-- The relational operator `a < b` on numbers. -/
def lt : JsNumber → JsNumber → Bool
  | nan, _ => false
  | _, nan => false
  | finite x, finite y => decide (x < y)
  | finite _, posInf => true
  | finite _, negInf => false
  | posInf, _ => false
  | negInf, negInf => false
  | negInf, _ => true

/-- The relational operator `a > b`. -/
def gt (a b : JsNumber) : Bool := lt b a

/-- The relational operator `a <= b`: false when either side is `NaN`, else `!(b < a)`. -/
def le : JsNumber → JsNumber → Bool
  | nan, _ => false
  | _, nan => false
  | a, b => !(lt b a)

/-- The relational operator `a >= b`. -/
def ge (a b : JsNumber) : Bool := le b a

/-- The builtin `Number.isInteger`. -/
def isInteger : JsNumber → Bool
  | finite q => decide (q.den = 1)
  | _ => false

/-- A natural number as a JavaScript number. -/
def ofNat (n : Nat) : JsNumber := finite (n : ℚ)

end JsNumber

/-- A JavaScript value, as far as the schemas can tell values apart. -/
inductive JsValue where
  | undefined
  | null
  | boolean (b : Bool)
  | number (n : JsNumber)
  | string (s : JsString)
  | array (items : List JsValue)
  | object (fields : List (String × JsValue))

namespace JsValue

/-- Property read `data[key]` on an object's own fields; `undefined` when absent. -/
def getField (fields : List (String × JsValue)) (key : String) : JsValue :=
  match fields.lookup key with
  | some v => v
  | none => undefined

end JsValue

/-! ## The zod combinators used by the schemas -/

/-- One element of an issue path. -/
inductive PathSegment where
  | key (name : String)
  | index (i : Nat)
deriving DecidableEq, Repr

/-- The issue codes the schemas can produce. -/
inductive ZodIssueCode where
  | invalid_type
  | invalid_enum_value
  | too_small
  | too_big
  | invalid_string
  | custom
deriving DecidableEq, Repr

/-- An issue's message: the text given in the schema, or zod's built-in text (whose
wording is not reproduced). -/
inductive IssueMessage where
  | text (s : String)
  | zodDefault
deriving DecidableEq, Repr

/-- One validation issue. -/
structure ZodIssue where
  code : ZodIssueCode
  path : List PathSegment
  message : IssueMessage
deriving DecidableEq, Repr

/-- What a `_parse` call returns: `{status: "valid", value}`, `{status: "dirty", value}`
or `INVALID` (status `"aborted"`). -/
inductive ParseReturn (α : Type) where
  | OK (value : α)
  | DIRTY (value : α)
  | INVALID

/-- A parse return together with the issues the call added to the parse context. -/
structure Parsed (α : Type) where
  result : ParseReturn α
  issues : List ZodIssue

/-- The result of `safeParse`. -/
inductive SafeParseResult (α : Type) where
  | success (data : α)
  | failure (issues : List ZodIssue)

namespace SafeParseResult

/-- The `success` flag of a `safeParse` result. -/
def isSuccess {α : Type} : SafeParseResult α → Bool
  | success _ => true
  | failure _ => false

/-- The issue list of a `safeParse` result (`error.errors`), empty on success. -/
def errors {α : Type} : SafeParseResult α → List ZodIssue
  | success _ => []
  | failure issues => issues

end SafeParseResult

/-- The function `handleResult` behind `safeParse`: success exactly when the status
is valid, else the failure carrying the context's issues. -/
def handleResult {α : Type} (p : Parsed α) : SafeParseResult α :=
  match p.result with
  | .OK v => .success v
  | _ => .failure p.issues

/-- The `required_error` / `invalid_type_error` parameters of a schema. -/
structure RawCreateParams where
  required_error : Option String
  invalid_type_error : Option String

/-- Message of an `invalid_type` issue under the parameters' error map. -/
def typeErrorMessage (params : RawCreateParams) (input : JsValue) : IssueMessage :=
  match input with
  | .undefined =>
    match params.required_error with
    | some m => .text m
    | none => .zodDefault
  | _ =>
    match params.invalid_type_error with
    | some m => .text m
    | none => .zodDefault

/-- The `invalid_type` abort of a schema whose type test failed. -/
def invalidType {α : Type} (params : RawCreateParams) (path : List PathSegment)
    (input : JsValue) : Parsed α :=
  ⟨.INVALID, [⟨.invalid_type, path, typeErrorMessage params input⟩]⟩

/-- A parse that succeeds with a value and adds no issue. -/
def Parsed.pure {α : Type} (a : α) : Parsed α := ⟨.OK a, []⟩

/-- Status merge of `mergeObjectSync` / `mergeArray` for two members: aborted when either is
aborted, else dirty when either is dirty, else valid. -/
def ParseReturn.seq {α β : Type} : ParseReturn (α → β) → ParseReturn α → ParseReturn β
  | .INVALID, _ => .INVALID
  | _, .INVALID => .INVALID
  | .OK f, .OK a => .OK (f a)
  | .OK f, .DIRTY a => .DIRTY (f a)
  | .DIRTY f, .OK a => .DIRTY (f a)
  | .DIRTY f, .DIRTY a => .DIRTY (f a)

/-- Adds one more member to a record being assembled: every member is parsed, the issues
are kept in member order, the statuses are merged. -/
def Parsed.seq {α β : Type} (pf : Parsed (α → β)) (pa : Parsed α) : Parsed β :=
  ⟨ParseReturn.seq pf.result pa.result, pf.issues ++ pa.issues⟩

/-- The merge `ParseStatus.mergeArray`: the items' results, in order. -/
def Parsed.sequence {α : Type} : List (Parsed α) → Parsed (List α)
  | [] => Parsed.pure []
  | p :: ps => ((Parsed.pure List.cons).seq p).seq (Parsed.sequence ps)

/-- The combinator `.optional()`: `undefined` is accepted as is, anything else goes to the inner schema. -/
def zOptional {α : Type} (inner : List PathSegment → JsValue → Parsed α)
    (path : List PathSegment) (input : JsValue) : Parsed (Option α) :=
  match input with
  | .undefined => ⟨.OK none, []⟩
  | v =>
    match inner path v with
    | ⟨.OK a, issues⟩ => ⟨.OK (some a), issues⟩
    | ⟨.DIRTY a, issues⟩ => ⟨.DIRTY (some a), issues⟩
    | ⟨.INVALID, issues⟩ => ⟨.INVALID, issues⟩

/-- The combinator `.refine(check, {message, path})`: an aborted inner result stays aborted;
otherwise the check runs on the inner value (also when that value is dirty) and a failed
check adds one `custom` issue and marks the result dirty. -/
def zRefine {α : Type} (inner : Parsed α) (check : α → Bool) (message : String)
    (basePath issuePath : List PathSegment) : Parsed α :=
  match inner.result with
  | .INVALID => ⟨.INVALID, inner.issues⟩
  | .OK v =>
    if check v then ⟨.OK v, inner.issues⟩
    else ⟨.DIRTY v, inner.issues ++ [⟨.custom, basePath ++ issuePath, .text message⟩]⟩
  | .DIRTY v =>
    if check v then ⟨.DIRTY v, inner.issues⟩
    else ⟨.DIRTY v, inner.issues ++ [⟨.custom, basePath ++ issuePath, .text message⟩]⟩

/-! ### `z.number` -/

/-- The checks of a `z.number()` chain. -/
inductive NumberCheck where
  | min (value : JsNumber) (message : String)
  | max (value : JsNumber) (message : String)
  | int (message : String)

/-- One pass of the check loop of `ZodNumber._parse`: the issue of a failed check, if any. -/
def NumberCheck.run (path : List PathSegment) (data : JsNumber) : NumberCheck → Option ZodIssue
  | .min value message =>
    if JsNumber.lt data value then some ⟨.too_small, path, .text message⟩ else none
  | .max value message =>
    if JsNumber.gt data value then some ⟨.too_big, path, .text message⟩ else none
  | .int message =>
    if !(JsNumber.isInteger data) then some ⟨.invalid_type, path, .text message⟩ else none

/-- The method `ZodNumber._parse`: `NaN` and non-numbers abort with `invalid_type`; every check runs,
each failed one adds its issue and dirties the status; the value is returned as is. -/
def zNumber (params : RawCreateParams) (checks : List NumberCheck)
    (path : List PathSegment) (input : JsValue) : Parsed JsNumber :=
  match input with
  | .number .nan => invalidType params path input
  | .number n =>
    let issues := checks.filterMap (NumberCheck.run path n)
    if issues.isEmpty then ⟨.OK n, []⟩ else ⟨.DIRTY n, issues⟩
  | _ => invalidType params path input

/-! ### `z.enum` -/

/-- The method `ZodEnum._parse` over string literals of the source: a non-string aborts with
`invalid_type`, a string outside the options aborts with `invalid_enum_value`. -/
def zEnum (params : RawCreateParams) (options : List String)
    (path : List PathSegment) (input : JsValue) : Parsed JsString :=
  match input with
  | .string s =>
    if (options.map utf16).contains s then ⟨.OK s, []⟩
    else ⟨.INVALID, [⟨.invalid_enum_value, path, .zodDefault⟩]⟩
  | _ => invalidType params path input

/-! ### `z.string` -/

/-- Code units that `String.prototype.trim` strips: WhiteSpace and LineTerminator. -/
def isWhiteSpace (c : Nat) : Bool :=
  c == 9 || c == 10 || c == 11 || c == 12 || c == 13 || c == 32 || c == 160 || c == 5760
    || (8192 ≤ c && c ≤ 8202) || c == 8232 || c == 8233 || c == 8239 || c == 8287
    || c == 12288 || c == 65279

/-- The method `String.prototype.trim`. -/
def trim (s : JsString) : JsString :=
  ((s.dropWhile isWhiteSpace).reverse.dropWhile isWhiteSpace).reverse

/-- Lower-casing of one code unit, on the ASCII range. -/
def toLowerUnit (c : Nat) : Nat :=
  if 65 ≤ c ∧ c ≤ 90 then c + 32 else c

/-- The method `String.prototype.toLowerCase` on its ASCII part: `A`..`Z` go to `a`..`z`.
Code units from 128 on are left alone here (JavaScript applies the Unicode mapping to
them); the only schema that lower-cases does so after its e-mail pattern, which no
string holding such a unit matches (`emailRegexTest_lt`). -/
def toLowerCase (s : JsString) : JsString :=
  s.map toLowerUnit

/-- Character class `[A-Z]` under the `i` flag. -/
def isLetter (c : Nat) : Bool :=
  (65 ≤ c && c ≤ 90) || (97 ≤ c && c ≤ 122)

/-- Character class `[0-9]`. -/
def isDigit (c : Nat) : Bool :=
  48 ≤ c && c ≤ 57

/-- Character class `[A-Z0-9_'+\-\.]` under the `i` flag. -/
def isLocalUnit (c : Nat) : Bool :=
  isLetter c || isDigit c || c == 95 || c == 39 || c == 43 || c == 45 || c == 46

/-- Character class `[A-Z0-9_+-]` under the `i` flag. -/
def isLocalLastUnit (c : Nat) : Bool :=
  isLetter c || isDigit c || c == 95 || c == 43 || c == 45

/-- Character class `[A-Z0-9\-]` under the `i` flag. -/
def isLabelUnit (c : Nat) : Bool :=
  isLetter c || isDigit c || c == 45

/-- Whether two dots follow each other somewhere in the string. -/
def hasDoubleDot : JsString → Bool
  | 46 :: 46 :: _ => true
  | _ :: rest => hasDoubleDot rest
  | [] => false

/-- A domain label `[A-Z0-9][A-Z0-9\-]*`. -/
def isDomainLabel : JsString → Bool
  | [] => false
  | c :: rest => (isLetter c || isDigit c) && rest.all isLabelUnit

/-- The final label `[A-Z]{2,}`. -/
def isTopLabel (l : JsString) : Bool :=
  decide (2 ≤ l.length) && l.all isLetter

/-- The domain part `([A-Z0-9][A-Z0-9\-]*\.)+[A-Z]{2,}`: the labels between the dots. -/
def isDomain (d : JsString) : Bool :=
  match (d.splitOn 46).reverse with
  | top :: l :: ls => isTopLabel top && (l :: ls).all isDomainLabel
  | _ => false

/-- The local part `([A-Z0-9_'+\-\.]*)[A-Z0-9_+-]`. -/
def isLocalPart (l : JsString) : Bool :=
  match l.reverse with
  | last :: _ => isLocalLastUnit last && l.all isLocalUnit
  | [] => false

/-- The e-mail pattern of zod 3,
`/^(?!\.)(?!.*\.\.)([A-Z0-9_'+\-\.]*)[A-Z0-9_+-]@([A-Z0-9][A-Z0-9\-]*\.)+[A-Z]{2,}$/i`,
as a test on the whole string: the text before the first `@` is the local part, the text
after it the domain; the string does not start with a dot and holds no two dots in a
row. -/
def emailRegexTest (s : JsString) : Bool :=
  match s.dropWhile (fun c => c != 64) with
  | [] => false
  | _ :: domain =>
    s.head? != some 46 && !(hasDoubleDot s)
      && isLocalPart (s.takeWhile (fun c => c != 64)) && isDomain domain

/-- The checks of a `z.string()` chain. -/
inductive StringCheck where
  | min (value : Nat) (message : String)
  | max (value : Nat) (message : String)
  | email (message : String)
  | trim
  | toLowerCase

/-- The check loop of `ZodString._parse`: the checks run in the order they were chained, on
the current `input.data`; a failed test adds its issue and dirties the status, `trim` and
`toLowerCase` replace `input.data`.  Returns the final data and the issues. -/
def runStringChecks (path : List PathSegment) :
    List StringCheck → JsString → List ZodIssue → JsString × List ZodIssue
  | [], data, issues => (data, issues)
  | .min value message :: rest, data, issues =>
    if data.length < value then
      runStringChecks path rest data (issues ++ [⟨.too_small, path, .text message⟩])
    else runStringChecks path rest data issues
  | .max value message :: rest, data, issues =>
    if data.length > value then
      runStringChecks path rest data (issues ++ [⟨.too_big, path, .text message⟩])
    else runStringChecks path rest data issues
  | .email message :: rest, data, issues =>
    if !(emailRegexTest data) then
      runStringChecks path rest data (issues ++ [⟨.invalid_string, path, .text message⟩])
    else runStringChecks path rest data issues
  | .trim :: rest, data, issues => runStringChecks path rest (trim data) issues
  | .toLowerCase :: rest, data, issues => runStringChecks path rest (toLowerCase data) issues

/-- The method `ZodString._parse`: a non-string aborts with `invalid_type`; else the check loop runs and
the status is dirty exactly when some check added an issue. -/
def zString (params : RawCreateParams) (checks : List StringCheck)
    (path : List PathSegment) (input : JsValue) : Parsed JsString :=
  match input with
  | .string s =>
    match runStringChecks path checks s [] with
    | (data, []) => ⟨.OK data, []⟩
    | (data, issues) => ⟨.DIRTY data, issues⟩
  | _ => invalidType params path input

/-- The schema `z.array(z.string())`: a non-array aborts, else every item is parsed at its index. -/
def zStringArray (path : List PathSegment) (input : JsValue) : Parsed (List JsString) :=
  match input with
  | .array items =>
    Parsed.sequence
      (items.enum.map fun iv => zString ⟨none, none⟩ [] (path ++ [.index iv.1]) iv.2)
  | _ => invalidType ⟨none, none⟩ path input

/-! ## `src/lib/validations/dashboard.js` -/

/-- The constant `QUESTION_COUNT_RANGE` of `@/types/dashboard`. -/
structure QuestionCountRange where
  min : Nat
  max : Nat

/-- Modelled from the spec: the constant `QUESTION_COUNT_RANGE` of `@/types/dashboard`, whose
file is not part of the sources; the spec gives the question count as an integer in
[6,15]. -/
def QUESTION_COUNT_RANGE : QuestionCountRange := ⟨6, 15⟩

/-- The parsed `preferences` object. -/
structure Preferences where
  job_types : Option (List JsString)
  industries : Option (List JsString)

/-- Output of `jobSettingsSchema`. -/
structure JobSettings where
  difficulty_level : JsString
  question_count : JsNumber
  preferences : Option Preferences

/-- Output of `jobSettingsSchema.partial()`. -/
structure JobSettingsUpdates where
  difficulty_level : Option JsString
  question_count : Option JsNumber
  preferences : Option Preferences

/-- The `difficulty_level` member of `jobSettingsSchema`. -/
def difficultyLevelSchema : List PathSegment → JsValue → Parsed JsString :=
  zEnum ⟨some "Please select a difficulty level", some "Invalid difficulty level"⟩
    ["easy", "medium", "difficult"]

/-- The `question_count` member of `jobSettingsSchema`. -/
def questionCountSchema (range : QuestionCountRange) :
    List PathSegment → JsValue → Parsed JsNumber :=
  zNumber ⟨some "Question count is required", some "Question count must be a number"⟩
    [.min (.ofNat range.min) ("Minimum " ++ toString range.min ++ " questions required"),
     .max (.ofNat range.max) ("Maximum " ++ toString range.max ++ " questions allowed"),
     .int "Question count must be a whole number"]

/-- The object inside the `preferences` member of `jobSettingsSchema`. -/
def preferencesObject (path : List PathSegment) (input : JsValue) : Parsed Preferences :=
  match input with
  | .object fields =>
    ((Parsed.pure Preferences.mk).seq
      (zOptional zStringArray (path ++ [.key "job_types"])
        (JsValue.getField fields "job_types"))).seq
      (zOptional zStringArray (path ++ [.key "industries"])
        (JsValue.getField fields "industries"))
  | _ => invalidType ⟨none, none⟩ path input

/-- The `preferences` member of `jobSettingsSchema`. -/
def preferencesSchema : List PathSegment → JsValue → Parsed (Option Preferences) :=
  zOptional preferencesObject

/-- The schema `jobSettingsSchema`, parsed at the given path. -/
def jobSettingsSchema (range : QuestionCountRange) (path : List PathSegment)
    (input : JsValue) : Parsed JobSettings :=
  match input with
  | .object fields =>
    (((Parsed.pure JobSettings.mk).seq
      (difficultyLevelSchema (path ++ [.key "difficulty_level"])
        (JsValue.getField fields "difficulty_level"))).seq
      (questionCountSchema range (path ++ [.key "question_count"])
        (JsValue.getField fields "question_count"))).seq
      (preferencesSchema (path ++ [.key "preferences"])
        (JsValue.getField fields "preferences"))
  | _ => invalidType ⟨none, none⟩ path input

/-- The schema `jobSettingsSchema.partial()`: the same members, each made optional (making
the already optional `preferences` optional once more changes nothing). -/
def jobSettingsSchemaPartial (range : QuestionCountRange) (path : List PathSegment)
    (input : JsValue) : Parsed JobSettingsUpdates :=
  match input with
  | .object fields =>
    (((Parsed.pure JobSettingsUpdates.mk).seq
      (zOptional difficultyLevelSchema (path ++ [.key "difficulty_level"])
        (JsValue.getField fields "difficulty_level"))).seq
      (zOptional (questionCountSchema range) (path ++ [.key "question_count"])
        (JsValue.getField fields "question_count"))).seq
      (preferencesSchema (path ++ [.key "preferences"])
        (JsValue.getField fields "preferences"))
  | _ => invalidType ⟨none, none⟩ path input

/-- The call `jobSettingsSchema.partial().safeParse(updates)`. -/
def jobSettingsSchemaPartialSafeParse (range : QuestionCountRange) (updates : JsValue) :
    SafeParseResult JobSettingsUpdates :=
  handleResult (jobSettingsSchemaPartial range [] updates)

/-- Output of `profileUpdateSchema`. -/
structure ProfileUpdate where
  name : JsString
  email : JsString

/-- The schema `profileUpdateSchema`, parsed at the given path. -/
def profileUpdateSchema (path : List PathSegment) (input : JsValue) : Parsed ProfileUpdate :=
  match input with
  | .object fields =>
    ((Parsed.pure ProfileUpdate.mk).seq
      (zString ⟨some "Name is required", none⟩
        [.min 2 "Name must be at least 2 characters",
         .max 100 "Name must be less than 100 characters",
         .trim]
        (path ++ [.key "name"]) (JsValue.getField fields "name"))).seq
      (zString ⟨some "Email is required", none⟩
        [.email "Please enter a valid email address",
         .max 255 "Email must be less than 255 characters",
         .toLowerCase]
        (path ++ [.key "email"]) (JsValue.getField fields "email"))
  | _ => invalidType ⟨none, none⟩ path input

/-- The call `profileUpdateSchema.safeParse(updates)`. -/
def profileUpdateSchemaSafeParse (updates : JsValue) : SafeParseResult ProfileUpdate :=
  handleResult (profileUpdateSchema [] updates)

/-- The candidate object `{name, email}` with string members. -/
def profileCandidate (name email : JsString) : JsValue :=
  .object [("name", .string name), ("email", .string email)]

/-- Output of `passwordChangeSchema`. -/
structure PasswordChange where
  current_password : JsString
  new_password : JsString
  confirm_password : JsString

/-- The `z.object` under the two refinements of `passwordChangeSchema`. -/
def passwordChangeObject (path : List PathSegment) (input : JsValue) : Parsed PasswordChange :=
  match input with
  | .object fields =>
    (((Parsed.pure PasswordChange.mk).seq
      (zString ⟨some "Current password is required", none⟩
        [.min 1 "Current password is required"]
        (path ++ [.key "current_password"]) (JsValue.getField fields "current_password"))).seq
      (zString ⟨some "New password is required", none⟩
        [.min 6 "New password must be at least 6 characters",
         .max 128 "New password must be less than 128 characters"]
        (path ++ [.key "new_password"]) (JsValue.getField fields "new_password"))).seq
      (zString ⟨some "Please confirm your new password", none⟩ []
        (path ++ [.key "confirm_password"]) (JsValue.getField fields "confirm_password"))
  | _ => invalidType ⟨none, none⟩ path input

/-- The schema `passwordChangeSchema`: the object, then the two refinements in the order they are
chained. -/
def passwordChangeSchema (path : List PathSegment) (input : JsValue) : Parsed PasswordChange :=
  zRefine
    (zRefine (passwordChangeObject path input)
      (fun data => data.new_password == data.confirm_password)
      "Passwords don't match" path [.key "confirm_password"])
    (fun data => data.current_password != data.new_password)
    "New password must be different from current password" path [.key "new_password"]

/-- The call `passwordChangeSchema.safeParse(data)`. -/
def passwordChangeSchemaSafeParse (data : JsValue) : SafeParseResult PasswordChange :=
  handleResult (passwordChangeSchema [] data)

/-- The candidate object `{current_password, new_password, confirm_password}` with string
members. -/
def passwordCandidate (current new confirm : JsString) : JsValue :=
  .object [("current_password", .string current), ("new_password", .string new),
    ("confirm_password", .string confirm)]


/-- The members of a `File` that the repository reads. -/
structure ResumeFile where
  size : Nat
  type : JsString
  name : JsString
deriving DecidableEq

/-- The object `validateResumeFile` returns: `{isValid, error}`. -/
structure FileValidation where
  isValid : Bool
  error : Option String
deriving DecidableEq

/-- The expression `Math.round(a / b)` for natural `a` and positive `b`: the nearest integer, halves
going up. -/
def mathRoundDiv (a b : Nat) : Nat :=
  (2 * a + b) / (2 * b)

/-- The function `validateResumeFile`.  The constants `MAX_RESUME_SIZE` and `RESUME_FILE_TYPES` come
from `@/types/dashboard`, whose file is not part of the sources, and are parameters. -/
def validateResumeFile (MAX_RESUME_SIZE : Nat) (RESUME_FILE_TYPES : List JsString)
    (file : ResumeFile) : FileValidation :=
  if file.size > MAX_RESUME_SIZE then
    ⟨false, some ("File size must be less than "
      ++ toString (mathRoundDiv MAX_RESUME_SIZE (1024 * 1024)) ++ "MB")⟩
  else if !(RESUME_FILE_TYPES.contains file.type) then
    ⟨false, some "File must be PDF, Word document, or plain text"⟩
  else if file.name.length > 255 then
    ⟨false, some "File name is too long"⟩
  else ⟨true, none⟩


/-! ## `src/lib/utils/dashboard.js` -/

/-- The function `isValidQuestionCount`, on a number. -/
def isValidQuestionCount (count : JsNumber) : Bool :=
  JsNumber.ge count (.ofNat 6) && JsNumber.le count (.ofNat 15) && JsNumber.isInteger count

/-- The string of a non-negative integer number, as a template literal prints it: its decimal
digits.  (JavaScript prints this way below `10^21`; a clock reading is below `10^16`.) -/
def numberToString (n : Nat) : JsString :=
  if n = 0 then [48] else (Nat.digits 10 n).reverse.map (fun d => d + 48)

/-- One replacement step of `fileName.replace(/[^a-zA-Z0-9.-]/g, "_")`: a code unit outside the
class becomes `_`. -/
def sanitizeUnit (c : Nat) : Nat :=
  if isLetter c || isDigit c || c == 46 || c == 45 then c else 95

/-- The function `generateResumeFilePath`, with the reading of `Date.now()` as the explicit input
`now`. -/
def generateResumeFilePath (now : Nat) (userId fileName : JsString) : JsString :=
  let timestamp := now
  let sanitizedName := fileName.map sanitizeUnit
  userId ++ utf16 "/" ++ numberToString timestamp ++ utf16 "_" ++ sanitizedName

/-! ## `src/pages/Dashboard.jsx` -/

/-- The authenticated user, as far as the page reads it. -/
structure User where
  id : JsString
deriving DecidableEq

/-- A call of `toast`. -/
structure Toast where
  title : String
  description : String
  destructive : Bool
deriving DecidableEq

/-- What `handleFileUpload` does to the outside, in order. -/
inductive Effect where
  | toast (t : Toast)
  | setIsLoading (b : Bool)
  | storageUpload (bucket : String) (path : JsString) (file : ResumeFile) (upsert : Bool)
  | storageGetPublicUrl (bucket : String) (path : JsString)
  | profilesUpdateResumeFileUrl (resume_file_url : JsString) (id : JsString)
  | setResumeFile
  | consoleError (label : String)
deriving DecidableEq

/-- Whether an effect is a call on the remote service's client. -/
def Effect.isRemoteCall : Effect → Bool
  | .storageUpload _ _ _ _ => true
  | .storageGetPublicUrl _ _ => true
  | .profilesUpdateResumeFileUrl _ _ => true
  | _ => false

/-- Whether an effect is the storage upload. -/
def Effect.isUpload : Effect → Bool
  | .storageUpload _ _ _ _ => true
  | _ => false

/-- Whether an effect shows an error toast. -/
def Effect.isErrorToast : Effect → Bool
  | .toast t => t.destructive
  | _ => false

/-- How the remote service answers the calls of one `handleFileUpload` run. -/
structure UploadResponses where
  uploadError : Bool
  publicUrl : JsString
  updateError : Bool

/-- The expression `name.split(".").pop()`: the text after the last dot, the whole name when it has
no dot. -/
def lastDotSegment (name : JsString) : JsString :=
  (name.reverse.takeWhile (fun c => c != 46)).reverse

/-- The `catch` and `finally` blocks of `handleFileUpload`. -/
def uploadFailed : List Effect :=
  [.consoleError "Error uploading resume:",
   .toast ⟨"Error", "Failed to upload resume file", true⟩,
   .setIsLoading false]

/-- The handler `handleFileUpload` of the dashboard page, on the page state `user`, `resumeFile` and
the remote service's answers: the effects it performs, in order. -/
def handleFileUpload (remote : UploadResponses) (user : Option User)
    (resumeFile : Option ResumeFile) : List Effect :=
  match user, resumeFile with
  | some user, some resumeFile =>
    let allowedTypes := [utf16 "application/pdf", utf16 "application/msword",
      utf16 "application/vnd.openxmlformats-officedocument.wordprocessingml.document"]
    if !(allowedTypes.contains resumeFile.type) then
      [.toast ⟨"Error", "Please upload a PDF or Word document", true⟩]
    else if resumeFile.size > 5 * 1024 * 1024 then
      [.toast ⟨"Error", "File size must be less than 5MB", true⟩]
    else
      let fileExt := lastDotSegment resumeFile.name
      let fileName := user.id ++ utf16 "/resume." ++ fileExt
      [.setIsLoading true, .storageUpload "resumes" fileName resumeFile true] ++
        if remote.uploadError then uploadFailed
        else
          [.storageGetPublicUrl "resumes" fileName,
           .profilesUpdateResumeFileUrl remote.publicUrl user.id] ++
            if remote.updateError then uploadFailed
            else
              [.toast ⟨"Success", "Resume file uploaded successfully", false⟩,
               .setResumeFile,
               .setIsLoading false]
  | _, _ => [.toast ⟨"Error", "Please select a file to upload", true⟩]

/-- The allowed set of the page-level path in the words of the specification: PDF, legacy Word,
OOXML Word and plain text. -/
def specPageLevelTypes : List JsString :=
  [utf16 "application/pdf", utf16 "application/msword",
   utf16 "application/vnd.openxmlformats-officedocument.wordprocessingml.document",
   utf16 "text/plain"]

/-- The allowed set of `handleFileUpload`, as its `allowedTypes` literal has it. -/
def pageLevelTypes : List JsString :=
  [utf16 "application/pdf", utf16 "application/msword",
   utf16 "application/vnd.openxmlformats-officedocument.wordprocessingml.document"]


/-! ## Objects, errors and calls on the remote service -/

/-- A plain JavaScript object: its own properties in insertion order (keys are distinct in a
well-formed object). -/
abbrev JsObject := List (String × JsValue)

/-- Property assignment `o[key] = value` while an object literal is built: an existing key keeps
its place and takes the new value, a new key goes last. -/
def objectSet : JsObject → String → JsValue → JsObject
  | [], key, value => [(key, value)]
  | (k, v) :: rest, key, value =>
    if k = key then (k, value) :: rest else (k, v) :: objectSet rest key value

/-- The spread `{...target, ...source}`: the properties of `source` are assigned, in order, onto a
copy of `target`. -/
def objectSpread (target source : JsObject) : JsObject :=
  source.foldl (fun acc kv => objectSet acc kv.1 kv.2) target

/-- The strict comparison `s === v` of a string with any value. -/
def strictEqualsString (s : JsString) : JsValue → Bool
  | .string t => s == t
  | _ => false

/-- The method `Array.prototype.join` on strings. -/
def joinStrings (separator : JsString) (items : List JsString) : JsString :=
  separator.intercalate items

/-- The `error` member of a response of the remote service. -/
structure BackendError where
  code : JsString
  message : JsString

/-- The user of `useAuth`, as far as the hooks read it. -/
structure SessionUser where
  id : JsString
  email : JsString

/-- The guard `user?.id`: the id when there is a user with a non-empty id. -/
def sessionUserId (user : Option SessionUser) : Option JsString :=
  match user with
  | some u => if u.id = [] then none else some u.id
  | none => none

/-- A call issued on the remote service's client. -/
inductive RemoteCall where
  | selectSingle (table : String) (column : String) (value : JsString)
  | insert (table : String) (row : JsObject)
  | update (table : String) (values : JsObject) (column : String) (value : JsString)
  | upsert (table : String) (row : JsObject) (onConflict : String)
  | delete (table : String) (column : String) (value : JsString)
  | storageUpload (bucket : String) (path : JsString) (file : ResumeFile) (upsert : Bool)
  | storageRemove (bucket : String) (paths : List JsValue)
  | storageGetPublicUrl (bucket : String) (path : JsString)
  | authSignInWithPassword (email : JsString) (password : JsString)
  | authUpdateUser (attributes : JsObject)
  | rpc (fn : String) (args : JsObject)

/-- Whether a call is `supabase.rpc("log_activity", ...)`. -/
def RemoteCall.isLogActivity : RemoteCall → Bool
  | .rpc fn _ => fn == "log_activity"
  | _ => false

/-- Whether a call inserts a row. -/
def RemoteCall.isInsert : RemoteCall → Bool
  | .insert _ _ => true
  | _ => false

/-- The number of `log_activity` calls in a sequence of calls. -/
def logActivityCount (calls : List RemoteCall) : Nat :=
  (calls.filter RemoteCall.isLogActivity).length

/-- What a mutation or query function throws: `new Error(message)`, or the error
`new Error("Validation error: " + issues.map(message).join(", "))` of a failed `safeParse`, kept
as its issues, or the `TypeError` of a call of the binding `callee` when it holds no function. -/
inductive Thrown where
  | error (message : JsString)
  | validationError (issues : List ZodIssue)
  | typeError (callee : String)

/-- How an `async` function settles. -/
inductive Outcome (α : Type) where
  | resolved (value : α)
  | rejected (error : Thrown)

/-- One run of a mutation function: how it settles and the calls it issued, in order. -/
structure Run (α : Type) where
  outcome : Outcome α
  calls : List RemoteCall

/-! ## `src/hooks/useJobSettings.js` -/

/-- Modelled from the spec: the `job_settings` table of the remote data service, which holds at
most one row per `user_id`; the rows are kept by their `user_id`. -/
abbrev SettingsTable := List (JsString × JsObject)

/-- Errors the remote service answers with instead of doing its work, per call of one run of the
query function. -/
structure QueryFaults where
  selectError : Option BackendError
  insertError : Option BackendError

/-- Modelled from the spec: the answer of `from("job_settings").select("*").eq("user_id", id)
.single()`: the injected error if any, else the user's row, else the error whose code is
`PGRST116` (no row found; the message text is not relied upon). -/
def remoteSelectSingle (fault : Option BackendError) (table : SettingsTable)
    (userId : JsString) : Except BackendError JsObject :=
  match fault with
  | some e => .error e
  | none =>
    match table.lookup userId with
    | some row => .ok row
    | none => .error ⟨utf16 "PGRST116", utf16 "JSON object requested, multiple (or no) rows returned"⟩

/-- Modelled from the spec: the answer of `from("job_settings").insert(row).select().single()` and
the table after it: the injected error if any; a uniqueness error when the user already has a
row; else the row is stored and answered. -/
def remoteInsert (fault : Option BackendError) (table : SettingsTable) (userId : JsString)
    (row : JsObject) : Except BackendError JsObject × SettingsTable :=
  match fault with
  | some e => (.error e, table)
  | none =>
    match table.lookup userId with
    | some _ => (.error ⟨utf16 "23505", utf16 "duplicate key value violates unique constraint"⟩,
        table)
    | none => (.ok row, (userId, row) :: table)

/-- One run of the query function: how it settles, the table afterwards, the calls issued. -/
structure QueryRun where
  outcome : Outcome (Option JsObject)
  table : SettingsTable
  calls : List RemoteCall

/-- The object `defaultSettings` of the query function. -/
def defaultSettings (userId : JsString) : JsObject :=
  [("user_id", .string userId),
   ("difficulty_level", .string (utf16 "medium")),
   ("question_count", .number (.ofNat 10)),
   ("preferences", .object [])]

/-- The `queryFn` of `useJobSettings`, against the table as explicit state. -/
def jobSettingsQueryFn (faults : QueryFaults) (user : Option SessionUser)
    (table : SettingsTable) : QueryRun :=
  match sessionUserId user with
  | none => ⟨.resolved none, table, []⟩
  | some userId =>
    match remoteSelectSingle faults.selectError table userId with
    | .ok data => ⟨.resolved (some data), table, [.selectSingle "job_settings" "user_id" userId]⟩
    | .error error =>
      if error.code = utf16 "PGRST116" then
        match remoteInsert faults.insertError table userId (defaultSettings userId) with
        | (.ok newData, table') =>
          ⟨.resolved (some newData), table',
            [.selectSingle "job_settings" "user_id" userId,
             .insert "job_settings" (defaultSettings userId)]⟩
        | (.error insertError, table') =>
          ⟨.rejected (.error insertError.message), table',
            [.selectSingle "job_settings" "user_id" userId,
             .insert "job_settings" (defaultSettings userId)]⟩
      else
        ⟨.rejected (.error error.message), table,
          [.selectSingle "job_settings" "user_id" userId]⟩

/-- The value `onMutate` returns, handed to `onError` as `context`. -/
structure MutateContext where
  previousSettings : Option JsObject

/-- The callback `onMutate`, on the cache entry `["jobSettings", user.id]` (`none` when it holds no
object) and the reading `now` of `new Date().toISOString()`: the cache entry afterwards and the
context. -/
def onMutate (now : JsString) (cache : Option JsObject) (updates : JsObject) :
    Option JsObject × MutateContext :=
  let previousSettings := cache
  match previousSettings with
  | some previous =>
    let optimisticSettings :=
      objectSet (objectSpread previous updates) "updated_at" (.string now)
    (some optimisticSettings, ⟨previousSettings⟩)
  | none => (cache, ⟨previousSettings⟩)

/-- The callback `onError`, as far as it writes the cache: the cache entry afterwards. -/
def onError (cache : Option JsObject) (context : Option MutateContext) : Option JsObject :=
  match context with
  | some ⟨some previousSettings⟩ => some previousSettings
  | _ => cache

/-- The callback `onSuccess`, as far as it writes the cache: the cache entry afterwards. -/
def onSuccess (_cache : Option JsObject) (data : JsObject) : Option JsObject :=
  some data


/-- Whether a value is a question count the data model admits, by the repository's own
`isValidQuestionCount`. -/
def isQuestionCountValue : JsValue → Bool
  | .number n => isValidQuestionCount n
  | _ => false

/-- Whether a value is one of the three difficulty levels. -/
def isDifficultyLevelValue : JsValue → Bool
  | .string s => (["easy", "medium", "difficult"].map utf16).contains s
  | _ => false

/-- The invariant of the data model on a settings object: `question_count` is an integer in [6,15]
and `difficulty_level` is one of the three levels. -/
def settingsInvariant (settings : JsObject) : Bool :=
  isQuestionCountValue (JsValue.getField settings "question_count")
    && isDifficultyLevelValue (JsValue.getField settings "difficulty_level")

/-- A payload whose `question_count` and `difficulty_level`, where it has them, are values the data
model admits. -/
def payloadAdmissible (updates : JsObject) : Bool :=
  (match updates.lookup "question_count" with
    | some v => isQuestionCountValue v
    | none => true)
  && (match updates.lookup "difficulty_level" with
    | some v => isDifficultyLevelValue v
    | none => true)

/-- The cache entries reached from an initial settings object through the three cache-writing
callbacks, when every payload is a well-formed object that is admissible and the server answers
rows that satisfy the invariant.  The context of `onError` is the snapshot some earlier `onMutate`
took, that is, an entry reached before. -/
inductive CacheReachable (initial : JsObject) : Option JsObject → Prop where
  | init : CacheReachable initial (some initial)
  | mutate (now : JsString) (cache : Option JsObject) (updates : JsObject) :
      CacheReachable initial cache → (updates.map Prod.fst).Nodup →
      payloadAdmissible updates = true →
      CacheReachable initial (onMutate now cache updates).1
  | error (cache snapshot : Option JsObject) :
      CacheReachable initial cache → CacheReachable initial snapshot →
      CacheReachable initial (onError cache (some ⟨snapshot⟩))
  | success (cache : Option JsObject) (data : JsObject) :
      CacheReachable initial cache → settingsInvariant data = true →
      CacheReachable initial (onSuccess cache data)

/-- The cache entries at which mutations have settled, from an initial settings object, when the
mutations run one after the other (each starts after the one before has settled) and the payloads
are arbitrary: a mutation that fails leaves what `onError` writes over its optimistic entry, with
the context that its own `onMutate` returned; one that succeeds leaves what `onSuccess` writes,
with a server row that satisfies the invariant. -/
inductive SettledReachable (initial : JsObject) : Option JsObject → Prop where
  | init : SettledReachable initial (some initial)
  | failed (now : JsString) (cache : Option JsObject) (updates : JsObject) :
      SettledReachable initial cache →
      SettledReachable initial
        (onError (onMutate now cache updates).1 (some (onMutate now cache updates).2))
  | succeeded (now : JsString) (cache : Option JsObject) (updates data : JsObject) :
      SettledReachable initial cache → settingsInvariant data = true →
      SettledReachable initial (onSuccess (onMutate now cache updates).1 data)


/-- The optional read `object?.[key]`: `undefined` when there is no object. -/
def optionalField (object : Option JsObject) (key : String) : JsValue :=
  match object with
  | some o => JsValue.getField o key
  | none => .undefined

/-- The own keys of the object that `jobSettingsSchema.partial().safeParse` returns: the keys of
the schema, in the schema's order, that the input object has. -/
def validatedSettingsKeys (updates : JsValue) : List String :=
  match updates with
  | .object fields =>
    ["difficulty_level", "question_count", "preferences"].filter
      (fun k => (fields.lookup k).isSome)
  | _ => []

/-- A parsed optional string array as a value. -/
def optionalStringsValue : Option (List JsString) → JsValue
  | some items => .array (items.map JsValue.string)
  | none => .undefined

/-- The parsed `preferences` object as a value: its defined members. -/
def preferencesValue (p : Preferences) : JsValue :=
  .object
    ((match p.job_types with
      | some items => [("job_types", JsValue.array (items.map JsValue.string))]
      | none => [])
    ++ (match p.industries with
      | some items => [("industries", JsValue.array (items.map JsValue.string))]
      | none => []))

/-- The read `validatedUpdates[key]` on the parsed settings updates. -/
def validatedSettingsValue (v : JobSettingsUpdates) (key : String) : JsValue :=
  if key = "difficulty_level" then
    match v.difficulty_level with
    | some s => .string s
    | none => .undefined
  else if key = "question_count" then
    match v.question_count with
    | some n => .number n
    | none => .undefined
  else if key = "preferences" then
    match v.preferences with
    | some p => preferencesValue p
    | none => .undefined
  else .undefined

/-- The object `validatedUpdates` of the settings mutation. -/
def validatedSettingsObject (updates : JsValue) (v : JobSettingsUpdates) : JsObject :=
  (validatedSettingsKeys updates).map fun k => (k, validatedSettingsValue v k)

/-- How the remote service answers the calls of one settings mutation. -/
structure UpdateSettingsResponses where
  update : Except BackendError JsObject

/-- The `mutationFn` of `updateMutation` in `useJobSettings`.  The conversion `toStr` of a value
inside a template literal is the language's and is a parameter; `settings` is the hook's cached
settings, `now` the reading of `new Date().toISOString()`. -/
def updateSettingsMutationFn (range : QuestionCountRange) (toStr : JsValue → JsString)
    (now : JsString) (user : Option SessionUser) (settings : Option JsObject)
    (remote : UpdateSettingsResponses) (updates : JsValue) : Run JsObject :=
  match sessionUserId user with
  | none => ⟨.rejected (.error (utf16 "User not authenticated")), []⟩
  | some userId =>
    match jobSettingsSchemaPartialSafeParse range updates with
    | .failure issues => ⟨.rejected (.validationError issues), []⟩
    | .success validated =>
      let validatedUpdates := validatedSettingsObject updates validated
      let updateData := objectSet validatedUpdates "updated_at" (.string now)
      let updateCall := RemoteCall.update "job_settings" updateData "user_id" userId
      match remote.update with
      | .error error =>
        ⟨.rejected (.error (utf16 "Update failed: " ++ error.message)), [updateCall]⟩
      | .ok data =>
        let changes := joinStrings (utf16 ", ")
          (validatedUpdates.map fun kv =>
            utf16 kv.1 ++ utf16 ": " ++ toStr (optionalField settings kv.1)
              ++ utf16 " â†’ " ++ toStr kv.2)
        ⟨.resolved data,
          [updateCall,
           .rpc "log_activity"
            [("activity_type", .string (utf16 "settings_change")),
             ("description", .string (utf16 "Updated job settings: " ++ changes)),
             ("metadata", .object
              [("changes", .object validatedUpdates),
               ("previous_values",
                match settings with
                | some s => .object
                  [("difficulty_level", JsValue.getField s "difficulty_level"),
                   ("question_count", JsValue.getField s "question_count"),
                   ("preferences", JsValue.getField s "preferences")]
                | none => .null)])]]⟩

/-! ## `src/hooks/useUserProfile.js` -/

/-- How the remote service answers the calls of one profile mutation. -/
structure UpdateProfileResponses where
  update : Except BackendError JsObject
  authUpdate : Option BackendError

/-- The `changes` string of the profile mutation: the keys of `validatedUpdates` whose value is
not strictly equal to the cached profile's, each as `key: old → new`, joined by `", "`. -/
def profileChanges (toStr : JsValue → JsString) (profile : Option JsObject)
    (validatedUpdates : List (String × JsString)) : JsString :=
  joinStrings (utf16 ", ")
    ((validatedUpdates.filter fun kv =>
        !(strictEqualsString kv.2
          (match profile with
           | some p => JsValue.getField p kv.1
           | none => .undefined))).map fun kv =>
      utf16 kv.1 ++ utf16 ": "
        ++ toStr (match profile with
          | some p => JsValue.getField p kv.1
          | none => .undefined)
        ++ utf16 " → " ++ kv.2)

/-- The last part of the profile mutation, from `// Log activity` on: the `log_activity` call,
issued when `changes` is a non-empty string, and the return of `data`. -/
def updateProfileLogAndReturn (toStr : JsValue → JsString) (profile : Option JsObject)
    (validatedUpdates : ProfileUpdate) (data : JsObject) (callsSoFar : List RemoteCall) :
    Run JsObject :=
  let changes := profileChanges toStr profile
    [("name", validatedUpdates.name), ("email", validatedUpdates.email)]
  if changes ≠ [] then
    ⟨.resolved data,
      callsSoFar ++
        [.rpc "log_activity"
          [("activity_type", .string (utf16 "profile_update")),
           ("description", .string (utf16 "Updated profile: " ++ changes)),
           ("metadata", .object
            [("changes", .object [("name", .string validatedUpdates.name),
                ("email", .string validatedUpdates.email)]),
             ("previous_values",
              match profile with
              | some p => .object [("name", JsValue.getField p "name"),
                  ("email", JsValue.getField p "email")]
              | none => .null)])]]⟩
  else ⟨.resolved data, callsSoFar⟩

/-- The `mutationFn` of `updateProfileMutation`; `profile` is the hook's cached profile, `now` the
reading of `new Date().toISOString()`. -/
def updateProfileMutationFn (toStr : JsValue → JsString) (now : JsString)
    (user : Option SessionUser) (profile : Option JsObject) (remote : UpdateProfileResponses)
    (updates : JsValue) : Run JsObject :=
  match sessionUserId user with
  | none => ⟨.rejected (.error (utf16 "User not authenticated")), []⟩
  | some userId =>
    match profileUpdateSchemaSafeParse updates with
    | .failure issues => ⟨.rejected (.validationError issues), []⟩
    | .success validatedUpdates =>
      let updateCall := RemoteCall.update "profiles"
        [("name", .string validatedUpdates.name), ("email", .string validatedUpdates.email),
         ("updated_at", .string now)] "id" userId
      match remote.update with
      | .error error =>
        ⟨.rejected (.error (utf16 "Profile update failed: " ++ error.message)), [updateCall]⟩
      | .ok data =>
        if !(strictEqualsString validatedUpdates.email (optionalField profile "email")) then
          let authCall := RemoteCall.authUpdateUser [("email", .string validatedUpdates.email)]
          match remote.authUpdate with
          | some authError =>
            ⟨.rejected (.error (utf16 "Email update failed: " ++ authError.message)),
              [updateCall, authCall,
               .update "profiles" [("email", optionalField profile "email")] "id" userId]⟩
          | none =>
            updateProfileLogAndReturn toStr profile validatedUpdates data [updateCall, authCall]
        else
          updateProfileLogAndReturn toStr profile validatedUpdates data [updateCall]

/-- How the remote service answers the calls of one password mutation. -/
structure ChangePasswordResponses where
  verifyError : Option BackendError
  updateError : Option BackendError

/-- The `mutationFn` of `changePasswordMutation`. -/
def changePasswordMutationFn (now : JsString) (user : Option SessionUser)
    (remote : ChangePasswordResponses) (passwordData : JsValue) : Run Unit :=
  match user with
  | none => ⟨.rejected (.error (utf16 "User not authenticated")), []⟩
  | some u =>
    if u.id = [] then ⟨.rejected (.error (utf16 "User not authenticated")), []⟩
    else
      match passwordChangeSchemaSafeParse passwordData with
      | .failure issues => ⟨.rejected (.validationError issues), []⟩
      | .success data =>
        let signIn := RemoteCall.authSignInWithPassword u.email data.current_password
        match remote.verifyError with
        | some _ => ⟨.rejected (.error (utf16 "Current password is incorrect")), [signIn]⟩
        | none =>
          let updateUser := RemoteCall.authUpdateUser [("password", .string data.new_password)]
          match remote.updateError with
          | some updateError =>
            ⟨.rejected (.error (utf16 "Password update failed: " ++ updateError.message)),
              [signIn, updateUser]⟩
          | none =>
            ⟨.resolved (),
              [signIn, updateUser,
               .rpc "log_activity"
                [("activity_type", .string (utf16 "password_change")),
                 ("description", .string (utf16 "Password changed successfully")),
                 ("metadata", .object [("timestamp", .string now)])]]⟩


/-! ## `src/hooks/useResume.js` -/

/-- How the remote service answers the calls of one upload mutation. -/
structure UploadMutationResponses where
  uploadError : Option BackendError
  upsert : Except BackendError JsObject

/-- The names that `src/lib/utils/dashboard.js` exports. -/
def utilsDashboardExports : List String :=
  ["formatFileSize", "formatRelativeTime", "formatAbsoluteTime", "getDifficultyLabel",
   "getDifficultyColor", "getActivityTypeLabel", "getActivityTypeIcon", "getActivityTypeColor",
   "getResumeStatusInfo", "generateResumeFilePath", "getFileExtension", "isSupportedResumeType",
   "truncateText", "getInitials", "isValidQuestionCount", "getUploadProgress", "debounce"]

/-- The `mutationFn` of `uploadMutation`.  Line 5 of the hook imports `validateResumeFile` and
`generateResumeFilePath` from `@/lib/utils/dashboard`.  That module exports no
`validateResumeFile` (the function of that name is exported by
`src/lib/validations/dashboard.js`, which the hook does not import), so the binding holds no
function and the call `validateResumeFile(file)` on line 52 throws a `TypeError` for every file,
before any call on the remote service (a loader that checks the import instead refuses the whole
module, and no upload runs either).  The lines after the call are translated as they are written,
with the validating function of `src/lib/validations/dashboard.js` and its constants
`MAX_RESUME_SIZE`, `RESUME_FILE_TYPES` in the place of the binding; `now` is the reading of
`Date.now()`. -/
def uploadMutationFn (MAX_RESUME_SIZE : Nat) (RESUME_FILE_TYPES : List JsString) (now : Nat)
    (user : Option SessionUser) (remote : UploadMutationResponses) (file : ResumeFile) :
    Run JsObject :=
  match sessionUserId user with
  | none => ⟨.rejected (.error (utf16 "User not authenticated")), []⟩
  | some userId =>
    if !utilsDashboardExports.contains "validateResumeFile" then
      ⟨.rejected (.typeError "validateResumeFile"), []⟩
    else
      let validation := validateResumeFile MAX_RESUME_SIZE RESUME_FILE_TYPES file
      if !validation.isValid then
        ⟨.rejected (.error (match validation.error with
          | some message => utf16 message
          | none => [])), []⟩
      else
        let filePath := generateResumeFilePath now userId file.name
        let uploadCall := RemoteCall.storageUpload "resumes" filePath file false
        match remote.uploadError with
        | some uploadError =>
          ⟨.rejected (.error (utf16 "Upload failed: " ++ uploadError.message)), [uploadCall]⟩
        | none =>
          let resumeData : JsObject :=
            [("user_id", .string userId),
             ("file_name", .string file.name),
             ("file_path", .string filePath),
             ("file_size", .number (.ofNat file.size)),
             ("status", .string (utf16 "active"))]
          let upsertCall := RemoteCall.upsert "resumes" resumeData "user_id"
          match remote.upsert with
          | .error dbError =>
            ⟨.rejected (.error (utf16 "Database error: " ++ dbError.message)),
              [uploadCall, upsertCall, .storageRemove "resumes" [.string filePath]]⟩
          | .ok dbData =>
            ⟨.resolved dbData,
              [uploadCall, upsertCall,
               .rpc "log_activity"
                [("activity_type", .string (utf16 "resume_upload")),
                 ("description", .string (utf16 "Uploaded resume: " ++ file.name)),
                 ("metadata", .object
                  [("file_name", .string file.name),
                   ("file_size", .number (.ofNat file.size))])]]⟩

/-- How the remote service answers the calls of one delete mutation. -/
structure DeleteMutationResponses where
  storageError : Option BackendError
  dbError : Option BackendError

/-- The `mutationFn` of `deleteMutation`; `resume` is the hook's cached resume row. -/
def deleteMutationFn (toStr : JsValue → JsString) (user : Option SessionUser)
    (resume : Option JsObject) (remote : DeleteMutationResponses) : Run Unit :=
  match sessionUserId user, resume with
  | some userId, some resume =>
    let removeCall := RemoteCall.storageRemove "resumes" [JsValue.getField resume "file_path"]
    let deleteCall := RemoteCall.delete "resumes" "user_id" userId
    match remote.dbError with
    | some dbError =>
      ⟨.rejected (.error (utf16 "Database error: " ++ dbError.message)),
        [removeCall, deleteCall]⟩
    | none =>
      ⟨.resolved (),
        [removeCall, deleteCall,
         .rpc "log_activity"
          [("activity_type", .string (utf16 "resume_delete")),
           ("description", .string (utf16 "Deleted resume: "
              ++ toStr (JsValue.getField resume "file_name"))),
           ("metadata", .object [("file_name", JsValue.getField resume "file_name")])]]⟩
  | _, _ => ⟨.rejected (.error (utf16 "No resume to delete")), []⟩

/-! ## Page-level saves of `src/pages/Profile.jsx` and `src/pages/Dashboard.jsx` -/

/-- What a page-level save handler does to the outside, in order. -/
inductive PageEffect where
  | toast (t : Toast)
  | setState (name : String) (value : JsValue)
  | remote (call : RemoteCall)
  | consoleError (label : String)

/-- The calls on the remote service among the effects of a handler. -/
def pageRemoteCalls (effects : List PageEffect) : List RemoteCall :=
  effects.filterMap fun e =>
    match e with
    | .remote call => some call
    | _ => none

/-- Whether an effect is the toast a handler shows on success. -/
def PageEffect.isSuccessToast : PageEffect → Bool
  | .toast t => t.title == "Success"
  | _ => false

/-- The handler `handleSaveProfile` of the profile page, on the page state `user`, `name` and on
whether the remote service answers the update with an error. -/
def handleSaveProfile (updateError : Bool) (user : Option User) (name : JsString) :
    List PageEffect :=
  match user with
  | none => [.toast ⟨"Error", "Name cannot be empty", true⟩]
  | some user =>
    if trim name = [] then [.toast ⟨"Error", "Name cannot be empty", true⟩]
    else
      [.setState "isSaving" (.boolean true),
       .remote (.update "profiles" [("name", .string name)] "id" user.id)] ++
        if updateError then
          [.consoleError "Error updating profile:",
           .toast ⟨"Error", "Failed to update profile", true⟩,
           .setState "isSaving" (.boolean false)]
        else
          [.toast ⟨"Success", "Profile updated successfully", false⟩,
           .setState "profile" (.object [("name", .string name)]),
           .setState "isSaving" (.boolean false)]

/-- The `description` arguments of the `log_activity` calls in a sequence of calls, in order. -/
def logDescriptions (calls : List RemoteCall) : List JsValue :=
  calls.filterMap fun call =>
    match call with
    | .rpc fn args => if fn = "log_activity" then some (JsValue.getField args "description") else none
    | _ => none

/-- Whether a call is `supabase.auth.updateUser(...)`. -/
def RemoteCall.isAuthUpdateUser : RemoteCall → Bool
  | .authUpdateUser _ => true
  | _ => false


/-! ## More of `src/lib/utils/dashboard.js` -/

/-- An integer argument of `substring`, clamped into `[0, len]`. -/
def clampIndex (len : Nat) (i : Int) : Nat :=
  if i < 0 then 0 else min i.toNat len

/-- The method `String.prototype.substring` on integer arguments: both are clamped into the string, the
smaller one is the start. -/
def substring (s : JsString) (start stop : Int) : JsString :=
  let a := clampIndex s.length start
  let b := clampIndex s.length stop
  (s.drop (min a b)).take (max a b - min a b)

/-- The function `truncateText`, for an integer `maxLength`. -/
def truncateText (text : JsString) (maxLength : Int) : JsString :=
  if (text.length : Int) ≤ maxLength then text
  else substring text 0 (maxLength - 3) ++ utf16 "..."

/-! ## Activity history of `src/hooks/useUserProfile.js` -/

/-- The constant `ACTIVITY_PAGE_SIZE`. -/
def ACTIVITY_PAGE_SIZE : Nat := 20

/-- The response `{data, error, count}` of the ranged select on `activity_history`. -/
structure ActivityResponse where
  data : Option (List JsObject)
  error : Option BackendError
  count : Option Nat

/-- The object the activity `queryFn` returns: `{data, nextPage}`. -/
structure ActivityPage where
  data : List JsObject
  nextPage : Option Nat

/-- One run of the activity `queryFn`: how it settles and the inclusive row range it asked for, if
it asked. -/
structure ActivityRun where
  outcome : Outcome ActivityPage
  range : Option (Nat × Nat)

/-- The `queryFn` of the activity-history query, for a page index; `remote first last` is the
answer of `.range(first, last)`. -/
def activityQueryFn (user : Option SessionUser) (remote : Nat → Nat → ActivityResponse)
    (pageParam : Nat) : ActivityRun :=
  match sessionUserId user with
  | none => ⟨.resolved ⟨[], none⟩, none⟩
  | some _ =>
    let first := pageParam * ACTIVITY_PAGE_SIZE
    let last := first + ACTIVITY_PAGE_SIZE - 1
    let response := remote first last
    match response.error with
    | some error => ⟨.rejected (.error error.message), some (first, last)⟩
    | none =>
      let hasMore :=
        match response.count with
        | some count => if count = 0 then false else decide (first + ACTIVITY_PAGE_SIZE < count)
        | none => false
      ⟨.resolved
        ⟨match response.data with
          | some rows => rows
          | none => [],
         if hasMore then some (pageParam + 1) else none⟩,
       some (first, last)⟩

/-- The option `getNextPageParam`. -/
def getNextPageParam (lastPage : ActivityPage) : Option Nat :=
  lastPage.nextPage

/-- Modelled from the spec: the remote service's answer to the ranged, newest-first select on a
fixed list of activity rows: the rows at the offsets `first` to `last`, both included, with the
exact total count. -/
def activityBackend (rows : List JsObject) (first last : Nat) : ActivityResponse :=
  ⟨some ((rows.drop first).take (last + 1 - first)), none, some rows.length⟩

/-- The pages of the infinite query: page `pageParam` is fetched, then the page `getNextPageParam`
names, until it names none (or a fetch fails); `fuel` bounds the number of fetches. -/
def fetchActivityPages (user : Option SessionUser) (remote : Nat → Nat → ActivityResponse) :
    Nat → Nat → List ActivityPage
  | 0, _ => []
  | fuel + 1, pageParam =>
    match (activityQueryFn user remote pageParam).outcome with
    | .resolved page =>
      page ::
        match getNextPageParam page with
        | some next => fetchActivityPages user remote fuel next
        | none => []
    | .rejected _ => []

/-- The flattened `activityHistory`: `pages.flatMap((page) => page.data)`. -/
def activityHistory (pages : List ActivityPage) : List JsObject :=
  (pages.map fun page => page.data).flatten

/-! ## Mutation life cycles and upload progress of `src/hooks/useResume.js` -/

/-- The delete mutation with its callbacks: the run of `mutationFn` and the cache entry
`["resume", user.id]` afterwards (`onSuccess` stores `null`, `onError` does not write it). -/
def deleteMutation (toStr : JsValue → JsString) (user : Option SessionUser)
    (resume : Option JsObject) (remote : DeleteMutationResponses) :
    Run Unit × Option JsObject :=
  match (deleteMutationFn toStr user resume remote).outcome with
  | .resolved _ => (deleteMutationFn toStr user resume remote, none)
  | .rejected _ => (deleteMutationFn toStr user resume remote, resume)

/-- The upload mutation with its callbacks: the run of `mutationFn` and the cache entry
`["resume", user.id]` afterwards (`onSuccess` stores the returned row, `onError` does not write
it). -/
def uploadMutation (MAX_RESUME_SIZE : Nat) (RESUME_FILE_TYPES : List JsString) (now : Nat)
    (user : Option SessionUser) (resume : Option JsObject) (remote : UploadMutationResponses)
    (file : ResumeFile) : Run JsObject × Option JsObject :=
  match (uploadMutationFn MAX_RESUME_SIZE RESUME_FILE_TYPES now user remote file).outcome with
  | .resolved data =>
    (uploadMutationFn MAX_RESUME_SIZE RESUME_FILE_TYPES now user remote file, some data)
  | .rejected _ =>
    (uploadMutationFn MAX_RESUME_SIZE RESUME_FILE_TYPES now user remote file, resume)

/-- Whether a call is a storage `remove`. -/
def RemoteCall.isStorageRemove : RemoteCall → Bool
  | .storageRemove _ _ => true
  | _ => false

/-- Whether a call is an `upsert`. -/
def RemoteCall.isUpsert : RemoteCall → Bool
  | .upsert _ _ _ => true
  | _ => false

/-- One tick of the progress timer: `prev >= 90 ? prev : prev + Math.random() * 20`, with the value
`r` of `Math.random()`. -/
def progressTick (prev r : ℚ) : ℚ :=
  if prev ≥ 90 then prev else prev + r * 20

/-- The values of `uploadProgress` while the call is in flight: the `0` that `uploadResume` sets
first, then the value after each tick of the timer. -/
def progressInFlight (randoms : List ℚ) : List ℚ :=
  randoms.foldl (fun shown r => shown ++ [progressTick (shown.getLastD 0) r]) [0]

/-- The values `uploadProgress` is set to when the call settles, in order: on success `onSuccess`
sets 0 and then `uploadResume` sets 100; on failure `onError` and then the `catch` block set 0. -/
def progressSettled (succeeded : Bool) : List ℚ :=
  if succeeded then [0, 100] else [0, 0]

/-- Every value `uploadProgress` takes during one `uploadResume`, in order. -/
def progressShown (randoms : List ℚ) (succeeded : Bool) : List ℚ :=
  progressInFlight randoms ++ progressSettled succeeded

/-! ## `src/components/dashboard/PasswordChangeForm.jsx` -/

/-- The state `formData` of the password form. -/
structure PasswordFormData where
  current_password : JsString
  new_password : JsString
  confirm_password : JsString

/-- The object `errors` that `validateForm` builds, as its entries. -/
def validateFormErrors (formData : PasswordFormData) : List (String × String) :=
  (if formData.current_password = [] then
      [("current_password", "Current password is required")]
    else [])
  ++ (if formData.new_password = [] then [("new_password", "New password is required")]
    else if formData.new_password.length < 6 then
      [("new_password", "New password must be at least 6 characters")]
    else [])
  ++ (if formData.confirm_password = [] then
      [("confirm_password", "Please confirm your new password")]
    else if formData.new_password ≠ formData.confirm_password then
      [("confirm_password", "Passwords do not match")]
    else [])

/-- The function `validateForm` of the password form: whether `errors` has no key. -/
def validateForm (formData : PasswordFormData) : Bool :=
  (validateFormErrors formData).length == 0

/-! ## The stored profile row -/

/-- Modelled from the spec: the effect of one call on the stored `profiles` row of the user `id`:
an update filtered to that id sets the given columns, every other call leaves the row alone. -/
def applyProfileCall (id : JsString) (row : JsObject) : RemoteCall → JsObject
  | .update table values column value =>
    if table = "profiles" ∧ column = "id" ∧ value = id then objectSpread row values else row
  | _ => row

/-- Modelled from the spec: the stored `profiles` row after a sequence of calls. -/
def profileRowAfter (id : JsString) (row : JsObject) (calls : List RemoteCall) : JsObject :=
  calls.foldl (applyProfileCall id) row


/-! ## Theorems -/

/-- A finite number passes the three tests against integer bounds exactly when it is an
integer between the bounds. -/
theorem finite_integer_iff (q : ℚ) (lo hi : ℤ) :
    (¬ q < lo ∧ ¬ (hi : ℚ) < q ∧ q.den = 1) ↔
      ∃ n : ℤ, JsNumber.finite q = JsNumber.finite (n : ℚ) ∧ lo ≤ n ∧ n ≤ hi := by
  constructor
  · rintro ⟨h1, h2, h3⟩
    have hq : (q.num : ℚ) = q := Rat.coe_int_num_of_den_eq_one h3
    refine ⟨q.num, by rw [hq], ?_, ?_⟩
    · rw [← hq] at h1
      exact_mod_cast not_lt.mp h1
    · rw [← hq] at h2
      exact_mod_cast not_lt.mp h2
  · rintro ⟨n, hn, h1, h2⟩
    injection hn with hn
    subst hn
    refine ⟨?_, ?_, ?_⟩
    · exact_mod_cast not_lt.mpr h1
    · exact_mod_cast not_lt.mpr h2
    · simp

/-- The outcome of the partial job-settings schema on `{question_count: q}`, `q` finite. -/
theorem partial_questionCount_finite (q : ℚ) :
    (¬ q < 6 ∧ ¬ (15 : ℚ) < q ∧ q.den = 1 ∧
      jobSettingsSchemaPartialSafeParse QUESTION_COUNT_RANGE
        (.object [("question_count", .number (.finite q))])
        = .success ⟨none, some (.finite q), none⟩) ∨
    (¬ (¬ q < 6 ∧ ¬ (15 : ℚ) < q ∧ q.den = 1) ∧
      (jobSettingsSchemaPartialSafeParse QUESTION_COUNT_RANGE
        (.object [("question_count", .number (.finite q))])).isSuccess = false) := by
  by_cases h1 : q < 6 <;> by_cases h2 : (15 : ℚ) < q <;> by_cases h3 : q.den = 1 <;>
    simp [jobSettingsSchemaPartialSafeParse, jobSettingsSchemaPartial, JsValue.getField,
      QUESTION_COUNT_RANGE, questionCountSchema, zNumber, preferencesSchema, List.lookup,
      zOptional, Parsed.seq, Parsed.pure, ParseReturn.seq, handleResult, NumberCheck.run,
      JsNumber.lt, JsNumber.gt, JsNumber.ofNat, JsNumber.isInteger,
      SafeParseResult.isSuccess, h1, h2, h3]

/-- The verdict of `isValidQuestionCount` on a finite number. -/
theorem isValidQuestionCount_finite (q : ℚ) :
    isValidQuestionCount (.finite q) = true ↔ (¬ q < 6 ∧ ¬ (15 : ℚ) < q ∧ q.den = 1) := by
  simp [isValidQuestionCount, JsNumber.ge, JsNumber.le, JsNumber.lt, JsNumber.ofNat,
    JsNumber.isInteger, and_assoc]

/-- C1: with `QUESTION_COUNT_RANGE = {min: 6, max: 15}`, for every number `c` the partial
job-settings schema accepts `{question_count: c}` exactly when `c` is an integer with
`6 ≤ c ≤ 15`; an accepted candidate comes back as `{question_count: c}`, unchanged; and
`isValidQuestionCount c` gives the same verdict. -/
theorem questionCount_accepted_iff_integer_in_range (c : JsNumber) :
    ((jobSettingsSchemaPartialSafeParse QUESTION_COUNT_RANGE
        (.object [("question_count", .number c)])).isSuccess = true
      ↔ ∃ n : ℤ, c = .finite (n : ℚ) ∧ 6 ≤ n ∧ n ≤ 15)
    ∧ (jobSettingsSchemaPartialSafeParse QUESTION_COUNT_RANGE
          (.object [("question_count", .number c)]) = .success ⟨none, some c, none⟩
        ∨ (jobSettingsSchemaPartialSafeParse QUESTION_COUNT_RANGE
          (.object [("question_count", .number c)])).isSuccess = false)
    ∧ (isValidQuestionCount c = true ↔ ∃ n : ℤ, c = .finite (n : ℚ) ∧ 6 ≤ n ∧ n ≤ 15) := by
  cases c with
  | finite q =>
    have hiff := finite_integer_iff q 6 15
    have hv := isValidQuestionCount_finite q
    simp only [Int.cast_ofNat] at hiff
    rcases partial_questionCount_finite q with ⟨h1, h2, h3, h⟩ | ⟨hn, h⟩
    · refine ⟨?_, Or.inl h, ?_⟩
      · rw [h]
        exact ⟨fun _ => hiff.mp ⟨h1, h2, h3⟩, fun _ => rfl⟩
      · rw [hv]
        exact hiff
    · refine ⟨?_, Or.inr h, ?_⟩
      · rw [h]
        exact ⟨fun hf => by simp at hf, fun he => absurd (hiff.mpr he) hn⟩
      · rw [hv]
        exact hiff
  | nan =>
    refine ⟨?_, Or.inr (by decide), ?_⟩
    · simp
      decide
    · simp [isValidQuestionCount, JsNumber.ge, JsNumber.le]
  | posInf =>
    refine ⟨?_, Or.inr (by decide), ?_⟩
    · simp
      decide
    · simp [isValidQuestionCount, JsNumber.ge, JsNumber.le, JsNumber.lt, JsNumber.ofNat]
  | negInf =>
    refine ⟨?_, Or.inr (by decide), ?_⟩
    · simp
      decide
    · simp [isValidQuestionCount, JsNumber.ge, JsNumber.le, JsNumber.lt, JsNumber.ofNat]


/-- The object under the refinements, on a candidate of three strings: never aborted, the
value is the three strings, and it is valid exactly when the length rules hold. -/
theorem passwordChangeObject_strings (c n k : JsString) :
    (1 ≤ c.length ∧ 6 ≤ n.length ∧ n.length ≤ 128 ∧
      passwordChangeObject [] (passwordCandidate c n k) = ⟨.OK ⟨c, n, k⟩, []⟩) ∨
    (¬ (1 ≤ c.length ∧ 6 ≤ n.length ∧ n.length ≤ 128) ∧
      ∃ issues,
        passwordChangeObject [] (passwordCandidate c n k) = ⟨.DIRTY ⟨c, n, k⟩, issues⟩) := by
  by_cases h1 : c.length < 1 <;> by_cases h2 : n.length < 6 <;>
    by_cases h3 : 128 < n.length <;>
    simp [passwordChangeObject, passwordCandidate, JsValue.getField, List.lookup, zString,
      runStringChecks, Parsed.seq, Parsed.pure, ParseReturn.seq, h1, h2, h3]
  omega

/-- The whole schema on a candidate of three strings: the result is valid with the three
strings when the length rules and both refinements hold, and dirty otherwise; each failed
refinement leaves its issue, whatever the object's own issues are. -/
theorem passwordChangeSchema_strings (c n k : JsString) :
    ∃ issues : List ZodIssue,
      (passwordChangeSchema [] (passwordCandidate c n k)).issues
        = (issues ++ if n = k then [] else
            [⟨.custom, [.key "confirm_password"], .text "Passwords don't match"⟩])
          ++ (if c = n then
            [⟨.custom, [.key "new_password"],
              .text "New password must be different from current password"⟩] else []) ∧
      (((1 ≤ c.length ∧ 6 ≤ n.length ∧ n.length ≤ 128) ∧ n = k ∧ c ≠ n ∧
          (passwordChangeSchema [] (passwordCandidate c n k)).result = .OK ⟨c, n, k⟩) ∨
        (¬ ((1 ≤ c.length ∧ 6 ≤ n.length ∧ n.length ≤ 128) ∧ n = k ∧ c ≠ n) ∧
          (passwordChangeSchema [] (passwordCandidate c n k)).result = .DIRTY ⟨c, n, k⟩)) := by
  rcases passwordChangeObject_strings c n k with ⟨h1, h6, h128, h⟩ | ⟨hn, issues, h⟩
  · refine ⟨[], ?_⟩
    rw [passwordChangeSchema, h]
    by_cases hnk : n = k
    · subst hnk
      by_cases hc : c = n
      · subst hc
        simp [zRefine]
      · simp [zRefine, hc, h1, h6, h128]
    · by_cases hc : c = n
      · subst hc
        simp [zRefine, hnk]
      · simp [zRefine, hnk, hc]
  · refine ⟨issues, ?_⟩
    rw [passwordChangeSchema, h]
    by_cases hnk : n = k
    · subst hnk
      by_cases hc : c = n
      · subst hc
        simp [zRefine]
      · simp [zRefine, hc]
        intro a b
        by_contra d
        exact hn ⟨a, b, by omega⟩
    · by_cases hc : c = n
      · subst hc
        simp [zRefine, hnk]
      · simp [zRefine, hnk, hc]

/-- The `safeParse` result of the password schema on three strings, from the parse result. -/
theorem passwordChangeSchemaSafeParse_strings (c n k : JsString) :
    (((1 ≤ c.length ∧ 6 ≤ n.length ∧ n.length ≤ 128) ∧ n = k ∧ c ≠ n) ∧
      passwordChangeSchemaSafeParse (passwordCandidate c n k) = .success ⟨c, n, k⟩) ∨
    (¬ ((1 ≤ c.length ∧ 6 ≤ n.length ∧ n.length ≤ 128) ∧ n = k ∧ c ≠ n) ∧
      ∃ issues : List ZodIssue,
        passwordChangeSchemaSafeParse (passwordCandidate c n k)
          = .failure ((issues ++ if n = k then [] else
              [⟨.custom, [.key "confirm_password"], .text "Passwords don't match"⟩])
            ++ (if c = n then
              [⟨.custom, [.key "new_password"],
                .text "New password must be different from current password"⟩] else []))) := by
  obtain ⟨issues, hi, hr⟩ := passwordChangeSchema_strings c n k
  generalize hp : passwordChangeSchema [] (passwordCandidate c n k) = p at hi hr
  obtain ⟨r, is⟩ := p
  simp only at hi hr
  rcases hr with ⟨hl, hnk, hc, hr⟩ | ⟨hn, hr⟩
  · left
    refine ⟨⟨hl, hnk, hc⟩, ?_⟩
    rw [passwordChangeSchemaSafeParse, hp, hr]
    rfl
  · right
    refine ⟨hn, issues, ?_⟩
    rw [passwordChangeSchemaSafeParse, hp, hr, hi]
    rfl

/-- C2: for every triple of strings, whatever their lengths: if `new_password` differs from
`confirm_password` the schema rejects and some issue has the path `confirm_password`; if
`new_password` equals `current_password` it rejects and some issue has the path
`new_password`. -/
theorem passwordChange_rejects_on_field (c n k : JsString) :
    (n ≠ k →
      (passwordChangeSchemaSafeParse (passwordCandidate c n k)).isSuccess = false ∧
      ∃ i ∈ (passwordChangeSchemaSafeParse (passwordCandidate c n k)).errors,
        i.path = [.key "confirm_password"]) ∧
    (n = c →
      (passwordChangeSchemaSafeParse (passwordCandidate c n k)).isSuccess = false ∧
      ∃ i ∈ (passwordChangeSchemaSafeParse (passwordCandidate c n k)).errors,
        i.path = [.key "new_password"]) := by
  rcases passwordChangeSchemaSafeParse_strings c n k with ⟨⟨_, hnk, hc⟩, _⟩ | ⟨_, issues, h⟩
  · exact ⟨fun hne => absurd hnk hne, fun he => absurd he.symm hc⟩
  · rw [h]
    constructor
    · intro hne
      refine ⟨rfl, ⟨.custom, [.key "confirm_password"], .text "Passwords don't match"⟩, ?_, rfl⟩
      simp [SafeParseResult.errors, hne]
    · intro he
      refine ⟨rfl, ⟨.custom, [.key "new_password"],
        .text "New password must be different from current password"⟩, ?_, rfl⟩
      simp [SafeParseResult.errors, he.symm]

/-- C2 at the triple (`"secret1"`, `"secret1"`, `"other"`): both rejections. -/
theorem passwordChange_rejects_on_field_witness :
    ((utf16 "secret1" ≠ utf16 "other" →
      (passwordChangeSchemaSafeParse
        (passwordCandidate (utf16 "secret1") (utf16 "secret1") (utf16 "other"))).isSuccess
          = false ∧
      ∃ i ∈ (passwordChangeSchemaSafeParse
        (passwordCandidate (utf16 "secret1") (utf16 "secret1") (utf16 "other"))).errors,
        i.path = [.key "confirm_password"]) ∧
    (utf16 "secret1" = utf16 "secret1" →
      (passwordChangeSchemaSafeParse
        (passwordCandidate (utf16 "secret1") (utf16 "secret1") (utf16 "other"))).isSuccess
          = false ∧
      ∃ i ∈ (passwordChangeSchemaSafeParse
        (passwordCandidate (utf16 "secret1") (utf16 "secret1") (utf16 "other"))).errors,
        i.path = [.key "new_password"])) ∧
    utf16 "secret1" ≠ utf16 "other" ∧ utf16 "secret1" = utf16 "secret1" :=
  ⟨passwordChange_rejects_on_field (utf16 "secret1") (utf16 "secret1") (utf16 "other"),
    by decide, rfl⟩

/-- C3 as stated fails: the triple (`"a"`, `"b"`, `"b"`) has `new_password` equal to
`confirm_password` and different from `current_password`, and the schema rejects it (the new
password is shorter than 6). -/
theorem passwordChange_short_new_password_rejected :
    utf16 "b" = utf16 "b" ∧ utf16 "b" ≠ utf16 "a" ∧
    (passwordChangeSchemaSafeParse
      (passwordCandidate (utf16 "a") (utf16 "b") (utf16 "b"))).isSuccess = false := by
  decide

/-- C3, amended: every triple of strings with `new_password` equal to `confirm_password`,
`new_password` different from `current_password`, a non-empty `current_password` and a
`new_password` of length 6 to 128 is accepted, and comes back unchanged. -/
theorem passwordChange_accepts (c n k : JsString) (hk : n = k) (hc : n ≠ c)
    (h1 : c ≠ []) (h6 : 6 ≤ n.length) (h128 : n.length ≤ 128) :
    passwordChangeSchemaSafeParse (passwordCandidate c n k) = .success ⟨c, n, k⟩ := by
  have hlen : 1 ≤ c.length := by
    cases c with
    | nil => exact absurd rfl h1
    | cons a t => simp
  rcases passwordChangeSchemaSafeParse_strings c n k with ⟨_, h⟩ | ⟨hn, _⟩
  · exact h
  · exact absurd ⟨⟨hlen, h6, h128⟩, hk, fun e => hc e.symm⟩ hn

/-- C3 amended, at the triple (`"oldpass"`, `"newpass"`, `"newpass"`). -/
theorem passwordChange_accepts_witness :
    passwordChangeSchemaSafeParse
        (passwordCandidate (utf16 "oldpass") (utf16 "newpass") (utf16 "newpass"))
      = .success ⟨utf16 "oldpass", utf16 "newpass", utf16 "newpass"⟩ :=
  passwordChange_accepts (utf16 "oldpass") (utf16 "newpass") (utf16 "newpass") rfl
    (by decide) (by decide) (by decide) (by decide)

/-- C4: for every triple of strings the schema accepts exactly when `current_password` is
non-empty, the length of `new_password` is between 6 and 128, `confirm_password` equals
`new_password` and `new_password` differs from `current_password`; an accepted triple comes
back unchanged. -/
theorem passwordChange_accepted_iff (c n k : JsString) :
    ((passwordChangeSchemaSafeParse (passwordCandidate c n k)).isSuccess = true
      ↔ c ≠ [] ∧ (6 ≤ n.length ∧ n.length ≤ 128) ∧ k = n ∧ n ≠ c)
    ∧ (passwordChangeSchemaSafeParse (passwordCandidate c n k) = .success ⟨c, n, k⟩
        ∨ (passwordChangeSchemaSafeParse (passwordCandidate c n k)).isSuccess = false) := by
  have hlen : 1 ≤ c.length ↔ c ≠ [] := by
    cases c with
    | nil => simp
    | cons a t => simp
  rcases passwordChangeSchemaSafeParse_strings c n k with
    ⟨⟨⟨h1, h6, h128⟩, hnk, hc⟩, h⟩ | ⟨hn, issues, h⟩
  · refine ⟨?_, Or.inl h⟩
    rw [h]
    exact ⟨fun _ => ⟨hlen.mp h1, ⟨h6, h128⟩, hnk.symm, fun e => hc e.symm⟩, fun _ => rfl⟩
  · refine ⟨?_, Or.inr (by rw [h]; rfl)⟩
    rw [h]
    constructor
    · intro hf
      exact absurd hf (by simp [SafeParseResult.isSuccess])
    · rintro ⟨hc1, ⟨h6, h128⟩, hkn, hnc⟩
      exact absurd ⟨⟨hlen.mpr hc1, h6, h128⟩, hkn.symm, fun e => hnc e.symm⟩ hn


/-- C5 fails on the code: the candidate `{name: "  ", email: "a@b.co"}` is accepted, since the
length tests run on the raw name before `trim`, and the name that comes back is empty. -/
theorem profileUpdate_blank_name_accepted :
    profileUpdateSchemaSafeParse (profileCandidate (utf16 "  ") (utf16 "a@b.co"))
      = .success ⟨[], utf16 "a@b.co"⟩ ∧
    ([] : JsString).length = 0 := by
  constructor
  · rfl
  · rfl

/-- The result of `profileUpdateSchema` on a candidate of strings: the record of the trimmed name
and the lower-cased email, or a failure whose issue list is not empty. -/
theorem profileUpdateSchemaSafeParse_strings (name email : JsString) :
    profileUpdateSchemaSafeParse (profileCandidate name email)
        = .success ⟨trim name, toLowerCase email⟩
      ∨ ∃ issues : List ZodIssue, issues ≠ [] ∧
          profileUpdateSchemaSafeParse (profileCandidate name email) = .failure issues := by
  by_cases h1 : name.length < 2 <;> by_cases h2 : 100 < name.length <;>
    by_cases h3 : emailRegexTest email = true <;> by_cases h4 : 255 < email.length <;>
    simp [profileUpdateSchemaSafeParse, profileUpdateSchema, profileCandidate,
      JsValue.getField, List.lookup, zString, runStringChecks, Parsed.seq, Parsed.pure,
      ParseReturn.seq, handleResult, h1, h2, h3, h4]

/-- The code units that `trim` removes are the white space and line terminators of the
language. -/
theorem isWhiteSpace_eq_true_iff (c : Nat) :
    isWhiteSpace c = true
      ↔ c ∈ [9, 10, 11, 12, 13, 32, 160, 5760, 8192, 8193, 8194, 8195, 8196, 8197, 8198, 8199,
          8200, 8201, 8202, 8232, 8233, 8239, 8287, 12288, 65279] := by
  simp only [isWhiteSpace, Bool.or_eq_true, Bool.and_eq_true, beq_iff_eq, decide_eq_true_eq,
    List.mem_cons, List.mem_singleton, List.not_mem_nil, or_false]
  omega

/-- What `dropWhile` leaves does not start with a unit of the dropped kind. -/
theorem head_dropWhile_false (p : Nat → Bool) :
    ∀ (s : List Nat) (c : Nat), (s.dropWhile p).head? = some c → p c = false
  | [], c, h => by simp at h
  | a :: s, c, h => by
    by_cases ha : p a = true
    · rw [List.dropWhile_cons_of_pos ha] at h
      exact head_dropWhile_false p s c h
    · rw [List.dropWhile_cons_of_neg ha] at h
      simp only [List.head?_cons, Option.some.injEq] at h
      subst h
      simpa using ha

/-- The string `trim` returns: the input is it between two runs of white space, and it neither
starts nor ends with white space. -/
theorem trim_spec (s : JsString) :
    (∃ pre post : JsString, s = pre ++ trim s ++ post ∧
      ∀ c ∈ pre ++ post, isWhiteSpace c = true) ∧
    (∀ c : Nat, (trim s).head? = some c ∨ (trim s).getLast? = some c →
      isWhiteSpace c = false) := by
  have h1 : s = s.takeWhile isWhiteSpace ++ s.dropWhile isWhiteSpace :=
    (List.takeWhile_append_dropWhile isWhiteSpace s).symm
  have h2 : s.dropWhile isWhiteSpace
      = trim s ++ ((s.dropWhile isWhiteSpace).reverse.takeWhile isWhiteSpace).reverse := by
    have h := congrArg List.reverse
      (List.takeWhile_append_dropWhile isWhiteSpace (s.dropWhile isWhiteSpace).reverse)
    rw [List.reverse_append, List.reverse_reverse] at h
    exact h.symm
  constructor
  · refine ⟨s.takeWhile isWhiteSpace,
      ((s.dropWhile isWhiteSpace).reverse.takeWhile isWhiteSpace).reverse, ?_, ?_⟩
    · rw [List.append_assoc, ← h2]
      exact h1
    · intro c hc
      rcases List.mem_append.mp hc with hc | hc
      · exact List.mem_takeWhile_imp hc
      · exact List.mem_takeWhile_imp (List.mem_reverse.mp hc)
  · intro c hc
    rcases hc with hc | hc
    · apply head_dropWhile_false isWhiteSpace s c
      rw [h2]
      cases ht : trim s with
      | nil => rw [ht] at hc; simp at hc
      | cons a rest => rw [ht] at hc; simpa using hc
    · apply head_dropWhile_false isWhiteSpace (s.dropWhile isWhiteSpace).reverse c
      unfold trim at hc
      rw [List.getLast?_reverse] at hc
      exact hc

/-- The string `toLowerCase` returns, unit by unit. -/
theorem toLowerCase_forall₂ (s : JsString) :
    List.Forall₂ (fun c r : Nat => r = if 65 ≤ c ∧ c ≤ 90 then c + 32 else c) s
      (toLowerCase s) := by
  induction s with
  | nil => exact List.Forall₂.nil
  | cons a s ih => exact List.Forall₂.cons rfl ih

/-- C6: for every candidate `{name, email}` of strings the schema returns exactly one of two
results.  Either a record: the input name is the record's name between two runs of white-space
code units (tab, line feed, vertical tab, form feed, carriage return, space, no-break space, the
other space separators, the line and paragraph separators and the byte-order mark), the record's
name neither starts nor ends with such a unit, and the record's email is the input email with
every unit from `A` to `Z` replaced by the unit 32 above it and every other unit kept.  Or a
failure whose issue list is not empty.  It never returns both, and never an empty issue list. -/
theorem profileUpdate_record_or_issues (name email : JsString) :
    ((∃ record : ProfileUpdate,
        profileUpdateSchemaSafeParse (profileCandidate name email) = .success record ∧
        (∃ pre post : JsString, name = pre ++ record.name ++ post ∧
          ∀ c ∈ pre ++ post,
            c ∈ [9, 10, 11, 12, 13, 32, 160, 5760, 8192, 8193, 8194, 8195, 8196, 8197, 8198,
              8199, 8200, 8201, 8202, 8232, 8233, 8239, 8287, 12288, 65279]) ∧
        (∀ c : Nat, record.name.head? = some c ∨ record.name.getLast? = some c →
          c ∉ [9, 10, 11, 12, 13, 32, 160, 5760, 8192, 8193, 8194, 8195, 8196, 8197, 8198, 8199,
            8200, 8201, 8202, 8232, 8233, 8239, 8287, 12288, 65279]) ∧
        List.Forall₂ (fun c r : Nat => r = if 65 ≤ c ∧ c ≤ 90 then c + 32 else c) email
          record.email)
      ∨ ∃ issues : List ZodIssue, issues ≠ [] ∧
          profileUpdateSchemaSafeParse (profileCandidate name email) = .failure issues)
    ∧ ¬ ((∃ record : ProfileUpdate,
          profileUpdateSchemaSafeParse (profileCandidate name email) = .success record)
        ∧ ∃ issues : List ZodIssue,
          profileUpdateSchemaSafeParse (profileCandidate name email) = .failure issues)
    ∧ profileUpdateSchemaSafeParse (profileCandidate name email) ≠ .failure [] := by
  have hcases := profileUpdateSchemaSafeParse_strings name email
  refine ⟨?_, ?_, ?_⟩
  · rcases hcases with hs | hf
    · left
      obtain ⟨⟨pre, post, hdec, hws⟩, hends⟩ := trim_spec name
      refine ⟨⟨trim name, toLowerCase email⟩, hs, ⟨pre, post, hdec, ?_⟩, ?_,
        toLowerCase_forall₂ email⟩
      · intro c hc
        exact (isWhiteSpace_eq_true_iff c).mp (hws c hc)
      · intro c hc hmem
        have hfalse := hends c hc
        rw [(isWhiteSpace_eq_true_iff c).mpr hmem] at hfalse
        exact absurd hfalse (by simp)
    · exact Or.inr hf
  · rintro ⟨⟨record, hs⟩, issues, hf⟩
    rw [hs] at hf
    exact absurd hf (by simp)
  · intro hempty
    rcases hcases with hs | ⟨issues, hne, hf⟩
    · rw [hs] at hempty
      exact absurd hempty (by simp)
    · rw [hf] at hempty
      injection hempty with h
      exact hne h

/-- C6 at the name `"  Ann B "` and the email `"A@B.co"`: the schema returns the record of
`"Ann B"` and `"a@b.co"`, and no issues with it. -/
theorem profileUpdate_record_or_issues_witness :
    profileUpdateSchemaSafeParse (profileCandidate (utf16 "  Ann B ") (utf16 "A@B.co"))
      = .success ⟨utf16 "Ann B", utf16 "a@b.co"⟩ ∧
    ¬ ((∃ record : ProfileUpdate,
          profileUpdateSchemaSafeParse (profileCandidate (utf16 "  Ann B ") (utf16 "A@B.co"))
            = .success record)
        ∧ ∃ issues : List ZodIssue,
          profileUpdateSchemaSafeParse (profileCandidate (utf16 "  Ann B ") (utf16 "A@B.co"))
            = .failure issues) :=
  ⟨rfl, (profileUpdate_record_or_issues (utf16 "  Ann B ") (utf16 "A@B.co")).2.1⟩

/-- Every unit of `sep.intercalate ls` comes from the separator or from one of the lists. -/
theorem mem_intercalate_imp (sep : List Nat) (c : Nat) :
    ∀ ls : List (List Nat), c ∈ sep.intercalate ls → c ∈ sep ∨ ∃ l ∈ ls, c ∈ l
  | [], h => by simp [List.intercalate] at h
  | [l], h => by
    right
    exact ⟨l, by simp, by simpa [List.intercalate] using h⟩
  | l :: l2 :: rest, h => by
    have h2 : c ∈ l ∨ c ∈ sep ∨ c ∈ sep.intercalate (l2 :: rest) := by
      simpa [List.intercalate, List.intersperse] using h
    rcases h2 with h2 | h2 | h2
    · exact Or.inr ⟨l, by simp, h2⟩
    · exact Or.inl h2
    · rcases mem_intercalate_imp sep c (l2 :: rest) h2 with h3 | ⟨l3, hl3, hc3⟩
      · exact Or.inl h3
      · exact Or.inr ⟨l3, List.mem_cons_of_mem _ hl3, hc3⟩

/-- The units the classes of the e-mail pattern admit are ASCII. -/
theorem isLocalUnit_lt (c : Nat) (h : isLocalUnit c = true) : c < 128 := by
  simp [isLocalUnit, isLetter, isDigit] at h
  omega

/-- The units of a domain label are ASCII. -/
theorem isLabelUnit_lt (c : Nat) (h : isLabelUnit c = true) : c < 128 := by
  simp [isLabelUnit, isLetter, isDigit] at h
  omega

/-- A domain that matches holds ASCII units only. -/
theorem isDomain_lt (d : JsString) (h : isDomain d = true) : ∀ c ∈ d, c < 128 := by
  intro c hc
  rw [← List.intercalate_splitOn d 46] at hc
  rcases mem_intercalate_imp [46] c _ hc with h46 | ⟨l, hl, hcl⟩
  · simp at h46
    omega
  · unfold isDomain at h
    have hl2 : l ∈ (d.splitOn 46).reverse := List.mem_reverse.mpr hl
    split at h
    · rename_i top l1 ls heq
      rw [heq] at hl2
      simp only [Bool.and_eq_true, List.all_eq_true] at h
      rcases List.mem_cons.mp hl2 with rfl | hl3
      · have := h.1
        simp only [isTopLabel, Bool.and_eq_true, List.all_eq_true] at this
        have hx := this.2 c hcl
        simp [isLetter] at hx
        omega
      · have hlab := h.2 l hl3
        cases l with
        | nil => simp at hcl
        | cons a t =>
          simp only [isDomainLabel, Bool.and_eq_true, List.all_eq_true] at hlab
          rcases List.mem_cons.mp hcl with rfl | hct
          · have := hlab.1
            simp [isLetter, isDigit] at this
            omega
          · exact isLabelUnit_lt c (hlab.2 c hct)
    · exact absurd h (by simp)

/-- A string that matches the e-mail pattern holds ASCII units only, so the ASCII
lower-casing of `toLowerCase` is the whole of `String.prototype.toLowerCase` on it. -/
theorem emailRegexTest_lt (s : JsString) (h : emailRegexTest s = true) : ∀ c ∈ s, c < 128 := by
  intro c hc
  unfold emailRegexTest at h
  split at h
  · exact absurd h (by simp)
  · rename_i x domain heq
    simp only [Bool.and_eq_true] at h
    obtain ⟨⟨_, hloc⟩, hdom⟩ := h
    rw [← List.takeWhile_append_dropWhile (fun c => c != 64) s, heq] at hc
    rcases List.mem_append.mp hc with h1 | h1
    · unfold isLocalPart at hloc
      split at hloc
      · simp only [Bool.and_eq_true, List.all_eq_true] at hloc
        exact isLocalUnit_lt c (hloc.2 c h1)
      · exact absurd hloc (by simp)
    · rcases List.mem_cons.mp h1 with rfl | h2
      · have hx := List.head?_dropWhile_not (fun c => c != 64) s
        rw [heq] at hx
        simp at hx
        omega
      · exact isDomain_lt domain hdom c h2


/-- C7: for every file record and every value of the two constants, `validateResumeFile` returns
`isValid = true` exactly when the size is at most `MAX_RESUME_SIZE`, the type is in
`RESUME_FILE_TYPES` and the name is at most 255 long, so a file of exactly `MAX_RESUME_SIZE` bytes
passes the size rule; and the error reported is that of the first failing rule in the order size,
type, name. -/
theorem validateResumeFile_verdict (MAX_RESUME_SIZE : Nat) (RESUME_FILE_TYPES : List JsString)
    (file : ResumeFile) :
    ((validateResumeFile MAX_RESUME_SIZE RESUME_FILE_TYPES file).isValid = true
      ↔ file.size ≤ MAX_RESUME_SIZE ∧ file.type ∈ RESUME_FILE_TYPES ∧ file.name.length ≤ 255)
    ∧ (file.type ∈ RESUME_FILE_TYPES → file.name.length ≤ 255 →
        (validateResumeFile MAX_RESUME_SIZE RESUME_FILE_TYPES
          ⟨MAX_RESUME_SIZE, file.type, file.name⟩).isValid = true)
    ∧ (MAX_RESUME_SIZE < file.size →
        (validateResumeFile MAX_RESUME_SIZE RESUME_FILE_TYPES file).error
          = some ("File size must be less than "
              ++ toString (mathRoundDiv MAX_RESUME_SIZE (1024 * 1024)) ++ "MB"))
    ∧ (file.size ≤ MAX_RESUME_SIZE → file.type ∉ RESUME_FILE_TYPES →
        (validateResumeFile MAX_RESUME_SIZE RESUME_FILE_TYPES file).error
          = some "File must be PDF, Word document, or plain text")
    ∧ (file.size ≤ MAX_RESUME_SIZE → file.type ∈ RESUME_FILE_TYPES → 255 < file.name.length →
        (validateResumeFile MAX_RESUME_SIZE RESUME_FILE_TYPES file).error
          = some "File name is too long") := by
  refine ⟨?_, ?_, ?_, ?_, ?_⟩
  · by_cases h1 : MAX_RESUME_SIZE < file.size <;> by_cases h2 : file.type ∈ RESUME_FILE_TYPES <;>
      by_cases h3 : 255 < file.name.length <;>
      simp [validateResumeFile, h1, h2, h3]
    omega
  · intro h2 h3
    have h3n : ¬ 255 < file.name.length := by omega
    simp [validateResumeFile, h2, h3n]
  · intro h1
    simp [validateResumeFile, h1]
  · intro h1 h2
    have h1n : ¬ MAX_RESUME_SIZE < file.size := by omega
    simp [validateResumeFile, h1n, h2]
  · intro h1 h2 h3
    have h1n : ¬ MAX_RESUME_SIZE < file.size := by omega
    simp [validateResumeFile, h1n, h2, h3]

/-- C7 at a 10 MB limit: a file one byte over the limit whose type is also outside the list gets
the size error, the first rule in order. -/
theorem validateResumeFile_verdict_witness :
    10485760 < (⟨10485761, utf16 "image/png", utf16 "a.png"⟩ : ResumeFile).size ∧
    (validateResumeFile 10485760 [utf16 "application/pdf", utf16 "text/plain"]
        ⟨10485761, utf16 "image/png", utf16 "a.png"⟩).error
      = some "File size must be less than 10MB" :=
  ⟨by decide,
    (validateResumeFile_verdict 10485760 [utf16 "application/pdf", utf16 "text/plain"]
      ⟨10485761, utf16 "image/png", utf16 "a.png"⟩).2.2.1 (by decide)⟩

/-- Whether the run of `handleFileUpload` reached the storage upload. -/
theorem handleFileUpload_cases (remote : UploadResponses) (user : User) (file : ResumeFile) :
    ((file.size ≤ 5 * 1024 * 1024 ∧ file.type ∈ pageLevelTypes) ∧
      ∃ rest, handleFileUpload remote (some user) (some file)
        = .setIsLoading true
          :: .storageUpload "resumes" (user.id ++ utf16 "/resume." ++ lastDotSegment file.name)
              file true :: rest) ∨
    (¬ (file.size ≤ 5 * 1024 * 1024 ∧ file.type ∈ pageLevelTypes) ∧
      ∃ description, handleFileUpload remote (some user) (some file)
        = [.toast ⟨"Error", description, true⟩]) := by
  have hmem : ([utf16 "application/pdf", utf16 "application/msword",
      utf16 "application/vnd.openxmlformats-officedocument.wordprocessingml.document"].contains
        file.type = true) ↔ file.type ∈ pageLevelTypes := by
    simp [pageLevelTypes]
  by_cases h1 : file.type ∈ pageLevelTypes <;> by_cases h2 : 5 * 1024 * 1024 < file.size
  · right
    refine ⟨by omega, "File size must be less than 5MB", ?_⟩
    simp only [handleFileUpload, hmem.mpr h1, h2]
    rfl
  · left
    refine ⟨⟨by omega, h1⟩, ?_⟩
    simp only [handleFileUpload, hmem.mpr h1, h2]
    exact ⟨_, rfl⟩
  · right
    refine ⟨fun h => h1 h.2, "Please upload a PDF or Word document", ?_⟩
    have hc : [utf16 "application/pdf", utf16 "application/msword",
        utf16 "application/vnd.openxmlformats-officedocument.wordprocessingml.document"].contains
          file.type = false := by
      cases hb : [utf16 "application/pdf", utf16 "application/msword",
        utf16 "application/vnd.openxmlformats-officedocument.wordprocessingml.document"].contains
          file.type
      · rfl
      · exact absurd (hmem.mp hb) h1
    simp only [handleFileUpload, hc]
    rfl
  · right
    refine ⟨fun h => h1 h.2, "Please upload a PDF or Word document", ?_⟩
    have hc : [utf16 "application/pdf", utf16 "application/msword",
        utf16 "application/vnd.openxmlformats-officedocument.wordprocessingml.document"].contains
          file.type = false := by
      cases hb : [utf16 "application/pdf", utf16 "application/msword",
        utf16 "application/vnd.openxmlformats-officedocument.wordprocessingml.document"].contains
          file.type
      · rfl
      · exact absurd (hmem.mp hb) h1
    simp only [handleFileUpload, hc]
    rfl


/-- C8 as stated fails: a plain-text file of one byte is within 5 MB and its type is in the set
the specification allows, yet `handleFileUpload` only shows an error and never reaches the
upload. -/
theorem handleFileUpload_plain_text_refused :
    (⟨1, utf16 "text/plain", utf16 "cv.txt"⟩ : ResumeFile).size ≤ 5 * 1024 * 1024 ∧
    (⟨1, utf16 "text/plain", utf16 "cv.txt"⟩ : ResumeFile).type ∈ specPageLevelTypes ∧
    handleFileUpload ⟨false, utf16 "https://x/u1/resume.txt", false⟩ (some ⟨utf16 "u1"⟩)
        (some ⟨1, utf16 "text/plain", utf16 "cv.txt"⟩)
      = [.toast ⟨"Error", "Please upload a PDF or Word document", true⟩] ∧
    (handleFileUpload ⟨false, utf16 "https://x/u1/resume.txt", false⟩ (some ⟨utf16 "u1"⟩)
        (some ⟨1, utf16 "text/plain", utf16 "cv.txt"⟩)).any Effect.isUpload = false := by
  decide

/-- C8, amended: in `handleFileUpload`, for every selected file, every authenticated user and
every behaviour of the remote service, the storage upload is reached exactly when the file is at
most 5 MB (`5*1024*1024` bytes) and its type is PDF, legacy Word or OOXML Word; otherwise an error
toast is shown and no call on the remote service is made. -/
theorem handleFileUpload_proceeds_iff (remote : UploadResponses) (user : User)
    (file : ResumeFile) :
    ((handleFileUpload remote (some user) (some file)).any Effect.isUpload = true
      ↔ file.size ≤ 5 * 1024 * 1024 ∧ file.type ∈ pageLevelTypes)
    ∧ ((handleFileUpload remote (some user) (some file)).any Effect.isUpload = true
        ∨ ((handleFileUpload remote (some user) (some file)).any Effect.isErrorToast = true
          ∧ (handleFileUpload remote (some user) (some file)).any Effect.isRemoteCall
              = false)) := by
  rcases handleFileUpload_cases remote user file with ⟨hc, rest, h⟩ | ⟨hn, d, h⟩
  · have hup : (handleFileUpload remote (some user) (some file)).any Effect.isUpload = true := by
      rw [h]
      simp [Effect.isUpload]
    exact ⟨⟨fun _ => hc, fun _ => hup⟩, Or.inl hup⟩
  · have hup : (handleFileUpload remote (some user) (some file)).any Effect.isUpload = false := by
      rw [h]
      rfl
    refine ⟨⟨fun hu => ?_, fun hc => absurd hc hn⟩, Or.inr ⟨?_, ?_⟩⟩
    · rw [hup] at hu
      exact absurd hu (by decide)
    · rw [h]
      rfl
    · rw [h]
      rfl

/-- The units of the decimal string are digits. -/
theorem numberToString_isDigit (n : Nat) : ∀ c ∈ numberToString n, isDigit c = true := by
  intro c hc
  unfold numberToString at hc
  split at hc
  · simp at hc
    subst hc
    decide
  · simp only [List.mem_map, List.mem_reverse] at hc
    obtain ⟨d, hd, rfl⟩ := hc
    have := Nat.digits_lt_base (by decide : 1 < 10) hd
    simp [isDigit]
    omega

/-- The decimal string denotes the number: its digit values, read in base ten, give it back. -/
theorem numberToString_value (n : Nat) :
    Nat.ofDigits 10 (((numberToString n).map (fun c => c - 48)).reverse) = n := by
  unfold numberToString
  split
  · rename_i h
    subst h
    rfl
  · simp only [List.map_map, List.map_reverse, List.reverse_reverse]
    have : ((fun c => c - 48) ∘ fun d => d + 48) = (id : Nat → Nat) := by
      funext d
      simp
    rw [this, List.map_id, Nat.ofDigits_digits]

/-- The decimal string determines the number. -/
theorem numberToString_injective (m n : Nat) (h : numberToString m = numberToString n) :
    m = n := by
  rw [← numberToString_value m, ← numberToString_value n, h]

/-- Two strings made of a run of units other than `_`, then `_`, then anything, agree only if the
runs agree. -/
theorem prefix_before_underscore (x y : JsString) :
    ∀ a b : JsString, (∀ c ∈ a, c ≠ 95) → (∀ c ∈ b, c ≠ 95) →
      a ++ 95 :: x = b ++ 95 :: y → a = b
  | [], [], _, _, _ => rfl
  | [], c :: b, _, hb, h => by
    simp only [List.nil_append, List.cons_append, List.cons.injEq] at h
    exact absurd h.1.symm (hb c (by simp))
  | c :: a, [], ha, _, h => by
    simp only [List.nil_append, List.cons_append, List.cons.injEq] at h
    exact absurd h.1 (ha c (by simp))
  | c :: a, d :: b, ha, hb, h => by
    simp only [List.cons_append, List.cons.injEq] at h
    rw [h.1, prefix_before_underscore x y a b (fun e he => ha e (List.mem_cons_of_mem _ he))
      (fun e he => hb e (List.mem_cons_of_mem _ he)) h.2]

/-- C9: with the clock reading `t` as input, the path is `userId`, `/`, the decimal string of
`t`, `_` and `s`, where `s` is the file name with every code unit outside `[a-zA-Z0-9.-]` replaced
by `_`, one for one; `s` is as long as the file name, holds only letters, digits, `.`, `-` and
`_`, and holds no `/`.  The decimal string is made of digits and denotes `t`. -/
theorem generateResumeFilePath_shape (t : Nat) (userId fileName : JsString) :
    ∃ s : JsString,
      generateResumeFilePath t userId fileName
        = userId ++ utf16 "/" ++ numberToString t ++ utf16 "_" ++ s ∧
      List.Forall₂
        (fun c r => r = if (65 ≤ c ∧ c ≤ 90) ∨ (97 ≤ c ∧ c ≤ 122) ∨ (48 ≤ c ∧ c ≤ 57)
          ∨ c = 46 ∨ c = 45 then c else 95) fileName s ∧
      s.length = fileName.length ∧
      (∀ c ∈ s, (65 ≤ c ∧ c ≤ 90) ∨ (97 ≤ c ∧ c ≤ 122) ∨ (48 ≤ c ∧ c ≤ 57)
        ∨ c = 46 ∨ c = 45 ∨ c = 95) ∧
      47 ∉ s ∧
      (∀ c ∈ numberToString t, 48 ≤ c ∧ c ≤ 57) ∧
      Nat.ofDigits 10 (((numberToString t).map (fun c => c - 48)).reverse) = t := by
  have hunit : ∀ c : Nat, sanitizeUnit c
      = if (65 ≤ c ∧ c ≤ 90) ∨ (97 ≤ c ∧ c ≤ 122) ∨ (48 ≤ c ∧ c ≤ 57) ∨ c = 46 ∨ c = 45
        then c else 95 := by
    intro c
    simp only [sanitizeUnit, isLetter, isDigit, Bool.or_eq_true, Bool.and_eq_true,
      decide_eq_true_eq, beq_iff_eq, or_assoc]
  have hclass : ∀ c ∈ fileName.map sanitizeUnit,
      (65 ≤ c ∧ c ≤ 90) ∨ (97 ≤ c ∧ c ≤ 122) ∨ (48 ≤ c ∧ c ≤ 57) ∨ c = 46 ∨ c = 45
        ∨ c = 95 := by
    intro c hc
    obtain ⟨a, _, rfl⟩ := List.mem_map.mp hc
    rw [hunit]
    split
    · rename_i h
      tauto
    · simp
  refine ⟨fileName.map sanitizeUnit, rfl, ?_, by simp, hclass, ?_, ?_, numberToString_value t⟩
  · rw [List.forall₂_map_right_iff]
    exact List.forall₂_same.mpr (fun c _ => hunit c)
  · intro h47
    have := hclass 47 h47
    omega
  · intro c hc
    have := numberToString_isDigit t c hc
    simpa [isDigit] using this

/-- C10: for one user id, two distinct clock readings give distinct paths, whatever the two file
names are. -/
theorem generateResumeFilePath_distinct (userId fileName₁ fileName₂ : JsString) (t₁ t₂ : Nat)
    (h : t₁ ≠ t₂) :
    generateResumeFilePath t₁ userId fileName₁ ≠ generateResumeFilePath t₂ userId fileName₂ := by
  intro heq
  have hu : utf16 "_" = [95] := by decide
  simp only [generateResumeFilePath, hu, List.append_assoc, List.append_cancel_left_eq,
    List.singleton_append] at heq
  have hd : ∀ n, ∀ c ∈ numberToString n, c ≠ 95 := by
    intro n c hc h95
    have := numberToString_isDigit n c hc
    rw [h95] at this
    exact absurd this (by decide)
  exact h (numberToString_injective t₁ t₂
    (prefix_before_underscore _ _ _ _ (hd t₁) (hd t₂) heq))

/-- C10 at the user `u1` and the readings `1700000000000` and `1700000000001`, with one file
name. -/
theorem generateResumeFilePath_distinct_witness :
    (1700000000000 : Nat) ≠ 1700000000001 ∧
    generateResumeFilePath 1700000000000 (utf16 "u1") (utf16 "cv.pdf")
      ≠ generateResumeFilePath 1700000000001 (utf16 "u1") (utf16 "cv.pdf") :=
  ⟨by decide,
    generateResumeFilePath_distinct (utf16 "u1") (utf16 "cv.pdf") (utf16 "cv.pdf")
      1700000000000 1700000000001 (by decide)⟩


/-- C11 as stated fails: the user `u1` has no row, the lookup answers `PGRST116`, the insert
answers an error; the fetch then fails, and the table still holds no row. -/
theorem jobSettingsQueryFn_insert_error :
    ([] : SettingsTable).lookup (utf16 "u1") = none ∧
    (jobSettingsQueryFn ⟨none, some ⟨utf16 "42501", utf16 "permission denied"⟩⟩
        (some ⟨utf16 "u1", utf16 "a@b.co"⟩) []).outcome
      = .rejected (.error (utf16 "permission denied")) ∧
    (jobSettingsQueryFn ⟨none, some ⟨utf16 "42501", utf16 "permission denied"⟩⟩
        (some ⟨utf16 "u1", utf16 "a@b.co"⟩) []).table = [] :=
  ⟨rfl, rfl, rfl⟩

/-- C11, amended: for every user id with no row in the table, when neither the lookup nor the
insert is answered with an injected error, the fetch issues exactly one insert, the table gains
exactly that row, and the row `{user_id, difficulty_level: "medium", question_count: 10,
preferences: {}}` is returned; when the insert is answered with an error the fetch fails and the
table is unchanged; and when the lookup is answered with an error whose code is not `PGRST116`,
whatever the table holds, no insert is issued, the table is unchanged and the fetch fails with
that error's message. -/
theorem jobSettingsQueryFn_default_row (faults : QueryFaults) (user : SessionUser)
    (table : SettingsTable) (hid : user.id ≠ []) :
    (table.lookup user.id = none → faults.selectError = none → faults.insertError = none →
      (jobSettingsQueryFn faults (some user) table).outcome
        = .resolved (some [("user_id", .string user.id),
            ("difficulty_level", .string (utf16 "medium")),
            ("question_count", .number (.finite 10)),
            ("preferences", .object [])]) ∧
      (jobSettingsQueryFn faults (some user) table).table
        = (user.id, [("user_id", .string user.id),
            ("difficulty_level", .string (utf16 "medium")),
            ("question_count", .number (.finite 10)),
            ("preferences", .object [])]) :: table ∧
      ((jobSettingsQueryFn faults (some user) table).calls.filter RemoteCall.isInsert).length
        = 1) ∧
    (∀ e : BackendError, table.lookup user.id = none → faults.selectError = none →
      faults.insertError = some e →
      (jobSettingsQueryFn faults (some user) table).outcome = .rejected (.error e.message) ∧
      (jobSettingsQueryFn faults (some user) table).table = table) ∧
    (∀ e : BackendError, faults.selectError = some e → e.code ≠ utf16 "PGRST116" →
      (jobSettingsQueryFn faults (some user) table).outcome = .rejected (.error e.message) ∧
      (jobSettingsQueryFn faults (some user) table).table = table ∧
      (jobSettingsQueryFn faults (some user) table).calls.filter RemoteCall.isInsert = []) := by
  have hu : sessionUserId (some user) = some user.id := by
    simp [sessionUserId, hid]
  refine ⟨?_, ?_, ?_⟩
  · intro hrow hs hi
    simp [jobSettingsQueryFn, hu, remoteSelectSingle, remoteInsert, hrow, hs, hi,
      defaultSettings, RemoteCall.isInsert, JsNumber.ofNat]
  · intro e hrow hs hi
    simp [jobSettingsQueryFn, hu, remoteSelectSingle, remoteInsert, hrow, hs, hi]
  · intro e hs hcode
    simp [jobSettingsQueryFn, hu, remoteSelectSingle, hs, hcode, RemoteCall.isInsert]

/-- C11 amended, at the user `u1` and the empty table, with no injected error. -/
theorem jobSettingsQueryFn_default_row_witness :
    (⟨utf16 "u1", utf16 "a@b.co"⟩ : SessionUser).id ≠ [] ∧
    (jobSettingsQueryFn ⟨none, none⟩ (some ⟨utf16 "u1", utf16 "a@b.co"⟩) []).table
      = [(utf16 "u1", [("user_id", .string (utf16 "u1")),
            ("difficulty_level", .string (utf16 "medium")),
            ("question_count", .number (.finite 10)),
            ("preferences", .object [])])] :=
  ⟨by decide,
    ((jobSettingsQueryFn_default_row ⟨none, none⟩ ⟨utf16 "u1", utf16 "a@b.co"⟩ []
      (by decide)).1 rfl rfl rfl).2.1⟩

/-- C12: with no injected error, for every table and every user id, a second fetch right after a
first one returns the same row as the first, issues no insert and leaves the table as the first
fetch left it. -/
theorem jobSettingsQueryFn_idempotent (user : SessionUser) (table : SettingsTable)
    (hid : user.id ≠ []) :
    (∃ row : JsObject,
      (jobSettingsQueryFn ⟨none, none⟩ (some user) table).outcome = .resolved (some row) ∧
      (jobSettingsQueryFn ⟨none, none⟩ (some user)
        (jobSettingsQueryFn ⟨none, none⟩ (some user) table).table).outcome
          = .resolved (some row)) ∧
    (jobSettingsQueryFn ⟨none, none⟩ (some user)
        (jobSettingsQueryFn ⟨none, none⟩ (some user) table).table).table
      = (jobSettingsQueryFn ⟨none, none⟩ (some user) table).table ∧
    (jobSettingsQueryFn ⟨none, none⟩ (some user)
        (jobSettingsQueryFn ⟨none, none⟩ (some user) table).table).calls.filter
          RemoteCall.isInsert = [] := by
  have hu : sessionUserId (some user) = some user.id := by
    simp [sessionUserId, hid]
  cases hrow : table.lookup user.id with
  | some row =>
    have h1 : jobSettingsQueryFn ⟨none, none⟩ (some user) table
        = ⟨.resolved (some row), table, [.selectSingle "job_settings" "user_id" user.id]⟩ := by
      simp [jobSettingsQueryFn, hu, remoteSelectSingle, hrow]
    refine ⟨⟨row, ?_, ?_⟩, ?_, ?_⟩ <;> simp [h1, RemoteCall.isInsert]
  | none =>
    have h1 : jobSettingsQueryFn ⟨none, none⟩ (some user) table
        = ⟨.resolved (some (defaultSettings user.id)),
            (user.id, defaultSettings user.id) :: table,
            [.selectSingle "job_settings" "user_id" user.id,
             .insert "job_settings" (defaultSettings user.id)]⟩ := by
      simp [jobSettingsQueryFn, hu, remoteSelectSingle, remoteInsert, hrow]
    have h2 : jobSettingsQueryFn ⟨none, none⟩ (some user)
          ((user.id, defaultSettings user.id) :: table)
        = ⟨.resolved (some (defaultSettings user.id)),
            (user.id, defaultSettings user.id) :: table,
            [.selectSingle "job_settings" "user_id" user.id]⟩ := by
      simp [jobSettingsQueryFn, hu, remoteSelectSingle, List.lookup]
    refine ⟨⟨defaultSettings user.id, ?_, ?_⟩, ?_, ?_⟩ <;> simp [h1, h2, RemoteCall.isInsert]

/-- C12 at the user `u1` and the empty table: the second fetch leaves the table as the first
left it. -/
theorem jobSettingsQueryFn_idempotent_witness :
    (⟨utf16 "u1", utf16 "a@b.co"⟩ : SessionUser).id ≠ [] ∧
    (jobSettingsQueryFn ⟨none, none⟩ (some ⟨utf16 "u1", utf16 "a@b.co"⟩)
        (jobSettingsQueryFn ⟨none, none⟩ (some ⟨utf16 "u1", utf16 "a@b.co"⟩) []).table).table
      = (jobSettingsQueryFn ⟨none, none⟩ (some ⟨utf16 "u1", utf16 "a@b.co"⟩) []).table :=
  ⟨by decide,
    (jobSettingsQueryFn_idempotent ⟨utf16 "u1", utf16 "a@b.co"⟩ [] (by decide)).2.1⟩

/-- Reading the head of a property list. -/
theorem lookup_cons_eq (k a : String) (v : JsValue) (rest : JsObject) :
    List.lookup k ((a, v) :: rest) = if k = a then some v else List.lookup k rest := by
  by_cases h : k = a
  · have hb : (k == a) = true := by simpa using h
    simp [List.lookup, hb, h]
  · have hb : (k == a) = false := by simpa using h
    simp [List.lookup, hb, h]

/-- Reading a property after one assignment. -/
theorem lookup_objectSet (key : String) (value : JsValue) (k : String) :
    ∀ o : JsObject, (objectSet o key value).lookup k
      = if k = key then some value else o.lookup k
  | [] => by
    simp [objectSet, lookup_cons_eq]
  | (a, v) :: rest => by
    by_cases ha : a = key
    · subst ha
      by_cases h : k = a
      · simp [objectSet, lookup_cons_eq, h]
      · simp [objectSet, lookup_cons_eq, h]
    · by_cases hk : k = a
      · subst hk
        simp [objectSet, lookup_cons_eq, ha]
      · simp [objectSet, lookup_cons_eq, ha, hk, lookup_objectSet key value k rest]

/-- Reading a property of a spread: the source's value where the source has the key, else the
target's. -/
theorem lookup_objectSpread (k : String) :
    ∀ (source target : JsObject), (source.map Prod.fst).Nodup →
      (objectSpread target source).lookup k
        = match source.lookup k with
          | some v => some v
          | none => target.lookup k
  | [], target, _ => by simp [objectSpread]
  | (a, v) :: rest, target, hnd => by
    have hnd2 : (rest.map Prod.fst).Nodup := (List.nodup_cons.mp hnd).2
    have hnot : a ∉ rest.map Prod.fst := (List.nodup_cons.mp hnd).1
    have ih := lookup_objectSpread k rest (objectSet target a v) hnd2
    have hunfold : objectSpread target ((a, v) :: rest)
        = objectSpread (objectSet target a v) rest := rfl
    rw [hunfold, ih, lookup_objectSet, lookup_cons_eq]
    by_cases hk : k = a
    · subst hk
      have hrest : rest.lookup k = none := by
        rw [List.lookup_eq_none_iff]
        intro p hp
        rw [bne_iff_ne]
        intro e
        exact hnot (List.mem_map.mpr ⟨p, hp, e.symm⟩)
      simp [hrest]
    · simp [hk]


/-- C13: for every cached settings object `P` and every well-formed update payload `U`: after
`onMutate` the cache holds, at every key but `updated_at`, the value of `U` where `U` has the key
and the value of `P` elsewhere, and `updated_at` is the fresh time stamp; if the mutation fails,
`onError` puts exactly `P` back; if it succeeds, `onSuccess` stores exactly the server's row. -/
theorem optimistic_update_then_settle (now : JsString) (P U data : JsObject)
    (hU : (U.map Prod.fst).Nodup) :
    ∃ optimistic : JsObject,
      (onMutate now (some P) U).1 = some optimistic ∧
      (∀ key : String, key ≠ "updated_at" →
        JsValue.getField optimistic key
          = match U.lookup key with
            | some v => v
            | none => JsValue.getField P key) ∧
      JsValue.getField optimistic "updated_at" = .string now ∧
      onError (onMutate now (some P) U).1 (some (onMutate now (some P) U).2) = some P ∧
      onSuccess (onMutate now (some P) U).1 data = some data := by
  refine ⟨objectSet (objectSpread P U) "updated_at" (.string now), rfl, ?_, ?_, rfl, rfl⟩
  · intro key hkey
    unfold JsValue.getField
    rw [lookup_objectSet, if_neg hkey, lookup_objectSpread key U P hU]
    cases U.lookup key <;> rfl
  · unfold JsValue.getField
    rw [lookup_objectSet, if_pos rfl]

/-- C13 at `P = {difficulty_level: "medium", question_count: 10, updated_at: t0}` and
`U = {question_count: 12}`: the optimistic cache reads medium and 12, and after a failure the
cache is `P` again, with its first `updated_at`. -/
theorem optimistic_update_then_settle_witness :
    ([("question_count", JsValue.number (.finite 12))].map Prod.fst).Nodup ∧
    (∃ optimistic : JsObject,
      (onMutate (utf16 "2024-05-02T10:00:00.000Z")
        (some [("difficulty_level", .string (utf16 "medium")),
          ("question_count", .number (.finite 10)),
          ("updated_at", .string (utf16 "2024-05-01T09:00:00.000Z"))])
        [("question_count", .number (.finite 12))]).1 = some optimistic ∧
      (∀ key : String, key ≠ "updated_at" →
        JsValue.getField optimistic key
          = match [("question_count", JsValue.number (.finite 12))].lookup key with
            | some v => v
            | none => JsValue.getField [("difficulty_level", .string (utf16 "medium")),
                ("question_count", .number (.finite 10)),
                ("updated_at", .string (utf16 "2024-05-01T09:00:00.000Z"))] key) ∧
      JsValue.getField optimistic "updated_at"
        = .string (utf16 "2024-05-02T10:00:00.000Z") ∧
      onError (onMutate (utf16 "2024-05-02T10:00:00.000Z")
          (some [("difficulty_level", .string (utf16 "medium")),
            ("question_count", .number (.finite 10)),
            ("updated_at", .string (utf16 "2024-05-01T09:00:00.000Z"))])
          [("question_count", .number (.finite 12))]).1
        (some (onMutate (utf16 "2024-05-02T10:00:00.000Z")
          (some [("difficulty_level", .string (utf16 "medium")),
            ("question_count", .number (.finite 10)),
            ("updated_at", .string (utf16 "2024-05-01T09:00:00.000Z"))])
          [("question_count", .number (.finite 12))]).2)
        = some [("difficulty_level", .string (utf16 "medium")),
            ("question_count", .number (.finite 10)),
            ("updated_at", .string (utf16 "2024-05-01T09:00:00.000Z"))] ∧
      onSuccess (onMutate (utf16 "2024-05-02T10:00:00.000Z")
          (some [("difficulty_level", .string (utf16 "medium")),
            ("question_count", .number (.finite 10)),
            ("updated_at", .string (utf16 "2024-05-01T09:00:00.000Z"))])
          [("question_count", .number (.finite 12))]).1
        [("difficulty_level", .string (utf16 "medium")),
          ("question_count", .number (.finite 12))]
        = some [("difficulty_level", .string (utf16 "medium")),
          ("question_count", .number (.finite 12))]) ∧
    (onMutate (utf16 "2024-05-02T10:00:00.000Z")
        (some [("difficulty_level", .string (utf16 "medium")),
          ("question_count", .number (.finite 10)),
          ("updated_at", .string (utf16 "2024-05-01T09:00:00.000Z"))])
        [("question_count", .number (.finite 12))]).1
      = some [("difficulty_level", .string (utf16 "medium")),
          ("question_count", .number (.finite 12)),
          ("updated_at", .string (utf16 "2024-05-02T10:00:00.000Z"))] :=
  ⟨by decide,
    optimistic_update_then_settle (utf16 "2024-05-02T10:00:00.000Z")
      [("difficulty_level", .string (utf16 "medium")),
        ("question_count", .number (.finite 10)),
        ("updated_at", .string (utf16 "2024-05-01T09:00:00.000Z"))]
      [("question_count", .number (.finite 12))]
      [("difficulty_level", .string (utf16 "medium")),
        ("question_count", .number (.finite 12))]
      (by decide),
    rfl⟩

/-- C14 as stated fails: from the cached `{difficulty_level: "medium", question_count: 10}`, the
payload `{question_count: 99}` passed to `updateSettings` reaches, after `onMutate`, a cache whose
`question_count` is 99. -/
theorem onMutate_breaks_invariant :
    settingsInvariant [("difficulty_level", .string (utf16 "medium")),
      ("question_count", .number (.finite 10))] = true ∧
    (onMutate (utf16 "2024-05-02T10:00:00.000Z")
        (some [("difficulty_level", .string (utf16 "medium")),
          ("question_count", .number (.finite 10))])
        [("question_count", .number (.finite 99))]).1
      = some [("difficulty_level", .string (utf16 "medium")),
          ("question_count", .number (.finite 99)),
          ("updated_at", .string (utf16 "2024-05-02T10:00:00.000Z"))] ∧
    settingsInvariant [("difficulty_level", .string (utf16 "medium")),
      ("question_count", .number (.finite 99)),
      ("updated_at", .string (utf16 "2024-05-02T10:00:00.000Z"))] = false := by
  refine ⟨by decide, rfl, by decide⟩

/-- The optimistic object keeps the invariant when the payload is admissible. -/
theorem onMutate_keeps_invariant (now : JsString) (P U : JsObject)
    (hP : settingsInvariant P = true) (hU : (U.map Prod.fst).Nodup)
    (hadm : payloadAdmissible U = true) :
    settingsInvariant (objectSet (objectSpread P U) "updated_at" (.string now)) = true := by
  have hget : ∀ key : String, key ≠ "updated_at" →
      JsValue.getField (objectSet (objectSpread P U) "updated_at" (.string now)) key
        = match U.lookup key with
          | some v => v
          | none => JsValue.getField P key := by
    intro key hkey
    unfold JsValue.getField
    rw [lookup_objectSet, if_neg hkey, lookup_objectSpread key U P hU]
    cases U.lookup key <;> rfl
  simp only [settingsInvariant, payloadAdmissible, Bool.and_eq_true] at hP hadm ⊢
  rw [hget "question_count" (by decide), hget "difficulty_level" (by decide)]
  constructor
  · cases h : U.lookup "question_count" with
    | none => exact hP.1
    | some v =>
      have := hadm.1
      rw [h] at this
      exact this
  · cases h : U.lookup "difficulty_level" with
    | none => exact hP.2
    | some v =>
      have := hadm.2
      rw [h] at this
      exact this

/-- C14, amended: starting from a cached settings object that satisfies the invariant, and with
the server answering only such rows, every cache entry reached through `onMutate`, `onError` and
`onSuccess` with well-formed admissible payloads (their `question_count` and `difficulty_level`,
where present, are an integer in [6,15] and one of the three levels) is an object that satisfies
the invariant, in whatever order the callbacks of several mutations run; and for arbitrary
payloads, when the mutations run one after the other, every entry at which a mutation has settled
(after its `onError` rollback or its `onSuccess`) is an object that satisfies the invariant. -/
theorem cache_invariant (initial : JsObject) (hinit : settingsInvariant initial = true) :
    (∀ cache : Option JsObject, CacheReachable initial cache →
      ∃ settings : JsObject, cache = some settings ∧ settingsInvariant settings = true) ∧
    (∀ cache : Option JsObject, SettledReachable initial cache →
      ∃ settings : JsObject, cache = some settings ∧ settingsInvariant settings = true) := by
  constructor
  · intro cache hreach
    induction hreach with
    | init => exact ⟨initial, rfl, hinit⟩
    | mutate now cache updates _ hnd hadm ih =>
      obtain ⟨settings, rfl, hs⟩ := ih
      exact ⟨_, rfl, onMutate_keeps_invariant now settings updates hs hnd hadm⟩
    | error cache snapshot _ _ _ ih2 =>
      obtain ⟨settings, rfl, hs⟩ := ih2
      exact ⟨settings, rfl, hs⟩
    | success cache data _ hdata _ => exact ⟨data, rfl, hdata⟩
  · intro cache hreach
    induction hreach with
    | init => exact ⟨initial, rfl, hinit⟩
    | failed now cache updates _ ih =>
      obtain ⟨settings, rfl, hs⟩ := ih
      exact ⟨settings, rfl, hs⟩
    | succeeded now cache updates data _ hdata _ => exact ⟨data, rfl, hdata⟩

/-- C14 amended, at the cached `{difficulty_level: "medium", question_count: 10}`: the entry
reached by `onMutate` with the payload `{question_count: 12}` satisfies the invariant, and so does
the entry at which a mutation with the payload `{question_count: 99}` settles after its
rollback. -/
theorem cache_invariant_witness :
    settingsInvariant [("difficulty_level", .string (utf16 "medium")),
      ("question_count", .number (.finite 10))] = true ∧
    (∃ settings : JsObject,
      (onMutate (utf16 "2024-05-02T10:00:00.000Z")
        (some [("difficulty_level", .string (utf16 "medium")),
          ("question_count", .number (.finite 10))])
        [("question_count", .number (.finite 12))]).1 = some settings ∧
      settingsInvariant settings = true) ∧
    ∃ settings : JsObject,
      onError
        (onMutate (utf16 "2024-05-02T10:00:00.000Z")
          (some [("difficulty_level", .string (utf16 "medium")),
            ("question_count", .number (.finite 10))])
          [("question_count", .number (.finite 99))]).1
        (some (onMutate (utf16 "2024-05-02T10:00:00.000Z")
          (some [("difficulty_level", .string (utf16 "medium")),
            ("question_count", .number (.finite 10))])
          [("question_count", .number (.finite 99))]).2) = some settings ∧
      settingsInvariant settings = true :=
  ⟨by decide,
    (cache_invariant [("difficulty_level", .string (utf16 "medium")),
        ("question_count", .number (.finite 10))] (by decide)).1 _
      (CacheReachable.mutate (utf16 "2024-05-02T10:00:00.000Z") _
        [("question_count", .number (.finite 12))] CacheReachable.init (by decide)
        (by decide)),
    (cache_invariant [("difficulty_level", .string (utf16 "medium")),
        ("question_count", .number (.finite 10))] (by decide)).2 _
      (SettledReachable.failed (utf16 "2024-05-02T10:00:00.000Z") _
        [("question_count", .number (.finite 99))] SettledReachable.init)⟩

/-- Two mutations that overlap, from the cached `{difficulty_level: "medium", question_count: 10}`:
`onMutate` of the payload `{question_count: 99}`, then `onMutate` of `{question_count: 12}`, then
the `onError` of the first and the `onError` of the second, each with the context of its own
`onMutate`.  The second rollback restores the snapshot that the second `onMutate` took, which is
the optimistic entry of the first: the cache ends with `question_count` 99. -/
theorem overlapping_rollbacks_restore_optimistic_entry :
    onError
        (onError
          (onMutate (utf16 "2024-05-02T10:00:01.000Z")
            (onMutate (utf16 "2024-05-02T10:00:00.000Z")
              (some [("difficulty_level", .string (utf16 "medium")),
                ("question_count", .number (.finite 10))])
              [("question_count", .number (.finite 99))]).1
            [("question_count", .number (.finite 12))]).1
          (some (onMutate (utf16 "2024-05-02T10:00:00.000Z")
            (some [("difficulty_level", .string (utf16 "medium")),
              ("question_count", .number (.finite 10))])
            [("question_count", .number (.finite 99))]).2))
        (some (onMutate (utf16 "2024-05-02T10:00:01.000Z")
          (onMutate (utf16 "2024-05-02T10:00:00.000Z")
            (some [("difficulty_level", .string (utf16 "medium")),
              ("question_count", .number (.finite 10))])
            [("question_count", .number (.finite 99))]).1
          [("question_count", .number (.finite 12))]).2)
      = some [("difficulty_level", .string (utf16 "medium")),
          ("question_count", .number (.finite 99)),
          ("updated_at", .string (utf16 "2024-05-02T10:00:00.000Z"))] ∧
    settingsInvariant [("difficulty_level", .string (utf16 "medium")),
      ("question_count", .number (.finite 99)),
      ("updated_at", .string (utf16 "2024-05-02T10:00:00.000Z"))] = false :=
  ⟨rfl, by decide⟩


/-- C15: for `updateSettings`, `updateProfile`, `changePassword` and the resume upload, every input
that the mutation's validation rejects makes the mutation fail with an empty sequence of calls on
the remote service, whoever the user is and whatever the remote service would answer. -/
theorem rejected_input_reaches_no_remote_call (range : QuestionCountRange)
    (toStr : JsValue → JsString) (nowIso : JsString) (nowMs : Nat) (MAX_RESUME_SIZE : Nat)
    (RESUME_FILE_TYPES : List JsString) (user : Option SessionUser)
    (settings profile : Option JsObject) (rs : UpdateSettingsResponses)
    (rp : UpdateProfileResponses) (rc : ChangePasswordResponses)
    (ru : UploadMutationResponses) :
    (∀ updates : JsValue, (jobSettingsSchemaPartialSafeParse range updates).isSuccess = false →
      (updateSettingsMutationFn range toStr nowIso user settings rs updates).calls = [] ∧
      ∃ e, (updateSettingsMutationFn range toStr nowIso user settings rs updates).outcome
        = .rejected e) ∧
    (∀ updates : JsValue, (profileUpdateSchemaSafeParse updates).isSuccess = false →
      (updateProfileMutationFn toStr nowIso user profile rp updates).calls = [] ∧
      ∃ e, (updateProfileMutationFn toStr nowIso user profile rp updates).outcome
        = .rejected e) ∧
    (∀ passwordData : JsValue, (passwordChangeSchemaSafeParse passwordData).isSuccess = false →
      (changePasswordMutationFn nowIso user rc passwordData).calls = [] ∧
      ∃ e, (changePasswordMutationFn nowIso user rc passwordData).outcome = .rejected e) ∧
    (∀ file : ResumeFile,
      (validateResumeFile MAX_RESUME_SIZE RESUME_FILE_TYPES file).isValid = false →
      (uploadMutationFn MAX_RESUME_SIZE RESUME_FILE_TYPES nowMs user ru file).calls = [] ∧
      ∃ e, (uploadMutationFn MAX_RESUME_SIZE RESUME_FILE_TYPES nowMs user ru file).outcome
        = .rejected e) := by
  refine ⟨?_, ?_, ?_, ?_⟩
  · intro updates h
    unfold updateSettingsMutationFn
    cases sessionUserId user with
    | none => exact ⟨rfl, _, rfl⟩
    | some userId =>
      cases hp : jobSettingsSchemaPartialSafeParse range updates with
      | success v => rw [hp] at h; exact absurd h (by simp [SafeParseResult.isSuccess])
      | failure issues => exact ⟨rfl, _, rfl⟩
  · intro updates h
    unfold updateProfileMutationFn
    cases sessionUserId user with
    | none => exact ⟨rfl, _, rfl⟩
    | some userId =>
      cases hp : profileUpdateSchemaSafeParse updates with
      | success v => rw [hp] at h; exact absurd h (by simp [SafeParseResult.isSuccess])
      | failure issues => exact ⟨rfl, _, rfl⟩
  · intro passwordData h
    unfold changePasswordMutationFn
    cases user with
    | none => exact ⟨rfl, _, rfl⟩
    | some u =>
      by_cases hid : u.id = []
      · simp [hid]
      · simp only [hid, if_false]
        cases hp : passwordChangeSchemaSafeParse passwordData with
        | success v => rw [hp] at h; exact absurd h (by simp [SafeParseResult.isSuccess])
        | failure issues => exact ⟨rfl, _, rfl⟩
  · intro file _
    unfold uploadMutationFn
    cases sessionUserId user with
    | none => exact ⟨rfl, _, rfl⟩
    | some userId => exact ⟨rfl, _, rfl⟩

/-- C15 at the settings payload `{question_count: 99}`: the validation rejects it and the
mutation of the user `u1` issues no call. -/
theorem rejected_input_reaches_no_remote_call_witness :
    (jobSettingsSchemaPartialSafeParse QUESTION_COUNT_RANGE
      (.object [("question_count", .number (.finite 99))])).isSuccess = false ∧
    (updateSettingsMutationFn QUESTION_COUNT_RANGE (fun _ => []) (utf16 "2024-05-02T10:00:00.000Z")
        (some ⟨utf16 "u1", utf16 "a@b.co"⟩) none ⟨.ok []⟩
        (.object [("question_count", .number (.finite 99))])).calls = [] :=
  ⟨by decide,
    ((rejected_input_reaches_no_remote_call QUESTION_COUNT_RANGE (fun _ => [])
      (utf16 "2024-05-02T10:00:00.000Z") 0 0 [] (some ⟨utf16 "u1", utf16 "a@b.co"⟩) none none
      ⟨.ok []⟩ ⟨.ok [], none⟩ ⟨none, none⟩ ⟨none, .ok []⟩).1
      (.object [("question_count", .number (.finite 99))]) (by decide)).1⟩

/-- C16 as stated fails: the user `u1`, whose cached profile is `Ann B`, `a@b.co`, submits the
same name and email.  The input is accepted and `updateProfile` succeeds after writing the row,
and it issues no `log_activity` call: the `changes` string is empty and the call is guarded by
`if (changes)`. -/
theorem updateProfile_unchanged_issues_no_log :
    profileUpdateSchemaSafeParse (profileCandidate (utf16 "Ann B") (utf16 "a@b.co"))
      = .success ⟨utf16 "Ann B", utf16 "a@b.co"⟩ ∧
    (updateProfileMutationFn (fun _ => []) (utf16 "2024-05-02T10:00:00.000Z")
        (some ⟨utf16 "u1", utf16 "a@b.co"⟩)
        (some [("name", .string (utf16 "Ann B")), ("email", .string (utf16 "a@b.co"))])
        ⟨.ok [("name", .string (utf16 "Ann B")), ("email", .string (utf16 "a@b.co"))], none⟩
        (profileCandidate (utf16 "Ann B") (utf16 "a@b.co"))).outcome
      = .resolved [("name", .string (utf16 "Ann B")), ("email", .string (utf16 "a@b.co"))] ∧
    (updateProfileMutationFn (fun _ => []) (utf16 "2024-05-02T10:00:00.000Z")
        (some ⟨utf16 "u1", utf16 "a@b.co"⟩)
        (some [("name", .string (utf16 "Ann B")), ("email", .string (utf16 "a@b.co"))])
        ⟨.ok [("name", .string (utf16 "Ann B")), ("email", .string (utf16 "a@b.co"))], none⟩
        (profileCandidate (utf16 "Ann B") (utf16 "a@b.co"))).calls
      = [.update "profiles"
          [("name", .string (utf16 "Ann B")), ("email", .string (utf16 "a@b.co")),
           ("updated_at", .string (utf16 "2024-05-02T10:00:00.000Z"))] "id" (utf16 "u1")] ∧
    logActivityCount
      (updateProfileMutationFn (fun _ => []) (utf16 "2024-05-02T10:00:00.000Z")
        (some ⟨utf16 "u1", utf16 "a@b.co"⟩)
        (some [("name", .string (utf16 "Ann B")), ("email", .string (utf16 "a@b.co"))])
        ⟨.ok [("name", .string (utf16 "Ann B")), ("email", .string (utf16 "a@b.co"))], none⟩
        (profileCandidate (utf16 "Ann B") (utf16 "a@b.co"))).calls = 0 :=
  ⟨rfl, rfl, rfl, rfl⟩

/-- The `changes` string of the profile mutation in its four cases. -/
theorem profileChanges_cases (toStr : JsValue → JsString) (profile : Option JsObject)
    (name email : JsString) :
    profileChanges toStr profile [("name", name), ("email", email)]
      = if strictEqualsString name (optionalField profile "name") = true then
          if strictEqualsString email (optionalField profile "email") = true then []
          else utf16 "email" ++ utf16 ": " ++ toStr (optionalField profile "email")
            ++ utf16 " → " ++ email
        else
          if strictEqualsString email (optionalField profile "email") = true then
            utf16 "name" ++ utf16 ": " ++ toStr (optionalField profile "name")
              ++ utf16 " → " ++ name
          else
            utf16 "name" ++ utf16 ": " ++ toStr (optionalField profile "name")
              ++ utf16 " → " ++ name ++ utf16 ", "
              ++ (utf16 "email" ++ utf16 ": " ++ toStr (optionalField profile "email")
                ++ utf16 " → " ++ email) := by
  have hopt : ∀ key : String,
      (match profile with
        | some p => JsValue.getField p key
        | none => JsValue.undefined) = optionalField profile key := by
    intro key
    cases profile <;> rfl
  unfold profileChanges joinStrings
  simp only [hopt]
  by_cases hn : strictEqualsString name (optionalField profile "name") = true <;>
    by_cases he : strictEqualsString email (optionalField profile "email") = true <;>
    simp [List.filter, hn, he, List.intercalate, List.intersperse]

/-- The `changes` string is empty exactly when neither field changed. -/
theorem profileChanges_eq_nil_iff (toStr : JsValue → JsString) (profile : Option JsObject)
    (name email : JsString) :
    profileChanges toStr profile [("name", name), ("email", email)] = []
      ↔ strictEqualsString name (optionalField profile "name") = true
        ∧ strictEqualsString email (optionalField profile "email") = true := by
  have hname : utf16 "name" = 110 :: [97, 109, 101] := by decide
  have hemail : utf16 "email" = 101 :: [109, 97, 105, 108] := by decide
  rw [profileChanges_cases]
  by_cases hn : strictEqualsString name (optionalField profile "name") = true <;>
    by_cases he : strictEqualsString email (optionalField profile "email") = true <;>
    simp [hn, he, hname, hemail]

/-- C16, amended: a successful `updateSettings`, `changePassword` or resume delete of the hooks
issues exactly one `log_activity` call; a successful `updateProfile` issues exactly one when the
validated name or email is not strictly equal to the cached profile's, and none when both are
equal. -/
theorem log_activity_per_action (range : QuestionCountRange) (toStr : JsValue → JsString)
    (nowIso : JsString) (user : Option SessionUser)
    (settings profile resume : Option JsObject) (rs : UpdateSettingsResponses)
    (rp : UpdateProfileResponses) (rc : ChangePasswordResponses)
    (rd : DeleteMutationResponses) :
    (∀ updates : JsValue,
      (∃ d, (updateSettingsMutationFn range toStr nowIso user settings rs updates).outcome
        = .resolved d) →
      logActivityCount
        (updateSettingsMutationFn range toStr nowIso user settings rs updates).calls = 1) ∧
    (∀ (updates : JsValue) (validated : ProfileUpdate),
      profileUpdateSchemaSafeParse updates = .success validated →
      (∃ d, (updateProfileMutationFn toStr nowIso user profile rp updates).outcome
        = .resolved d) →
      logActivityCount (updateProfileMutationFn toStr nowIso user profile rp updates).calls
        = if strictEqualsString validated.name (optionalField profile "name") = true
            ∧ strictEqualsString validated.email (optionalField profile "email") = true
          then 0 else 1) ∧
    (∀ passwordData : JsValue,
      (∃ d, (changePasswordMutationFn nowIso user rc passwordData).outcome = .resolved d) →
      logActivityCount (changePasswordMutationFn nowIso user rc passwordData).calls = 1) ∧
    ((∃ d, (deleteMutationFn toStr user resume rd).outcome = .resolved d) →
      logActivityCount (deleteMutationFn toStr user resume rd).calls = 1) := by
  refine ⟨?_, ?_, ?_, ?_⟩
  · intro updates
    unfold updateSettingsMutationFn
    cases sessionUserId user with
    | none => simp
    | some userId =>
      cases jobSettingsSchemaPartialSafeParse range updates with
      | failure issues => simp
      | success v =>
        cases rs.update with
        | error e => simp
        | ok data => simp [logActivityCount, RemoteCall.isLogActivity]
  · intro updates validated hparse
    unfold updateProfileMutationFn
    cases sessionUserId user with
    | none => simp
    | some userId =>
      rw [hparse]
      have hlog : ∀ (data : JsObject) (callsSoFar : List RemoteCall),
          logActivityCount callsSoFar = 0 →
          logActivityCount
            (updateProfileLogAndReturn toStr profile validated data callsSoFar).calls
          = if strictEqualsString validated.name (optionalField profile "name") = true
              ∧ strictEqualsString validated.email (optionalField profile "email") = true
            then 0 else 1 := by
        intro data callsSoFar h0
        have hiff := profileChanges_eq_nil_iff toStr profile validated.name validated.email
        unfold updateProfileLogAndReturn
        by_cases hc : profileChanges toStr profile
            [("name", validated.name), ("email", validated.email)] = []
        · simp only [hc, ne_eq, not_true_eq_false, if_false, if_pos (hiff.mp hc)]
          exact h0
        · have hnot := fun h => hc (hiff.mpr h)
          simp only [hc, ne_eq, not_false_eq_true, if_true, if_neg hnot]
          unfold logActivityCount at h0 ⊢
          rw [List.filter_append, List.length_append, h0]
          simp [RemoteCall.isLogActivity]
      cases rp.update with
      | error e => simp
      | ok data =>
        by_cases hne : strictEqualsString validated.email (optionalField profile "email") = true
        · intro _
          have h := hlog data
            [RemoteCall.update "profiles"
              [("name", .string validated.name), ("email", .string validated.email),
               ("updated_at", .string nowIso)] "id" userId]
            (by simp [logActivityCount, RemoteCall.isLogActivity])
          simpa [hne] using h
        · cases hauth : rp.authUpdate with
          | some e => simp [hne]
          | none =>
            intro _
            have h := hlog data
              [RemoteCall.update "profiles"
                [("name", .string validated.name), ("email", .string validated.email),
                 ("updated_at", .string nowIso)] "id" userId,
               RemoteCall.authUpdateUser [("email", .string validated.email)]]
              (by simp [logActivityCount, RemoteCall.isLogActivity])
            simpa [hne] using h
  · intro passwordData
    unfold changePasswordMutationFn
    cases user with
    | none => simp
    | some u =>
      by_cases hid : u.id = []
      · simp [hid]
      · simp only [hid, if_false]
        cases passwordChangeSchemaSafeParse passwordData with
        | failure issues => simp
        | success v =>
          cases rc.verifyError with
          | some e => simp
          | none =>
            cases rc.updateError with
            | some e => simp
            | none => simp [logActivityCount, RemoteCall.isLogActivity]
  · unfold deleteMutationFn
    cases sessionUserId user with
    | none => simp
    | some userId =>
      cases resume with
      | none => simp
      | some r =>
        cases rd.dbError with
        | some e => simp
        | none => simp [logActivityCount, RemoteCall.isLogActivity]

/-- C16 amended, at a successful profile update of the user `u1` that changes the name only:
exactly one `log_activity` call. -/
theorem log_activity_per_action_witness :
    profileUpdateSchemaSafeParse (profileCandidate (utf16 "Ann B") (utf16 "a@b.co"))
      = .success ⟨utf16 "Ann B", utf16 "a@b.co"⟩ ∧
    (∃ d, (updateProfileMutationFn (fun _ => utf16 "Ann") (utf16 "2024-05-02T10:00:00.000Z")
        (some ⟨utf16 "u1", utf16 "a@b.co"⟩)
        (some [("name", .string (utf16 "Ann")), ("email", .string (utf16 "a@b.co"))])
        ⟨.ok [], none⟩ (profileCandidate (utf16 "Ann B") (utf16 "a@b.co"))).outcome
      = .resolved d) ∧
    logActivityCount (updateProfileMutationFn (fun _ => utf16 "Ann")
        (utf16 "2024-05-02T10:00:00.000Z") (some ⟨utf16 "u1", utf16 "a@b.co"⟩)
        (some [("name", .string (utf16 "Ann")), ("email", .string (utf16 "a@b.co"))])
        ⟨.ok [], none⟩ (profileCandidate (utf16 "Ann B") (utf16 "a@b.co"))).calls
      = if strictEqualsString (utf16 "Ann B")
            (optionalField (some [("name", .string (utf16 "Ann")),
              ("email", .string (utf16 "a@b.co"))]) "name") = true
          ∧ strictEqualsString (utf16 "a@b.co")
            (optionalField (some [("name", .string (utf16 "Ann")),
              ("email", .string (utf16 "a@b.co"))]) "email") = true
        then 0 else 1 :=
  ⟨rfl, ⟨[], rfl⟩,
    (log_activity_per_action QUESTION_COUNT_RANGE (fun _ => utf16 "Ann")
      (utf16 "2024-05-02T10:00:00.000Z") (some ⟨utf16 "u1", utf16 "a@b.co"⟩) none
      (some [("name", .string (utf16 "Ann")), ("email", .string (utf16 "a@b.co"))]) none
      ⟨.ok []⟩ ⟨.ok [], none⟩ ⟨none, none⟩ ⟨none, none⟩).2.1
      (profileCandidate (utf16 "Ann B") (utf16 "a@b.co")) ⟨utf16 "Ann B", utf16 "a@b.co"⟩
      rfl ⟨[], rfl⟩⟩


/-- The page-level save `handleSaveProfile` of `src/pages/Profile.jsx`, at the user `u1` and the
name `Ann` with the update answered without error: the row is written and the success toast is
shown, and no `log_activity` call is issued (the handler holds no `rpc` call, whereas the hook's
`updateProfile` logs a change of the name). -/
theorem handleSaveProfile_issues_no_log :
    (handleSaveProfile false (some ⟨utf16 "u1"⟩) (utf16 "Ann")).any PageEffect.isSuccessToast
      = true ∧
    pageRemoteCalls (handleSaveProfile false (some ⟨utf16 "u1"⟩) (utf16 "Ann"))
      = [.update "profiles" [("name", .string (utf16 "Ann"))] "id" (utf16 "u1")] ∧
    logActivityCount
      (pageRemoteCalls (handleSaveProfile false (some ⟨utf16 "u1"⟩) (utf16 "Ann"))) = 0 :=
  ⟨by decide, rfl, rfl⟩

/-- C17 fails on the code: with cached settings `{difficulty_level: "medium", question_count: 10}`
and the validated payload `{difficulty_level: "medium", question_count: 12}`, the description of
the one activity-log entry also lists the unchanged `difficulty_level`, and its pairs are written
with the three characters `â†’` of the source text instead of an arrow. -/
theorem updateSettings_description_lists_every_key (toStr : JsValue → JsString) :
    logDescriptions
      (updateSettingsMutationFn QUESTION_COUNT_RANGE toStr (utf16 "2024-05-02T10:00:00.000Z")
        (some ⟨utf16 "u1", utf16 "a@b.co"⟩)
        (some [("difficulty_level", .string (utf16 "medium")),
          ("question_count", .number (.finite 10))])
        ⟨.ok [("difficulty_level", .string (utf16 "medium")),
          ("question_count", .number (.finite 12))]⟩
        (.object [("difficulty_level", .string (utf16 "medium")),
          ("question_count", .number (.finite 12))])).calls
      = [.string (utf16 "Updated job settings: "
          ++ (utf16 "difficulty_level" ++ utf16 ": " ++ toStr (.string (utf16 "medium"))
            ++ utf16 " â†’ " ++ toStr (.string (utf16 "medium")) ++ utf16 ", "
            ++ (utf16 "question_count" ++ utf16 ": " ++ toStr (.number (.finite 10))
              ++ utf16 " â†’ " ++ toStr (.number (.finite 12)))))] := by
  have hp : jobSettingsSchemaPartialSafeParse QUESTION_COUNT_RANGE
      (.object [("difficulty_level", .string (utf16 "medium")),
        ("question_count", .number (.finite 12))])
      = .success ⟨some (utf16 "medium"), some (.finite 12), none⟩ := rfl
  have hu : sessionUserId (some ⟨utf16 "u1", utf16 "a@b.co"⟩) = some (utf16 "u1") := rfl
  have hkeys : validatedSettingsObject
      (.object [("difficulty_level", .string (utf16 "medium")),
        ("question_count", .number (.finite 12))])
      ⟨some (utf16 "medium"), some (.finite 12), none⟩
      = [("difficulty_level", .string (utf16 "medium")),
          ("question_count", .number (.finite 12))] := rfl
  simp only [updateSettingsMutationFn, hu, hp, hkeys]
  simp [logDescriptions, joinStrings, List.intercalate, List.intersperse, optionalField,
    JsValue.getField, List.lookup]

/-- The log part of the profile mutation adds one description when `changes` is not empty, and
none otherwise. -/
theorem logDescriptions_updateProfileLogAndReturn (toStr : JsValue → JsString)
    (profile : Option JsObject) (validated : ProfileUpdate) (data : JsObject)
    (callsSoFar : List RemoteCall) (h0 : logDescriptions callsSoFar = []) :
    logDescriptions (updateProfileLogAndReturn toStr profile validated data callsSoFar).calls
      = if profileChanges toStr profile
            [("name", validated.name), ("email", validated.email)] = [] then []
        else [.string (utf16 "Updated profile: " ++ profileChanges toStr profile
            [("name", validated.name), ("email", validated.email)])] := by
  unfold updateProfileLogAndReturn
  by_cases hc : profileChanges toStr profile
      [("name", validated.name), ("email", validated.email)] = []
  · simp only [hc, ne_eq, not_true_eq_false, if_false, if_true]
    exact h0
  · simp only [hc, ne_eq, not_false_eq_true, if_true, if_false]
    unfold logDescriptions at h0 ⊢
    rw [List.filterMap_append, h0]
    simp [JsValue.getField, List.lookup]

/-- The calls of a successful profile mutation, up to the log part. -/
theorem updateProfileMutationFn_resolved (toStr : JsValue → JsString) (nowIso : JsString)
    (user : Option SessionUser) (profile : Option JsObject) (rp : UpdateProfileResponses)
    (updates : JsValue) (validated : ProfileUpdate)
    (hparse : profileUpdateSchemaSafeParse updates = .success validated)
    (hres : ∃ d, (updateProfileMutationFn toStr nowIso user profile rp updates).outcome
      = .resolved d) :
    ∃ (data : JsObject) (callsSoFar : List RemoteCall),
      logDescriptions callsSoFar = [] ∧
      updateProfileMutationFn toStr nowIso user profile rp updates
        = updateProfileLogAndReturn toStr profile validated data callsSoFar := by
  unfold updateProfileMutationFn at hres ⊢
  cases hu : sessionUserId user with
  | none => simp [hu] at hres
  | some userId =>
    simp only [hu, hparse] at hres ⊢
    cases hupd : rp.update with
    | error e => simp [hupd] at hres
    | ok data =>
      simp only [hupd] at hres ⊢
      by_cases hne : strictEqualsString validated.email (optionalField profile "email") = true
      · simp only [hne, Bool.not_true, Bool.false_eq_true, if_false]
        exact ⟨data, _, by simp [logDescriptions], rfl⟩
      · simp only [hne, Bool.not_eq_true, Bool.not_false, if_true] at hres ⊢
        cases hauth : rp.authUpdate with
        | some e => simp [hne, hauth] at hres
        | none =>
          simp only [hne, Bool.not_false, if_true]
          exact ⟨data, _, by simp [logDescriptions], rfl⟩

/-- C18: for every successful profile update with a cached profile `P` and validated payload
`V`, the activity-log descriptions are: none when both `name` and `email` of `V` are strictly equal
to those of `P`; otherwise the one description `Updated profile: ` followed by `name: P.name →
V.name` and `email: P.email → V.email`, each present exactly when that field differs, in this
order and joined by `, `. -/
theorem updateProfile_description_lists_changes (toStr : JsValue → JsString)
    (nowIso : JsString) (user : Option SessionUser) (P : JsObject)
    (rp : UpdateProfileResponses) (updates : JsValue) (V : ProfileUpdate)
    (hparse : profileUpdateSchemaSafeParse updates = .success V)
    (hres : ∃ d, (updateProfileMutationFn toStr nowIso user (some P) rp updates).outcome
      = .resolved d) :
    logDescriptions (updateProfileMutationFn toStr nowIso user (some P) rp updates).calls
      = if strictEqualsString V.name (JsValue.getField P "name") = true then
          if strictEqualsString V.email (JsValue.getField P "email") = true then []
          else [.string (utf16 "Updated profile: "
            ++ (utf16 "email" ++ utf16 ": " ++ toStr (JsValue.getField P "email")
              ++ utf16 " → " ++ V.email))]
        else
          if strictEqualsString V.email (JsValue.getField P "email") = true then
            [.string (utf16 "Updated profile: "
              ++ (utf16 "name" ++ utf16 ": " ++ toStr (JsValue.getField P "name")
                ++ utf16 " → " ++ V.name))]
          else
            [.string (utf16 "Updated profile: "
              ++ (utf16 "name" ++ utf16 ": " ++ toStr (JsValue.getField P "name")
                ++ utf16 " → " ++ V.name ++ utf16 ", "
                ++ (utf16 "email" ++ utf16 ": " ++ toStr (JsValue.getField P "email")
                  ++ utf16 " → " ++ V.email)))] := by
  obtain ⟨data, callsSoFar, h0, hrun⟩ :=
    updateProfileMutationFn_resolved toStr nowIso user (some P) rp updates V hparse hres
  have hiff := profileChanges_eq_nil_iff toStr (some P) V.name V.email
  have hcases := profileChanges_cases toStr (some P) V.name V.email
  have hopt : ∀ key : String, optionalField (some P) key = JsValue.getField P key :=
    fun _ => rfl
  simp only [hopt] at hiff hcases
  rw [hrun, logDescriptions_updateProfileLogAndReturn toStr (some P) V data callsSoFar h0]
  by_cases hn : strictEqualsString V.name (JsValue.getField P "name") = true <;>
    by_cases he : strictEqualsString V.email (JsValue.getField P "email") = true
  · have hnil := hiff.mpr ⟨hn, he⟩
    simp only [hnil, if_true, hn, he]
  · have hnn : ¬ profileChanges toStr (some P) [("name", V.name), ("email", V.email)] = [] :=
      fun h => he (hiff.mp h).2
    rw [if_neg hnn, hcases]
    simp [hn, he]
  · have hnn : ¬ profileChanges toStr (some P) [("name", V.name), ("email", V.email)] = [] :=
      fun h => hn (hiff.mp h).1
    rw [if_neg hnn, hcases]
    simp [hn, he]
  · have hnn : ¬ profileChanges toStr (some P) [("name", V.name), ("email", V.email)] = [] :=
      fun h => hn (hiff.mp h).1
    rw [if_neg hnn, hcases]
    simp [hn, he]

/-- C18 at the cached profile `{name: "Ann", email: "a@b.co"}` and the payload
`{name: "Ann B", email: "a@b.co"}`: the description lists the name only. -/
theorem updateProfile_description_lists_changes_witness :
    profileUpdateSchemaSafeParse (profileCandidate (utf16 "Ann B") (utf16 "a@b.co"))
      = .success ⟨utf16 "Ann B", utf16 "a@b.co"⟩ ∧
    (∃ d, (updateProfileMutationFn
        (fun v => match v with
          | .string s => s
          | _ => utf16 "undefined")
        (utf16 "2024-05-02T10:00:00.000Z") (some ⟨utf16 "u1", utf16 "a@b.co"⟩)
        (some [("name", .string (utf16 "Ann")), ("email", .string (utf16 "a@b.co"))])
        ⟨.ok [], none⟩ (profileCandidate (utf16 "Ann B") (utf16 "a@b.co"))).outcome
      = .resolved d) ∧
    logDescriptions (updateProfileMutationFn
        (fun v => match v with
          | .string s => s
          | _ => utf16 "undefined")
        (utf16 "2024-05-02T10:00:00.000Z") (some ⟨utf16 "u1", utf16 "a@b.co"⟩)
        (some [("name", .string (utf16 "Ann")), ("email", .string (utf16 "a@b.co"))])
        ⟨.ok [], none⟩ (profileCandidate (utf16 "Ann B") (utf16 "a@b.co"))).calls
      = [.string (utf16 "Updated profile: name: Ann → Ann B")] :=
  ⟨rfl, ⟨[], rfl⟩,
    (updateProfile_description_lists_changes
      (fun v => match v with
        | .string s => s
        | _ => utf16 "undefined")
      (utf16 "2024-05-02T10:00:00.000Z") (some ⟨utf16 "u1", utf16 "a@b.co"⟩)
      [("name", .string (utf16 "Ann")), ("email", .string (utf16 "a@b.co"))]
      ⟨.ok [], none⟩ (profileCandidate (utf16 "Ann B") (utf16 "a@b.co"))
      ⟨utf16 "Ann B", utf16 "a@b.co"⟩ rfl ⟨[], rfl⟩).trans rfl⟩

/-- C19: in `updateProfile`, once the profile row has been written, the auth provider's email is
updated exactly when the validated email is not strictly equal to the cached profile's email;
and whenever that auth update is answered with an error, the calls are the profile write, the
auth update and exactly one further profile write that sets `email` to the cached email, the
mutation fails with `Email update failed: ` followed by the backend message, and no
`log_activity` call is made. -/
theorem updateProfile_email_rollback (toStr : JsValue → JsString) (nowIso : JsString)
    (user : SessionUser) (profile : Option JsObject) (rp : UpdateProfileResponses)
    (updates : JsValue) (V : ProfileUpdate) (data : JsObject) (hid : user.id ≠ [])
    (hparse : profileUpdateSchemaSafeParse updates = .success V)
    (hwritten : rp.update = .ok data) :
    ((updateProfileMutationFn toStr nowIso (some user) profile rp updates).calls.any
        RemoteCall.isAuthUpdateUser = true
      ↔ strictEqualsString V.email (optionalField profile "email") = false) ∧
    (∀ authError : BackendError,
      strictEqualsString V.email (optionalField profile "email") = false →
      rp.authUpdate = some authError →
      (updateProfileMutationFn toStr nowIso (some user) profile rp updates).outcome
        = .rejected (.error (utf16 "Email update failed: " ++ authError.message)) ∧
      (updateProfileMutationFn toStr nowIso (some user) profile rp updates).calls
        = [.update "profiles"
            [("name", .string V.name), ("email", .string V.email),
             ("updated_at", .string nowIso)] "id" user.id,
           .authUpdateUser [("email", .string V.email)],
           .update "profiles" [("email", optionalField profile "email")] "id" user.id] ∧
      logActivityCount
        (updateProfileMutationFn toStr nowIso (some user) profile rp updates).calls = 0) := by
  have hu : sessionUserId (some user) = some user.id := by
    simp [sessionUserId, hid]
  have hany : ∀ (callsSoFar : List RemoteCall),
      (updateProfileLogAndReturn toStr profile V data callsSoFar).calls.any
          RemoteCall.isAuthUpdateUser
        = callsSoFar.any RemoteCall.isAuthUpdateUser := by
    intro callsSoFar
    unfold updateProfileLogAndReturn
    by_cases hc : profileChanges toStr profile [("name", V.name), ("email", V.email)] = []
    · simp [hc]
    · simp [hc, RemoteCall.isAuthUpdateUser]
  constructor
  · unfold updateProfileMutationFn
    simp only [hu, hparse, hwritten]
    cases hne : strictEqualsString V.email (optionalField profile "email") with
    | true =>
      simp only [Bool.not_true, Bool.false_eq_true, if_false, hany]
      simp [RemoteCall.isAuthUpdateUser]
    | false =>
      simp only [Bool.not_false, if_true]
      cases rp.authUpdate with
      | some e => simp [RemoteCall.isAuthUpdateUser]
      | none =>
        simp only [hany]
        simp [RemoteCall.isAuthUpdateUser]
  · intro authError hne hauth
    unfold updateProfileMutationFn
    simp only [hu, hparse, hwritten, hne, hauth, Bool.not_false, if_true]
    simp [logActivityCount, RemoteCall.isLogActivity]

/-- C19 at the user `u1`, the cached email `a@b.co` and the payload email `c@d.co`, with the auth
update answered by an error: the mutation fails with that error's message after the rollback
write. -/
theorem updateProfile_email_rollback_witness :
    (⟨utf16 "u1", utf16 "a@b.co"⟩ : SessionUser).id ≠ [] ∧
    profileUpdateSchemaSafeParse (profileCandidate (utf16 "Ann") (utf16 "c@d.co"))
      = .success ⟨utf16 "Ann", utf16 "c@d.co"⟩ ∧
    (updateProfileMutationFn (fun _ => []) (utf16 "2024-05-02T10:00:00.000Z")
        (some ⟨utf16 "u1", utf16 "a@b.co"⟩)
        (some [("name", .string (utf16 "Ann")), ("email", .string (utf16 "a@b.co"))])
        ⟨.ok [], some ⟨utf16 "email_exists", utf16 "Email already registered"⟩⟩
        (profileCandidate (utf16 "Ann") (utf16 "c@d.co"))).outcome
      = .rejected (.error (utf16 "Email update failed: " ++ utf16 "Email already registered")) :=
  ⟨by decide, rfl,
    ((updateProfile_email_rollback (fun _ => []) (utf16 "2024-05-02T10:00:00.000Z")
      ⟨utf16 "u1", utf16 "a@b.co"⟩
      (some [("name", .string (utf16 "Ann")), ("email", .string (utf16 "a@b.co"))])
      ⟨.ok [], some ⟨utf16 "email_exists", utf16 "Email already registered"⟩⟩
      (profileCandidate (utf16 "Ann") (utf16 "c@d.co")) ⟨utf16 "Ann", utf16 "c@d.co"⟩ []
      (by decide) rfl rfl).2 ⟨utf16 "email_exists", utf16 "Email already registered"⟩
      (by decide) rfl).1⟩

/-- C20: in `changePassword` with an input the schema accepts: whatever error the
re-authentication is answered with, the mutation fails with the message `Current password is
incorrect` and its only call is the `signInWithPassword` one, so neither the password update nor
`log_activity` is issued; and whenever the password update is issued, the re-authentication was
answered without error and came first. -/
theorem changePassword_reauthentication (nowIso : JsString) (user : SessionUser)
    (rc : ChangePasswordResponses) (passwordData : JsValue) (data : PasswordChange)
    (hid : user.id ≠ [])
    (hparse : passwordChangeSchemaSafeParse passwordData = .success data) :
    (∀ verifyError : BackendError, rc.verifyError = some verifyError →
      (changePasswordMutationFn nowIso (some user) rc passwordData).outcome
        = .rejected (.error (utf16 "Current password is incorrect")) ∧
      (changePasswordMutationFn nowIso (some user) rc passwordData).calls
        = [.authSignInWithPassword user.email data.current_password] ∧
      (changePasswordMutationFn nowIso (some user) rc passwordData).calls.any
        RemoteCall.isAuthUpdateUser = false ∧
      logActivityCount (changePasswordMutationFn nowIso (some user) rc passwordData).calls
        = 0) ∧
    ((changePasswordMutationFn nowIso (some user) rc passwordData).calls.any
        RemoteCall.isAuthUpdateUser = true →
      rc.verifyError = none ∧
      ∃ rest, (changePasswordMutationFn nowIso (some user) rc passwordData).calls
        = .authSignInWithPassword user.email data.current_password
          :: .authUpdateUser [("password", .string data.new_password)] :: rest) := by
  constructor
  · intro verifyError hv
    unfold changePasswordMutationFn
    simp only [hid, if_false, hparse, hv]
    simp [logActivityCount, RemoteCall.isLogActivity, RemoteCall.isAuthUpdateUser]
  · unfold changePasswordMutationFn
    simp only [hid, if_false, hparse]
    cases hv : rc.verifyError with
    | some e => simp [RemoteCall.isAuthUpdateUser]
    | none =>
      cases rc.updateError with
      | some e => simp
      | none => simp

/-- C20 at the user `u1` and the input (`"oldpass"`, `"newpass"`, `"newpass"`), with the
re-authentication answered by a rate-limit error: the message is still `Current password is
incorrect`. -/
theorem changePassword_reauthentication_witness :
    (⟨utf16 "u1", utf16 "a@b.co"⟩ : SessionUser).id ≠ [] ∧
    passwordChangeSchemaSafeParse
        (passwordCandidate (utf16 "oldpass") (utf16 "newpass") (utf16 "newpass"))
      = .success ⟨utf16 "oldpass", utf16 "newpass", utf16 "newpass"⟩ ∧
    (changePasswordMutationFn (utf16 "2024-05-02T10:00:00.000Z")
        (some ⟨utf16 "u1", utf16 "a@b.co"⟩)
        ⟨some ⟨utf16 "over_request_rate_limit", utf16 "Too many requests"⟩, none⟩
        (passwordCandidate (utf16 "oldpass") (utf16 "newpass") (utf16 "newpass"))).outcome
      = .rejected (.error (utf16 "Current password is incorrect")) :=
  ⟨by decide, rfl,
    ((changePassword_reauthentication (utf16 "2024-05-02T10:00:00.000Z")
      ⟨utf16 "u1", utf16 "a@b.co"⟩
      ⟨some ⟨utf16 "over_request_rate_limit", utf16 "Too many requests"⟩, none⟩
      (passwordCandidate (utf16 "oldpass") (utf16 "newpass") (utf16 "newpass"))
      ⟨utf16 "oldpass", utf16 "newpass", utf16 "newpass"⟩ (by decide) rfl).1
      ⟨utf16 "over_request_rate_limit", utf16 "Too many requests"⟩ rfl).1⟩


/-- C21: two runs of `changePassword` on inputs the schema accepts, with the same user, the same
answers of the remote service and the same clock, settle in the same way (the same error message,
if any) and issue the same `log_activity` calls, whatever the password strings are; the one
`log_activity` call, when issued, carries the fixed type and description and the time stamp. -/
theorem changePassword_noninterference (nowIso : JsString) (user : Option SessionUser)
    (rc : ChangePasswordResponses) (passwordData₁ passwordData₂ : JsValue)
    (data₁ data₂ : PasswordChange)
    (h₁ : passwordChangeSchemaSafeParse passwordData₁ = .success data₁)
    (h₂ : passwordChangeSchemaSafeParse passwordData₂ = .success data₂) :
    (changePasswordMutationFn nowIso user rc passwordData₁).outcome
      = (changePasswordMutationFn nowIso user rc passwordData₂).outcome ∧
    (changePasswordMutationFn nowIso user rc passwordData₁).calls.filter
        RemoteCall.isLogActivity
      = (changePasswordMutationFn nowIso user rc passwordData₂).calls.filter
        RemoteCall.isLogActivity ∧
    ((changePasswordMutationFn nowIso user rc passwordData₁).calls.filter
        RemoteCall.isLogActivity = [] ∨
      (changePasswordMutationFn nowIso user rc passwordData₁).calls.filter
        RemoteCall.isLogActivity
        = [.rpc "log_activity"
            [("activity_type", .string (utf16 "password_change")),
             ("description", .string (utf16 "Password changed successfully")),
             ("metadata", .object [("timestamp", .string nowIso)])]]) := by
  unfold changePasswordMutationFn
  cases user with
  | none => simp
  | some u =>
    by_cases hid : u.id = []
    · simp [hid]
    · simp only [hid, if_false, h₁, h₂]
      cases rc.verifyError with
      | some e => simp [RemoteCall.isLogActivity]
      | none =>
        cases rc.updateError with
        | some e => simp [RemoteCall.isLogActivity]
        | none => simp [RemoteCall.isLogActivity]

/-- C21 at the inputs (`"oldpass"`, `"newpass"`, `"newpass"`) and (`"hunter22"`, `"swordfish"`,
`"swordfish"`), with a password update that the remote service refuses. -/
theorem changePassword_noninterference_witness :
    passwordChangeSchemaSafeParse
        (passwordCandidate (utf16 "oldpass") (utf16 "newpass") (utf16 "newpass"))
      = .success ⟨utf16 "oldpass", utf16 "newpass", utf16 "newpass"⟩ ∧
    passwordChangeSchemaSafeParse
        (passwordCandidate (utf16 "hunter22") (utf16 "swordfish") (utf16 "swordfish"))
      = .success ⟨utf16 "hunter22", utf16 "swordfish", utf16 "swordfish"⟩ ∧
    (changePasswordMutationFn (utf16 "2024-05-02T10:00:00.000Z")
        (some ⟨utf16 "u1", utf16 "a@b.co"⟩) ⟨none, some ⟨utf16 "weak", utf16 "Too weak"⟩⟩
        (passwordCandidate (utf16 "oldpass") (utf16 "newpass") (utf16 "newpass"))).outcome
      = (changePasswordMutationFn (utf16 "2024-05-02T10:00:00.000Z")
        (some ⟨utf16 "u1", utf16 "a@b.co"⟩) ⟨none, some ⟨utf16 "weak", utf16 "Too weak"⟩⟩
        (passwordCandidate (utf16 "hunter22") (utf16 "swordfish")
          (utf16 "swordfish"))).outcome :=
  ⟨rfl, rfl,
    (changePassword_noninterference (utf16 "2024-05-02T10:00:00.000Z")
      (some ⟨utf16 "u1", utf16 "a@b.co"⟩) ⟨none, some ⟨utf16 "weak", utf16 "Too weak"⟩⟩
      (passwordCandidate (utf16 "oldpass") (utf16 "newpass") (utf16 "newpass"))
      (passwordCandidate (utf16 "hunter22") (utf16 "swordfish") (utf16 "swordfish"))
      ⟨utf16 "oldpass", utf16 "newpass", utf16 "newpass"⟩
      ⟨utf16 "hunter22", utf16 "swordfish", utf16 "swordfish"⟩ rfl rfl).1⟩

/-- C22: for every page index `p` the activity fetch asks for the inclusive row range
`[20p, 20p+19]`; when the answer carries no error and the exact count `c`, it names the next page
`p+1` exactly when `20(p+1) < c` and names none otherwise, and none when the count is 0 or absent;
the ranges of the pages `p` and `p+1` are disjoint and adjacent. -/
theorem activityQueryFn_range_and_next (user : SessionUser)
    (remote : Nat → Nat → ActivityResponse) (p : Nat) (hid : user.id ≠ []) :
    (activityQueryFn (some user) remote p).range = some (20 * p, 20 * p + 19) ∧
    ((remote (20 * p) (20 * p + 19)).error = none →
      ∃ page : ActivityPage,
        (activityQueryFn (some user) remote p).outcome = .resolved page ∧
        (∀ c : Nat, (remote (20 * p) (20 * p + 19)).count = some c →
          (getNextPageParam page = some (p + 1) ↔ 20 * (p + 1) < c) ∧
          (getNextPageParam page = none ↔ ¬ 20 * (p + 1) < c)) ∧
        ((remote (20 * p) (20 * p + 19)).count = some 0 → getNextPageParam page = none) ∧
        ((remote (20 * p) (20 * p + 19)).count = none → getNextPageParam page = none)) ∧
    (∀ r₁ r₂ : Nat × Nat, (activityQueryFn (some user) remote p).range = some r₁ →
      (activityQueryFn (some user) remote (p + 1)).range = some r₂ →
      r₁.2 < r₂.1 ∧ r₁.2 + 1 = r₂.1) := by
  have hu : sessionUserId (some user) = some user.id := by
    simp [sessionUserId, hid]
  have hfirst : p * ACTIVITY_PAGE_SIZE = 20 * p := by
    simp [ACTIVITY_PAGE_SIZE, Nat.mul_comm]
  have hlast : 20 * p + ACTIVITY_PAGE_SIZE - 1 = 20 * p + 19 := by
    simp [ACTIVITY_PAGE_SIZE]
  have hrange : ∀ q : Nat, (activityQueryFn (some user) remote q).range
      = some (20 * q, 20 * q + 19) := by
    intro q
    have hq : q * ACTIVITY_PAGE_SIZE = 20 * q := by simp [ACTIVITY_PAGE_SIZE, Nat.mul_comm]
    have hq2 : 20 * q + ACTIVITY_PAGE_SIZE - 1 = 20 * q + 19 := by simp [ACTIVITY_PAGE_SIZE]
    unfold activityQueryFn
    simp only [hu, hq, hq2]
    cases (remote (20 * q) (20 * q + 19)).error <;> rfl
  refine ⟨hrange p, ?_, ?_⟩
  · intro herr
    unfold activityQueryFn
    simp only [hu, hfirst, hlast, herr]
    refine ⟨_, rfl, ?_, ?_, ?_⟩
    · intro c hc
      simp only [getNextPageParam, hc, ACTIVITY_PAGE_SIZE]
      by_cases h0 : c = 0
      · subst h0
        simp
      · by_cases hlt : 20 * p + 20 < c
        · simp [h0, hlt]
          omega
        · simp [h0, hlt]
          omega
    · intro hc
      simp [getNextPageParam, hc]
    · intro hc
      simp [getNextPageParam, hc]
  · intro r₁ r₂ h₁ h₂
    rw [hrange p] at h₁
    rw [hrange (p + 1)] at h₂
    injection h₁ with h₁
    injection h₂ with h₂
    subst h₁
    subst h₂
    simp only
    omega

/-- C22 at the user `u1`, page 1 and a backend that reports 41 rows: the range is `[20, 39]`. -/
theorem activityQueryFn_range_and_next_witness :
    (⟨utf16 "u1", utf16 "a@b.co"⟩ : SessionUser).id ≠ [] ∧
    (activityQueryFn (some ⟨utf16 "u1", utf16 "a@b.co"⟩)
        (fun _ _ => ⟨some [], none, some 41⟩) 1).range = some (20 * 1, 20 * 1 + 19) :=
  ⟨by decide,
    (activityQueryFn_range_and_next ⟨utf16 "u1", utf16 "a@b.co"⟩
      (fun _ _ => ⟨some [], none, some 41⟩) 1 (by decide)).1⟩


/-- C23: resume delete.  With no cached resume it fails with `No resume to delete`, issues no call
and leaves the cache alone.  With a cached resume and a row deletion answered without error, it
succeeds whether or not the blob removal was answered with an error, the row deletion follows the
blob removal, and the cache becomes `null`.  With a row deletion answered with an error it fails
with `Database error: ` followed by the message, issues no `log_activity` call and leaves the
cache as it was. -/
theorem deleteMutation_outcomes (toStr : JsValue → JsString) (user : SessionUser)
    (remote : DeleteMutationResponses) (hid : user.id ≠ []) :
    ((deleteMutation toStr (some user) none remote).1.outcome
        = .rejected (.error (utf16 "No resume to delete")) ∧
      (deleteMutation toStr (some user) none remote).1.calls = [] ∧
      (deleteMutation toStr (some user) none remote).2 = none) ∧
    (∀ resume : JsObject, remote.dbError = none →
      (deleteMutation toStr (some user) (some resume) remote).1.outcome = .resolved () ∧
      (∃ rest, (deleteMutation toStr (some user) (some resume) remote).1.calls
        = .storageRemove "resumes" [JsValue.getField resume "file_path"]
          :: .delete "resumes" "user_id" user.id :: rest) ∧
      (deleteMutation toStr (some user) (some resume) remote).2 = none) ∧
    (∀ (resume : JsObject) (dbError : BackendError), remote.dbError = some dbError →
      (deleteMutation toStr (some user) (some resume) remote).1.outcome
        = .rejected (.error (utf16 "Database error: " ++ dbError.message)) ∧
      logActivityCount (deleteMutation toStr (some user) (some resume) remote).1.calls = 0 ∧
      (deleteMutation toStr (some user) (some resume) remote).2 = some resume) := by
  have hu : sessionUserId (some user) = some user.id := by
    simp [sessionUserId, hid]
  refine ⟨?_, ?_, ?_⟩
  · simp [deleteMutation, deleteMutationFn, hu]
  · intro resume hdb
    simp [deleteMutation, deleteMutationFn, hu, hdb]
  · intro resume dbError hdb
    simp [deleteMutation, deleteMutationFn, hu, hdb, logActivityCount,
      RemoteCall.isLogActivity]

/-- C23 at the user `u1` and a cached resume, with the blob removal answered by an error and the
row deletion answered without one: the mutation succeeds and the cache becomes `null`. -/
theorem deleteMutation_outcomes_witness :
    (⟨utf16 "u1", utf16 "a@b.co"⟩ : SessionUser).id ≠ [] ∧
    (deleteMutation (fun _ => utf16 "cv.pdf") (some ⟨utf16 "u1", utf16 "a@b.co"⟩)
        (some [("file_path", .string (utf16 "u1/17_cv.pdf")),
          ("file_name", .string (utf16 "cv.pdf"))])
        ⟨some ⟨utf16 "404", utf16 "Object not found"⟩, none⟩).2 = none :=
  ⟨by decide,
    ((deleteMutation_outcomes (fun _ => utf16 "cv.pdf") ⟨utf16 "u1", utf16 "a@b.co"⟩
      ⟨some ⟨utf16 "404", utf16 "Object not found"⟩, none⟩ (by decide)).2.1
      [("file_path", .string (utf16 "u1/17_cv.pdf")), ("file_name", .string (utf16 "cv.pdf"))]
      rfl).2.2⟩

/-- The upload mutation of a signed-in user throws at the call of `validateResumeFile`, before any
call on the remote service, whatever the file and whatever the remote service would answer. -/
theorem uploadMutationFn_throws (MAX_RESUME_SIZE : Nat) (RESUME_FILE_TYPES : List JsString)
    (now : Nat) (user : SessionUser) (remote : UploadMutationResponses) (file : ResumeFile)
    (hid : user.id ≠ []) :
    uploadMutationFn MAX_RESUME_SIZE RESUME_FILE_TYPES now (some user) remote file
      = ⟨.rejected (.typeError "validateResumeFile"), []⟩ := by
  have hu : sessionUserId (some user) = some user.id := by
    simp [sessionUserId, hid]
  unfold uploadMutationFn
  rw [hu]
  rfl

/-- C24 at the upload of the 1000-byte `application/pdf` file `cv.pdf` by the user `u1`, with the
blob upload answered without error and the metadata upsert answered with the error
`check violation`: the file is one that `validateResumeFile` of
`src/lib/validations/dashboard.js` accepts, yet the mutation fails with the `TypeError` of the
call on line 52 and not with `Database error: check violation`, and it issues no call at all:
no upload, no upsert and no storage `remove`.  The cache is unchanged. -/
theorem uploadMutation_valid_file_throws :
    (validateResumeFile 10485760 [utf16 "application/pdf"]
      ⟨1000, utf16 "application/pdf", utf16 "cv.pdf"⟩).isValid = true ∧
    uploadMutation 10485760 [utf16 "application/pdf"] 1700000000000
        (some ⟨utf16 "u1", utf16 "a@b.co"⟩) none
        ⟨none, .error ⟨utf16 "23514", utf16 "check violation"⟩⟩
        ⟨1000, utf16 "application/pdf", utf16 "cv.pdf"⟩
      = (⟨.rejected (.typeError "validateResumeFile"), []⟩, none) ∧
    (uploadMutation 10485760 [utf16 "application/pdf"] 1700000000000
        (some ⟨utf16 "u1", utf16 "a@b.co"⟩) none
        ⟨none, .error ⟨utf16 "23514", utf16 "check violation"⟩⟩
        ⟨1000, utf16 "application/pdf", utf16 "cv.pdf"⟩).1.calls.any
      RemoteCall.isStorageRemove = false :=
  ⟨by decide, rfl, rfl⟩

/-- C25 at a second upload by the user `u1`, whose cached resume row names the path
`u1/17_cv.pdf`: the 1000-byte `application/pdf` file `cv2.pdf`, with a remote service that
answers the blob upload and the upsert without error.  The mutation does not succeed: it fails
with the `TypeError` of the call on line 52, issues no upsert (and no other call), and the cached
row still names the earlier path. -/
theorem second_upload_throws_before_upsert :
    (validateResumeFile 10485760 [utf16 "application/pdf"]
      ⟨1000, utf16 "application/pdf", utf16 "cv2.pdf"⟩).isValid = true ∧
    uploadMutation 10485760 [utf16 "application/pdf"] 1700000000000
        (some ⟨utf16 "u1", utf16 "a@b.co"⟩)
        (some [("user_id", .string (utf16 "u1")),
          ("file_path", .string (utf16 "u1/17_cv.pdf"))])
        ⟨none, .ok [("user_id", .string (utf16 "u1")),
          ("file_path", .string (utf16 "u1/1700000000000_cv2.pdf"))]⟩
        ⟨1000, utf16 "application/pdf", utf16 "cv2.pdf"⟩
      = (⟨.rejected (.typeError "validateResumeFile"), []⟩,
          some [("user_id", .string (utf16 "u1")),
            ("file_path", .string (utf16 "u1/17_cv.pdf"))]) ∧
    (uploadMutation 10485760 [utf16 "application/pdf"] 1700000000000
        (some ⟨utf16 "u1", utf16 "a@b.co"⟩)
        (some [("user_id", .string (utf16 "u1")),
          ("file_path", .string (utf16 "u1/17_cv.pdf"))])
        ⟨none, .ok [("user_id", .string (utf16 "u1")),
          ("file_path", .string (utf16 "u1/1700000000000_cv2.pdf"))]⟩
        ⟨1000, utf16 "application/pdf", utf16 "cv2.pdf"⟩).1.calls.any
      RemoteCall.isUpsert = false :=
  ⟨by decide, rfl, rfl⟩

/-- C26 as stated fails: `truncateText("abcd", 2)` is `"..."`, of length 3. -/
theorem truncateText_short_limit :
    (0 : Int) ≤ 2 ∧
    truncateText (utf16 "abcd") 2 = utf16 "..." ∧
    ¬ ((truncateText (utf16 "abcd") 2).length : Int) ≤ 2 := by
  decide

/-- C26, amended: for every text and every integer `maxLength` (so for every `maxLength ≥ 0`),
`truncateText` returns the text itself when its length is at most `maxLength`, and otherwise a
prefix of the text followed by `...`; and the result is at most `maxLength` long whenever
`maxLength ≥ 3`. -/
theorem truncateText_shape (text : JsString) (maxLength : Int) :
    ((text.length : Int) ≤ maxLength → truncateText text maxLength = text) ∧
    (maxLength < (text.length : Int) →
      ∃ pre : JsString, pre <+: text ∧ truncateText text maxLength = pre ++ utf16 "...") ∧
    (3 ≤ maxLength → ((truncateText text maxLength).length : Int) ≤ maxLength) := by
  have hdots : (utf16 "...").length = 3 := by decide
  refine ⟨?_, ?_, ?_⟩
  · intro h
    simp [truncateText, h]
  · intro h
    have hn : ¬ (text.length : Int) ≤ maxLength := by omega
    refine ⟨substring text 0 (maxLength - 3), ?_, by simp [truncateText, hn]⟩
    simp only [substring, clampIndex, Int.lt_irrefl, if_false, Int.toNat_zero, Nat.zero_min,
      List.drop_zero, Nat.sub_zero]
    exact List.take_prefix _ _
  · intro h3
    by_cases h : (text.length : Int) ≤ maxLength
    · simp [truncateText, h]
    · simp only [truncateText, h, if_false, List.length_append, hdots]
      have hlen : (substring text 0 (maxLength - 3)).length ≤ (maxLength - 3).toNat := by
        simp only [substring, clampIndex, Int.lt_irrefl, if_false, Int.toNat_zero,
          Nat.zero_min, List.drop_zero, Nat.sub_zero]
        have hneg : ¬ maxLength - 3 < 0 := by omega
        simp only [hneg, if_false, List.length_take]
        omega
      omega

/-- C26 amended, at the text `"abcdefgh"` and the limit 5: the result is at most 5 long. -/
theorem truncateText_shape_witness :
    (3 : Int) ≤ 5 ∧
    ((truncateText (utf16 "abcdefgh") 5).length : Int) ≤ 5 :=
  ⟨by decide, (truncateText_shape (utf16 "abcdefgh") 5).2.2 (by decide)⟩

/-- C27 as stated fails: with the random values 0.9, 0.9, 0.9, 0.9, 0.85, 0.9, all in `[0, 1)`,
the displayed percentage goes 0, 18, 36, 54, 72, 89, 107 while the call is in flight, and 107 is
above 100. -/
theorem progress_exceeds_hundred :
    (∀ r ∈ ([9 / 10, 9 / 10, 9 / 10, 9 / 10, 17 / 20, 9 / 10] : List ℚ), 0 ≤ r ∧ r < 1) ∧
    progressInFlight [9 / 10, 9 / 10, 9 / 10, 9 / 10, 17 / 20, 9 / 10]
      = [0, 18, 36, 54, 72, 89, 107] ∧
    ¬ ((107 : ℚ) ≤ 100) := by
  refine ⟨?_, ?_, by norm_num⟩
  · intro r hr
    simp only [List.mem_cons, List.mem_singleton, List.not_mem_nil, or_false] at hr
    rcases hr with rfl | rfl | rfl | rfl | rfl | rfl <;> norm_num
  · norm_num [progressInFlight, progressTick, List.foldl, List.getLastD]

/-- The last element of a list, with a default, is the default or an element of the list. -/
theorem getLastD_eq_or_mem : ∀ (l : List ℚ) (d : ℚ), l.getLastD d = d ∨ l.getLastD d ∈ l
  | [], _ => Or.inl rfl
  | a :: t, d => by
    rw [List.getLastD_cons]
    rcases getLastD_eq_or_mem t a with h | h
    · rw [h]
      exact Or.inr (List.mem_cons_self _ _)
    · exact Or.inr (List.mem_cons_of_mem _ h)

/-- One more tick appends one value. -/
theorem progressInFlight_concat (randoms : List ℚ) (r : ℚ) :
    progressInFlight (randoms ++ [r])
      = progressInFlight randoms ++ [progressTick ((progressInFlight randoms).getLastD 0) r] := by
  simp [progressInFlight, List.foldl_append]

/-- While the call is in flight the values shown are sorted, lie in `[0, 110)` and are at most the
last one. -/
theorem progressInFlight_invariant (randoms : List ℚ) (hr : ∀ r ∈ randoms, 0 ≤ r ∧ r < 1) :
    (progressInFlight randoms).Pairwise (· ≤ ·) ∧
    ∀ v ∈ progressInFlight randoms,
      0 ≤ v ∧ v < 110 ∧ v ≤ (progressInFlight randoms).getLastD 0 := by
  induction randoms using List.reverseRecOn with
  | nil => simp [progressInFlight]
  | append_singleton rs r ih =>
    have hrs : ∀ x ∈ rs, 0 ≤ x ∧ x < 1 := fun x hx => hr x (List.mem_append_left _ hx)
    have hr1 : 0 ≤ r ∧ r < 1 := hr r (by simp)
    obtain ⟨hsorted, hall⟩ := ih hrs
    have hlast : 0 ≤ (progressInFlight rs).getLastD 0
        ∧ (progressInFlight rs).getLastD 0 < 110 := by
      rcases getLastD_eq_or_mem (progressInFlight rs) 0 with h | h
      · rw [h]
        norm_num
      · exact ⟨(hall _ h).1, (hall _ h).2.1⟩
    have htick : (progressInFlight rs).getLastD 0
          ≤ progressTick ((progressInFlight rs).getLastD 0) r
        ∧ progressTick ((progressInFlight rs).getLastD 0) r < 110 := by
      unfold progressTick
      by_cases h90 : (progressInFlight rs).getLastD 0 ≥ 90
      · simp only [h90, if_true]
        exact ⟨le_refl _, hlast.2⟩
      · simp only [h90, if_false]
        have h1 := hr1.1
        have h2 := hr1.2
        have h3 : (progressInFlight rs).getLastD 0 < 90 := not_le.mp h90
        constructor <;> linarith
    rw [progressInFlight_concat]
    constructor
    · rw [List.pairwise_append]
      refine ⟨hsorted, List.pairwise_singleton _ _, ?_⟩
      intro a ha b hb
      rw [List.mem_singleton] at hb
      subst hb
      exact le_trans (hall a ha).2.2 htick.1
    · intro v hv
      rw [List.getLastD_concat]
      rcases List.mem_append.mp hv with hv | hv
      · exact ⟨(hall v hv).1, (hall v hv).2.1, le_trans (hall v hv).2.2 htick.1⟩
      · rw [List.mem_singleton] at hv
        subst hv
        exact ⟨le_trans hlast.1 htick.1, htick.2, le_refl _⟩

/-- C27, amended: with the step `p ↦ p` if `p ≥ 90`, else `p + 20r`, started at 0, for every
sequence of random values `r` with `0 ≤ r < 1` the percentage shown while the call is in flight
is non-decreasing and stays within `[0, 110)`; after the call it is exactly 100 on success and
exactly 0 on failure. -/
theorem progress_bounds (randoms : List ℚ) (hr : ∀ r ∈ randoms, 0 ≤ r ∧ r < 1) :
    (progressInFlight randoms).Pairwise (· ≤ ·) ∧
    (∀ v ∈ progressInFlight randoms, 0 ≤ v ∧ v < 110) ∧
    (progressShown randoms true).getLast? = some 100 ∧
    (progressShown randoms false).getLast? = some 0 := by
  obtain ⟨hsorted, hall⟩ := progressInFlight_invariant randoms hr
  refine ⟨hsorted, fun v hv => ⟨(hall v hv).1, (hall v hv).2.1⟩, ?_, ?_⟩
  · simp [progressShown, progressSettled, List.getLast?_append]
  · simp [progressShown, progressSettled, List.getLast?_append]

/-- C27 amended, at the random values 0.5 and 0.25: the value after a successful call is 100. -/
theorem progress_bounds_witness :
    (∀ r ∈ ([1 / 2, 1 / 4] : List ℚ), 0 ≤ r ∧ r < 1) ∧
    (progressShown [1 / 2, 1 / 4] true).getLast? = some 100 :=
  ⟨by
      intro r hr
      simp only [List.mem_cons, List.mem_singleton, List.not_mem_nil, or_false] at hr
      rcases hr with rfl | rfl <;> norm_num,
    (progress_bounds [1 / 2, 1 / 4] (by
      intro r hr
      simp only [List.mem_cons, List.mem_singleton, List.not_mem_nil, or_false] at hr
      rcases hr with rfl | rfl <;> norm_num)).2.2.1⟩


/-- C29 as stated fails: the form accepts the triple (`"secret1"`, `"secret1"`, `"secret1"`), and
the schema rejects it, the new password being the current one. -/
theorem validateForm_accepts_what_schema_rejects :
    validateForm ⟨utf16 "secret1", utf16 "secret1", utf16 "secret1"⟩ = true ∧
    (passwordChangeSchemaSafeParse
      (passwordCandidate (utf16 "secret1") (utf16 "secret1") (utf16 "secret1"))).isSuccess
      = false := by
  decide

/-- What the form's check accepts. -/
theorem validateForm_eq_true_iff (formData : PasswordFormData) :
    validateForm formData = true
      ↔ formData.current_password ≠ [] ∧ 6 ≤ formData.new_password.length
        ∧ formData.confirm_password ≠ []
        ∧ formData.new_password = formData.confirm_password := by
  unfold validateForm validateFormErrors
  by_cases hc : formData.current_password = [] <;>
    by_cases hn : formData.new_password = [] <;>
    by_cases h6 : formData.new_password.length < 6 <;>
    by_cases hk : formData.confirm_password = [] <;>
    by_cases he : formData.new_password = formData.confirm_password <;>
    simp [hc, hn, h6, hk, he]

/-- C29, amended: every password triple that the form's check accepts, whose new password is at
most 128 long and differs from the current password, is accepted by `passwordChangeSchema`, and
then the hook's mutation does not fail with a validation error. -/
theorem validateForm_refines_schema (formData : PasswordFormData)
    (hform : validateForm formData = true) (hmax : formData.new_password.length ≤ 128)
    (hdiff : formData.new_password ≠ formData.current_password) :
    passwordChangeSchemaSafeParse
        (passwordCandidate formData.current_password formData.new_password
          formData.confirm_password)
      = .success ⟨formData.current_password, formData.new_password,
          formData.confirm_password⟩ ∧
    ∀ (nowIso : JsString) (user : Option SessionUser) (rc : ChangePasswordResponses)
      (issues : List ZodIssue),
      (changePasswordMutationFn nowIso user rc
          (passwordCandidate formData.current_password formData.new_password
            formData.confirm_password)).outcome
        ≠ .rejected (.validationError issues) := by
  obtain ⟨hc, h6, _, he⟩ := (validateForm_eq_true_iff formData).mp hform
  have hlen : 1 ≤ formData.current_password.length := by
    cases hcp : formData.current_password with
    | nil => exact absurd hcp hc
    | cons a t => simp
  have hparse : passwordChangeSchemaSafeParse
      (passwordCandidate formData.current_password formData.new_password
        formData.confirm_password)
      = .success ⟨formData.current_password, formData.new_password,
          formData.confirm_password⟩ := by
    rcases passwordChangeSchemaSafeParse_strings formData.current_password
        formData.new_password formData.confirm_password with ⟨_, h⟩ | ⟨hn, _⟩
    · exact h
    · exact absurd ⟨⟨hlen, h6, hmax⟩, he, fun e => hdiff e.symm⟩ hn
  refine ⟨hparse, ?_⟩
  intro nowIso user rc issues
  unfold changePasswordMutationFn
  cases user with
  | none => simp
  | some u =>
    by_cases hid : u.id = []
    · simp [hid]
    · simp only [hid, if_false, hparse]
      cases rc.verifyError with
      | some e => simp
      | none =>
        cases rc.updateError with
        | some e => simp
        | none => simp

/-- C29 amended, at the triple (`"oldpass"`, `"newpass"`, `"newpass"`). -/
theorem validateForm_refines_schema_witness :
    validateForm ⟨utf16 "oldpass", utf16 "newpass", utf16 "newpass"⟩ = true ∧
    (utf16 "newpass").length ≤ 128 ∧ utf16 "newpass" ≠ utf16 "oldpass" ∧
    passwordChangeSchemaSafeParse
        (passwordCandidate (utf16 "oldpass") (utf16 "newpass") (utf16 "newpass"))
      = .success ⟨utf16 "oldpass", utf16 "newpass", utf16 "newpass"⟩ :=
  ⟨by decide, by decide, by decide,
    (validateForm_refines_schema ⟨utf16 "oldpass", utf16 "newpass", utf16 "newpass"⟩
      (by decide) (by decide) (by decide)).1⟩

/-- Reading a property that the property list holds. -/
theorem getField_of_lookup (o : JsObject) (key : String) (v : JsValue)
    (h : o.lookup key = some v) : JsValue.getField o key = v := by
  unfold JsValue.getField
  rw [h]

/-- C30: when `updateProfile`, run for a user whose stored profile row is the cached profile,
writes the row and then fails at the auth-email step, the stored row afterwards has its previous
email, the newly written name and the newly written `updated_at`; so, the name having changed,
the row is not the row before the call, although the mutation is rejected. -/
theorem failed_email_update_keeps_name (toStr : JsValue → JsString) (nowIso : JsString)
    (user : SessionUser) (row : JsObject) (rp : UpdateProfileResponses) (updates : JsValue)
    (V : ProfileUpdate) (data : JsObject) (authError : BackendError) (hid : user.id ≠ [])
    (hparse : profileUpdateSchemaSafeParse updates = .success V)
    (hwritten : rp.update = .ok data)
    (hemail : strictEqualsString V.email (JsValue.getField row "email") = false)
    (hauth : rp.authUpdate = some authError)
    (hname : strictEqualsString V.name (JsValue.getField row "name") = false) :
    (updateProfileMutationFn toStr nowIso (some user) (some row) rp updates).outcome
      = .rejected (.error (utf16 "Email update failed: " ++ authError.message)) ∧
    JsValue.getField
        (profileRowAfter user.id row
          (updateProfileMutationFn toStr nowIso (some user) (some row) rp updates).calls)
        "email" = JsValue.getField row "email" ∧
    JsValue.getField
        (profileRowAfter user.id row
          (updateProfileMutationFn toStr nowIso (some user) (some row) rp updates).calls)
        "name" = .string V.name ∧
    JsValue.getField
        (profileRowAfter user.id row
          (updateProfileMutationFn toStr nowIso (some user) (some row) rp updates).calls)
        "updated_at" = .string nowIso ∧
    profileRowAfter user.id row
        (updateProfileMutationFn toStr nowIso (some user) (some row) rp updates).calls
      ≠ row := by
  have hu : sessionUserId (some user) = some user.id := by
    simp [sessionUserId, hid]
  have hopt : optionalField (some row) "email" = JsValue.getField row "email" := rfl
  have hrun : updateProfileMutationFn toStr nowIso (some user) (some row) rp updates
      = ⟨.rejected (.error (utf16 "Email update failed: " ++ authError.message)),
          [.update "profiles"
            [("name", .string V.name), ("email", .string V.email),
             ("updated_at", .string nowIso)] "id" user.id,
           .authUpdateUser [("email", .string V.email)],
           .update "profiles" [("email", JsValue.getField row "email")] "id" user.id]⟩ := by
    unfold updateProfileMutationFn
    simp only [hu, hparse, hwritten, hopt, hemail, hauth, Bool.not_false, if_true]
  have hafter : profileRowAfter user.id row
      (updateProfileMutationFn toStr nowIso (some user) (some row) rp updates).calls
      = objectSpread
          (objectSpread row
            [("name", .string V.name), ("email", .string V.email),
             ("updated_at", .string nowIso)])
          [("email", JsValue.getField row "email")] := by
    rw [hrun]
    simp [profileRowAfter, applyProfileCall]
  have hget : ∀ key : String,
      (objectSpread
          (objectSpread row
            [("name", .string V.name), ("email", .string V.email),
             ("updated_at", .string nowIso)])
          [("email", JsValue.getField row "email")]).lookup key
        = if key = "email" then some (JsValue.getField row "email")
          else if key = "name" then some (.string V.name)
          else if key = "updated_at" then some (.string nowIso)
          else row.lookup key := by
    intro key
    rw [lookup_objectSpread key _ _ (by simp), lookup_objectSpread key _ _ (by simp)]
    simp only [lookup_cons_eq, List.lookup_nil]
    by_cases h1 : key = "email"
    · simp [h1]
    · by_cases h2 : key = "name"
      · simp [h2]
      · by_cases h3 : key = "updated_at"
        · simp [h3]
        · simp [h1, h2, h3]
  have hnameAfter : JsValue.getField
      (objectSpread
          (objectSpread row
            [("name", .string V.name), ("email", .string V.email),
             ("updated_at", .string nowIso)])
          [("email", JsValue.getField row "email")]) "name" = .string V.name :=
    getField_of_lookup _ _ _ (by rw [hget]; simp)
  refine ⟨by rw [hrun], ?_, ?_, ?_, ?_⟩
  · rw [hafter]
    exact getField_of_lookup _ _ _ (by rw [hget]; simp)
  · rw [hafter]
    exact hnameAfter
  · rw [hafter]
    exact getField_of_lookup _ _ _ (by rw [hget]; simp)
  · rw [hafter]
    intro heq
    rw [heq] at hnameAfter
    rw [hnameAfter] at hname
    simp [strictEqualsString] at hname

/-- C30 at the user `u1`, the stored row `{name: "Ann", email: "a@b.co"}` and the payload
`{name: "Ann B", email: "c@d.co"}`, with the auth update answered by an error: the stored name
afterwards is the new one. -/
theorem failed_email_update_keeps_name_witness :
    (⟨utf16 "u1", utf16 "a@b.co"⟩ : SessionUser).id ≠ [] ∧
    profileUpdateSchemaSafeParse (profileCandidate (utf16 "Ann B") (utf16 "c@d.co"))
      = .success ⟨utf16 "Ann B", utf16 "c@d.co"⟩ ∧
    strictEqualsString (utf16 "c@d.co")
      (JsValue.getField [("name", .string (utf16 "Ann")), ("email", .string (utf16 "a@b.co"))]
        "email") = false ∧
    strictEqualsString (utf16 "Ann B")
      (JsValue.getField [("name", .string (utf16 "Ann")), ("email", .string (utf16 "a@b.co"))]
        "name") = false ∧
    JsValue.getField
        (profileRowAfter (utf16 "u1")
          [("name", .string (utf16 "Ann")), ("email", .string (utf16 "a@b.co"))]
          (updateProfileMutationFn (fun _ => []) (utf16 "2024-05-02T10:00:00.000Z")
            (some ⟨utf16 "u1", utf16 "a@b.co"⟩)
            (some [("name", .string (utf16 "Ann")), ("email", .string (utf16 "a@b.co"))])
            ⟨.ok [], some ⟨utf16 "email_exists", utf16 "Email already registered"⟩⟩
            (profileCandidate (utf16 "Ann B") (utf16 "c@d.co"))).calls)
        "name" = .string (utf16 "Ann B") :=
  ⟨by decide, rfl, by decide, by decide,
    (failed_email_update_keeps_name (fun _ => []) (utf16 "2024-05-02T10:00:00.000Z")
      ⟨utf16 "u1", utf16 "a@b.co"⟩
      [("name", .string (utf16 "Ann")), ("email", .string (utf16 "a@b.co"))]
      ⟨.ok [], some ⟨utf16 "email_exists", utf16 "Email already registered"⟩⟩
      (profileCandidate (utf16 "Ann B") (utf16 "c@d.co")) ⟨utf16 "Ann B", utf16 "c@d.co"⟩ []
      ⟨utf16 "email_exists", utf16 "Email already registered"⟩ (by decide) rfl rfl
      (by decide) rfl (by decide)).2.2.1⟩

/-- One page of the activity history against a fixed list of rows. -/
theorem activityQueryFn_backend (user : SessionUser) (rows : List JsObject) (p : Nat)
    (hid : user.id ≠ []) :
    (activityQueryFn (some user) (activityBackend rows) p).outcome
      = .resolved ⟨(rows.drop (20 * p)).take 20,
          if 20 * p + 20 < rows.length then some (p + 1) else none⟩ := by
  have hu : sessionUserId (some user) = some user.id := by
    simp [sessionUserId, hid]
  have hfirst : p * ACTIVITY_PAGE_SIZE = 20 * p := by
    simp [ACTIVITY_PAGE_SIZE, Nat.mul_comm]
  have hspan : 20 * p + 20 - 1 + 1 - 20 * p = 20 := by omega
  unfold activityQueryFn
  simp only [hu, hfirst, activityBackend, ACTIVITY_PAGE_SIZE, hspan]
  have ha : p * 20 + 19 + 1 - p * 20 = 20 := by omega
  have hb : p * 20 = 20 * p := by omega
  have hc : 20 * p + 19 + 1 - 20 * p = 20 := by omega
  by_cases h0 : rows.length = 0
  · simp [h0, ha, hb, hc]
  · by_cases hlt : 20 * p + 20 < rows.length
    · simp [h0, hlt, ha, hb, hc]
    · simp [h0, hlt, ha, hb, hc]

/-- The pages fetched from page `p` on, with enough fuel: their number, their rows, and that the
last one names no next page. -/
theorem fetchActivityPages_from (user : SessionUser) (rows : List JsObject)
    (hid : user.id ≠ []) :
    ∀ (fuel p : Nat), 1 ≤ fuel → (rows.length - 20 * p + 19) / 20 ≤ fuel →
      (fetchActivityPages (some user) (activityBackend rows) fuel p).length
        = max 1 ((rows.length - 20 * p + 19) / 20) ∧
      activityHistory (fetchActivityPages (some user) (activityBackend rows) fuel p)
        = rows.drop (20 * p) ∧
      ∃ last : ActivityPage,
        (fetchActivityPages (some user) (activityBackend rows) fuel p).getLast? = some last ∧
        getNextPageParam last = none
  | 0, _, h1, _ => absurd h1 (by decide)
  | fuel + 1, p, _, hfuel => by
    have hpage := activityQueryFn_backend user rows p hid
    by_cases hlt : 20 * p + 20 < rows.length
    · have hunfold : fetchActivityPages (some user) (activityBackend rows) (fuel + 1) p
          = ⟨(rows.drop (20 * p)).take 20, some (p + 1)⟩
            :: fetchActivityPages (some user) (activityBackend rows) fuel (p + 1) := by
        simp only [fetchActivityPages, hpage, hlt, if_true, getNextPageParam]
      have h1 : 1 ≤ fuel := by omega
      have h2 : (rows.length - 20 * (p + 1) + 19) / 20 ≤ fuel := by omega
      obtain ⟨hlen, hhist, last, hlast, hnone⟩ :=
        fetchActivityPages_from user rows hid fuel (p + 1) h1 h2
      rw [hunfold]
      refine ⟨?_, ?_, last, ?_, hnone⟩
      · rw [List.length_cons, hlen]
        omega
      · have hh : activityHistory
            (⟨(rows.drop (20 * p)).take 20, some (p + 1)⟩
              :: fetchActivityPages (some user) (activityBackend rows) fuel (p + 1))
            = (rows.drop (20 * p)).take 20
              ++ activityHistory
                (fetchActivityPages (some user) (activityBackend rows) fuel (p + 1)) := by
          simp [activityHistory]
        rw [hh, hhist]
        have hdrop : rows.drop (20 * (p + 1)) = (rows.drop (20 * p)).drop 20 := by
          rw [List.drop_drop]
          congr 1
        rw [hdrop, List.take_append_drop]
      · cases hrest : fetchActivityPages (some user) (activityBackend rows) fuel (p + 1) with
        | nil =>
          rw [hrest, List.length_nil] at hlen
          omega
        | cons a t =>
          rw [hrest] at hlast
          rw [List.getLast?_cons_cons]
          exact hlast
    · have hunfold : fetchActivityPages (some user) (activityBackend rows) (fuel + 1) p
          = [⟨(rows.drop (20 * p)).take 20, none⟩] := by
        simp only [fetchActivityPages, hpage, hlt, if_false, getNextPageParam]
      rw [hunfold]
      refine ⟨?_, ?_, ⟨(rows.drop (20 * p)).take 20, none⟩, rfl, rfl⟩
      · simp only [List.length_singleton]
        omega
      · simp only [activityHistory, List.map_cons, List.map_nil, List.flatten_cons,
          List.flatten_nil, List.append_nil]
        apply List.take_of_length_le
        rw [List.length_drop]
        omega

/-- C28: for every fixed newest-first list of `N` activity rows, fetching from page 0 and
following the next page each page names ends, given at least `max(1, ⌈N/20⌉)` fetches to spend,
after exactly `max(1, ⌈N/20⌉)` fetches with a page that names no next page, and the flattened
`activityHistory` is the full list, every row once and in order. -/
theorem fetchActivityPages_complete (user : SessionUser) (rows : List JsObject) (fuel : Nat)
    (hid : user.id ≠ []) (hfuel : max 1 ((rows.length + 19) / 20) ≤ fuel) :
    (fetchActivityPages (some user) (activityBackend rows) fuel 0).length
      = max 1 ((rows.length + 19) / 20) ∧
    activityHistory (fetchActivityPages (some user) (activityBackend rows) fuel 0) = rows ∧
    ∃ last : ActivityPage,
      (fetchActivityPages (some user) (activityBackend rows) fuel 0).getLast? = some last ∧
      getNextPageParam last = none := by
  have h1 : 1 ≤ fuel := le_trans (le_max_left _ _) hfuel
  have h2 : (rows.length - 20 * 0 + 19) / 20 ≤ fuel := by
    simp only [Nat.mul_zero, Nat.sub_zero]
    exact le_trans (le_max_right _ _) hfuel
  have h := fetchActivityPages_from user rows hid fuel 0 h1 h2
  simpa using h

/-- C28 at the user `u1` and a list of 21 rows, with three fetches to spend: two pages are
fetched. -/
theorem fetchActivityPages_complete_witness :
    (⟨utf16 "u1", utf16 "a@b.co"⟩ : SessionUser).id ≠ [] ∧
    max 1 (((List.replicate 21 ([] : JsObject)).length + 19) / 20) ≤ 3 ∧
    (fetchActivityPages (some ⟨utf16 "u1", utf16 "a@b.co"⟩)
        (activityBackend (List.replicate 21 ([] : JsObject))) 3 0).length
      = max 1 (((List.replicate 21 ([] : JsObject)).length + 19) / 20) :=
  ⟨by decide, by decide,
    (fetchActivityPages_complete ⟨utf16 "u1", utf16 "a@b.co"⟩
      (List.replicate 21 ([] : JsObject)) 3 (by decide) (by decide)).1⟩

end Job
